import Mathlib

/-!
Shallow embedding of the red/black tree balancing engine of libswoc
(file swoc++/src/RBTree.cc, namespace swoc::detail, class RBNode).

The intrusive pointer graph is modelled as an arena: nodes live in a list
and a pointer is an index into that list (a null pointer is `none`).
Each node carries the fields of RBNode that the engine touches:
`color`, `parent`, `left`, `right`.  A `Heap` additionally records, in
`log`, the sequence of nodes on which the virtual hook
`structure_fixup` was invoked (the base-class hook mutates nothing, so
recording the invocation is its whole observable behavior).

Raw pointer dereferences of the source (for example `w->_color` in
`rebalance_after_remove`, where `w` is not checked against null) are
modelled by returning `none` from the embedding: a `none` result marks a
run that the C++ code would have performed an invalid dereference on.
Reads that the source performs through the color-comparison operators
(`operator==(RBNode*, Color)`), which treat a null node as BLACK, are
modelled by `nodeColor`.

Upward walks (`ripple_structure_fixup` and the two rebalance loops) are
modelled with explicit fuel `h.mem.length`: on any store whose parent
chains are acyclic and in range, that fuel is never exhausted.
-/

namespace swoc

/-- Color of a node, RBNode::Color. -/
inductive Color
  | RED
  | BLACK
deriving DecidableEq, Repr

/-- Direction, RBNode::Direction. -/
inductive Direction
  | NONE
  | LEFT
  | RIGHT
deriving DecidableEq, Repr

/-- The linkage fields of RBNode that the balancing engine reads and writes. -/
structure RBNode where
  color : Color
  parent : Option Nat
  left : Option Nat
  right : Option Nat
deriving DecidableEq, Repr

instance : Inhabited RBNode := ⟨⟨Color.BLACK, none, none, none⟩⟩

/-- Arena of nodes plus the log of structure_fixup invocations. -/
structure Heap where
  mem : List RBNode
  log : List Nat
deriving DecidableEq, Repr

/-- Read the node at index i (an out-of-range read yields the default node;
it never happens under the in-range hypotheses of the theorems below). -/
def getN (h : Heap) (i : Nat) : RBNode :=
  h.mem.getD i default

/-- Write the node at index i. -/
def setN (h : Heap) (i : Nat) (v : RBNode) : Heap :=
  { h with mem := h.mem.set i v }

/-- Update only the color field of node i. -/
def setColor (h : Heap) (i : Nat) (c : Color) : Heap :=
  setN h i { getN h i with color := c }

/-- Update only the parent field of node i. -/
def setParent (h : Heap) (i : Nat) (p : Option Nat) : Heap :=
  setN h i { getN h i with parent := p }

/-- Update only the left field of node i. -/
def setLeft (h : Heap) (i : Nat) (l : Option Nat) : Heap :=
  setN h i { getN h i with left := l }

/-- Update only the right field of node i. -/
def setRight (h : Heap) (i : Nat) (r : Option Nat) : Heap :=
  setN h i { getN h i with right := r }

/-- Modelled from the spec: the virtual structure-fixup hook of RBNode
(declared in the header, which is not part of the excerpted source).  The
base-class hook recomputes nothing; the embedding records the invocation
in the log so that invocation count and order are observable. -/
def structure_fixup (h : Heap) (i : Nat) : Heap :=
  { h with log := h.log ++ [i] }

/-- Color of a possibly-null node: a null node counts as BLACK.  This is
the comparison convention of operator==(RBNode*, Color) in RBTree.cc. -/
def nodeColor (h : Heap) (o : Option Nat) : Color :=
  match o with
  | some i => (getN h i).color
  | none => Color.BLACK

/-- RBNode::child_at, RBTree.cc lines 45-49. -/
def child_at (h : Heap) (i : Nat) (d : Direction) : Option Nat :=
  match d with
  | Direction.RIGHT => (getN h i).right
  | Direction.LEFT => (getN h i).left
  | Direction.NONE => none

/-- Modelled from the spec: RBNode::direction_of (declared in the header,
not part of the excerpted source): the direction of x as seen from p,
computed by identity comparison against the left and right links. -/
def direction_of (h : Heap) (p : Nat) (x : Option Nat) : Direction :=
  if (getN h p).left = x then Direction.LEFT
  else if (getN h p).right = x then Direction.RIGHT
  else Direction.NONE

/-- Modelled from the spec: flip exchanges LEFT and RIGHT and fixes NONE. -/
def flip : Direction → Direction
  | Direction.LEFT => Direction.RIGHT
  | Direction.RIGHT => Direction.LEFT
  | Direction.NONE => Direction.NONE

/-- RBNode::set_child, RBTree.cc lines 77-89: set the back reference of the
child (when the child is not null) and then the link of the parent. -/
def set_child (h : Heap) (p : Nat) (c : Option Nat) (d : Direction) : Heap :=
  let h1 : Heap :=
    match c with
    | some c0 => setParent h c0 (some p)
    | none => h
  match d with
  | Direction.RIGHT => setRight h1 p c
  | Direction.LEFT => setLeft h1 p c
  | Direction.NONE => h1

/-- Modelled from the spec: RBNode::clear_child (declared in the header, not
part of the excerpted source), the other sole mutator of left and right: it
resets the link of the given direction.  Every call site of the source
immediately relinks through set_child, which restores back-reference
synchronization. -/
def clear_child (h : Heap) (p : Nat) (d : Direction) : Heap :=
  match d with
  | Direction.RIGHT => setRight h p none
  | Direction.LEFT => setLeft h p none
  | Direction.NONE => h

/-- The relinking steps of RBNode::rotate, RBTree.cc lines 60-64: t is the
rotation target, c its child opposite to the rotation direction. -/
def rotateRelink (h : Heap) (t c : Nat) (dir other_dir : Direction) : Heap :=
  let h2 := clear_child h t other_dir
  let h3 := set_child h2 t (child_at h2 c dir) other_dir
  let h4 := clear_child h3 c dir
  set_child h4 c (some t) dir

/-- RBNode::rotate, RBTree.cc lines 51-75.  Returns the updated heap and the
node returned by the source (the new local root on success, the target
itself otherwise). -/
def rotate (h : Heap) (t : Nat) (dir : Direction) : Heap × Nat :=
  let parent := (getN h t).parent
  let child_dir :=
    match parent with
    | some p => direction_of h p (some t)
    | none => Direction.NONE
  let other_dir := flip dir
  if dir = Direction.NONE then (h, t)
  else
    match child_at h t other_dir with
    | none => (h, t)
    | some c =>
      let h1 := rotateRelink h t c dir other_dir
      let h2 := structure_fixup h1 c
      let h3 := structure_fixup h2 t
      match parent with
      | some p =>
        let h4 := clear_child h3 p child_dir
        let h5 := set_child h4 p (some c) child_dir
        (h5, c)
      | none => (setParent h3 c none, c)

/-- Loop of RBNode::ripple_structure_fixup, RBTree.cc lines 91-102,
with explicit fuel. -/
def rippleAux : Nat → Heap → Nat → Heap × Nat
  | 0, h, p => (h, p)
  | fuel + 1, h, p =>
    let h1 := structure_fixup h p
    match (getN h1 p).parent with
    | none => (h1, p)
    | some q => rippleAux fuel h1 q

/-- RBNode::ripple_structure_fixup: invoke the hook on every node from this
one up to the root and return the root. -/
def ripple_structure_fixup (h : Heap) (t : Nat) : Heap × Nat :=
  rippleAux h.mem.length h t

/-- RBNode::replace_with, RBTree.cc lines 104-125: install n in the
structural position of t. -/
def replace_with (h : Heap) (t n : Nat) : Heap :=
  let h1 := setColor h n (getN h t).color
  let h2 :=
    match (getN h1 t).parent with
    | some p =>
      let d := direction_of h1 p (some t)
      let h' := set_child h1 p none d
      if p ≠ n then set_child h' p (some n) d else h'
    | none => setParent h1 n none
  let h3 := setLeft h2 n none
  let h4 := setRight h3 n none
  let h5 :=
    match (getN h4 t).left with
    | some l => if l ≠ n then set_child h4 n (some l) Direction.LEFT else h4
    | none => h4
  let h6 :=
    match (getN h5 t).right with
    | some r => if r ≠ n then set_child h5 n (some r) Direction.RIGHT else h5
    | none => h5
  let h7 := setLeft h6 t none
  setRight h7 t none

/-- Loop of RBNode::left_most_descendant, RBTree.cc lines 369-377,
with explicit fuel. -/
def lmdAux : Nat → Heap → Nat → Nat
  | 0, _, n => n
  | fuel + 1, h, n =>
    match (getN h n).left with
    | none => n
    | some l => lmdAux fuel h l

/-- RBNode::left_most_descendant. -/
def left_most_descendant (h : Heap) (n : Nat) : Nat :=
  lmdAux h.mem.length h n

/-- Loop of RBNode::rebalance_after_insert, RBTree.cc lines 133-159, with
explicit fuel.  A `none` result marks a null dereference of the source
(write through a null parent or grandparent), which cannot occur on
well-formed inputs. -/
def raiLoop : Nat → Heap → Nat → Option (Heap × Nat)
  | 0, h, x => some (h, x)
  | fuel + 1, h, x =>
    if nodeColor h (getN h x).parent = Color.RED then
      match (getN h x).parent with
      | none => some (h, x)
      | some p =>
        match (getN h p).parent with
        | none => some (h, x)
        | some g =>
          let child_dir := direction_of h g (some p)
          let other_dir := flip child_dir
          let y := child_at h g other_dir
          if nodeColor h y = Color.RED then
            match y with
            | some yy =>
              let h1 := setColor h p Color.BLACK
              let h2 := setColor h1 yy Color.BLACK
              let h3 := setColor h2 g Color.RED
              raiLoop fuel h3 g
            | none => none
          else
            let hx :=
              if child_at h p other_dir = some x then ((rotate h p child_dir).1, p)
              else (h, x)
            let h1 := hx.1
            let x1 := hx.2
            match (getN h1 x1).parent with
            | none => none
            | some p1 =>
              let h2 := setColor h1 p1 Color.BLACK
              match (getN h2 p1).parent with
              | none => none
              | some g1 =>
                let h3 := setColor h2 g1 Color.RED
                let h4 := (rotate h3 g1 other_dir).1
                raiLoop fuel h4 x1
    else some (h, x)

/-- RBNode::rebalance_after_insert, RBTree.cc lines 128-168. -/
def rebalance_after_insert (h : Heap) (t : Nat) : Option (Heap × Nat) :=
  (raiLoop h.mem.length h t).bind (fun hx =>
    let hr := ripple_structure_fixup hx.1 t
    some (setColor hr.1 hr.2 Color.BLACK, hr.2))

/-- Loop of RBNode::rebalance_after_remove, RBTree.cc lines 272-317, with
explicit fuel.  The state is the current node n (null on the first
iteration when the removal left no node behind), its parent, survives
and the pending removal direction d.  A `none` result marks a null
dereference of the source: the unguarded reads and writes through w,
through the near child of w, and through wfc. -/
def rarLoop : Nat → Heap → Option Nat → Option Nat → Direction → Option Heap
  | 0, h, _, _, _ => some h
  | fuel + 1, h, n, parent, d =>
    match parent with
    | none => some h
    | some par =>
      if n ≠ none ∧ nodeColor h n = Color.RED then
        match n with
        | some nn => some (setColor h nn Color.BLACK)
        | none => some h
      else
        let near :=
          if (d = Direction.NONE ∧ direction_of h par n = Direction.RIGHT) ∨
              d = Direction.RIGHT
          then Direction.RIGHT else Direction.LEFT
        let far := flip near
        match child_at h par far with
        | none => none
        | some w0 =>
          let step1 : Option (Heap × Nat) :=
            if (getN h w0).color = Color.RED then
              let h1 := setColor h w0 Color.BLACK
              let h2 := setColor h1 par Color.RED
              let h3 := (rotate h2 par near).1
              match child_at h3 par far with
              | some w1 => some (h3, w1)
              | none => none
            else some (h, w0)
          match step1 with
          | none => none
          | some (h1, w) =>
            let wfc := child_at h1 w far
            if nodeColor h1 (child_at h1 w near) = Color.BLACK ∧
                nodeColor h1 wfc = Color.BLACK then
              let h2 := setColor h1 w Color.RED
              rarLoop fuel h2 (some par) (getN h2 par).parent Direction.NONE
            else
              let step2 : Option (Heap × Nat × Option Nat) :=
                if nodeColor h1 wfc = Color.BLACK then
                  match child_at h1 w near with
                  | none => none
                  | some wnc =>
                    let h2 := setColor h1 wnc Color.BLACK
                    let h3 := setColor h2 w Color.RED
                    let h4 := (rotate h3 w far).1
                    match child_at h4 par far with
                    | none => none
                    | some w1 => some (h4, w1, child_at h4 w1 far)
                else some (h1, w, wfc)
              match step2 with
              | none => none
              | some (h2, w2, wfc2) =>
                let h3 := setColor h2 w2 (getN h2 par).color
                let h4 := setColor h3 par Color.BLACK
                match wfc2 with
                | none => none
                | some wf =>
                  let h5 := setColor h4 wf Color.BLACK
                  some ((rotate h5 par near).1)

/-- RBNode::rebalance_after_remove, RBTree.cc lines 254-321: run the fixup
loop when the removed color was BLACK, then ripple the structure fixup
from the anchor and return the root. -/
def rebalance_after_remove (h : Heap) (t : Nat) (c : Color) (d : Direction) :
    Option (Heap × Nat) :=
  (if c = Color.BLACK then
    let n : Option Nat := some t
    let parent := (getN h t).parent
    let start := if d ≠ Direction.NONE then (none, some t) else (n, parent)
    rarLoop h.mem.length h start.1 start.2 d
  else some h).bind (fun h' => some (ripple_structure_fixup h' t))

/-- RBTree.cc lines 236-242: when the physically detached node is not the
removal target, keep the fixup anchor away from the target and swap the
detached node into the structural position of the target. -/
def removeFinish (h : Heap) (t remove_node splice : Nat) (c : Color)
    (d : Direction) : Heap × Nat × Color × Direction :=
  if remove_node ≠ t then
    let splice2 := if splice = t then remove_node else splice
    (replace_with h t remove_node, splice2, c, d)
  else (h, splice, c, d)

/-- RBTree.cc line 204: the node physically removed from the tree — the
successor (leftmost descendant of the right child) when the target has
both children, the target itself otherwise. -/
def detachedNode (h : Heap) (t : Nat) : Nat :=
  if (getN h t).left ≠ none ∧ (getN h t).right ≠ none then
    match (getN h t).right with
    | some r => left_most_descendant h r
    | none => t
  else t

/-- The part of RBNode::remove after the two special cases and before the
call to rebalance_after_remove, RBTree.cc lines 193-242: choose the node
to physically detach, splice it out, record the removed color and the
removal direction.  Returns the mutated heap, the fixup anchor, the color
passed to rebalance_after_remove and the direction passed to it.  A `none`
result marks the null dereference the source would perform if the detached
node had neither a child nor a parent (impossible after the special
cases). -/
def removeSplice (h : Heap) (t : Nat) : Option (Heap × Nat × Color × Direction) :=
  let remove_node := detachedNode h t
  let remove_color := (getN h remove_node).color
  match (getN h remove_node).left, (getN h remove_node).right with
  | some sc, _ =>
    let c1 := (getN h sc).color
    let h1 := replace_with h remove_node sc
    some (removeFinish h1 t remove_node sc c1 Direction.NONE)
  | none, some sc =>
    let c1 := (getN h sc).color
    let h1 := replace_with h remove_node sc
    some (removeFinish h1 t remove_node sc c1 Direction.NONE)
  | none, none =>
    match (getN h remove_node).parent with
    | none => none
    | some p =>
      let d := direction_of h p (some remove_node)
      let h1 := set_child h p none d
      some (removeFinish h1 t remove_node p remove_color d)

/-- RBNode::remove, RBTree.cc lines 171-247. -/
def remove (h : Heap) (t : Nat) : Option (Heap × Option Nat) :=
  let tn := getN h t
  if tn.parent = none ∧ ¬(tn.left ≠ none ∧ tn.right ≠ none) then
    match tn.left with
    | some l =>
      let h1 := setParent h l none
      some (setColor h1 l Color.BLACK, some l)
    | none =>
      match tn.right with
      | some r =>
        let h1 := setParent h r none
        some (setColor h1 r Color.BLACK, some r)
      | none => some (h, none)
  else
    (removeSplice h t).bind (fun hacd =>
      (rebalance_after_remove hacd.1 hacd.2.1 hacd.2.2.1 hacd.2.2.2).bind
        (fun hr => some (setColor hr.1 hr.2 Color.BLACK, some hr.2)))

/-- RBNode::validate as compiled, RBTree.cc lines 327-367: the whole check
body is preprocessor-disabled (guarded by an always-false conditional), so
the compiled function returns 0 for every tree. -/
def validate : Heap → Nat → Nat :=
  fun _ _ => 0

/-- Algebraic view of a subtree, used to state properties of the
(preprocessor-disabled) body of RBNode::validate, which is a structural
recursion over the two children. -/
inductive Tree
  | nil
  | node (c : Color) (l : Tree) (r : Tree)
deriving DecidableEq, Repr

/-- Diagnostic findings the disabled validate body writes to stdout. -/
inductive Finding
  | redRedChild
  | heightMismatch
deriving DecidableEq, Repr

/-- Whether the root of a subtree is a RED node; an absent node counts as
BLACK (the comparison convention used by the disabled validate body). -/
def redTop : Tree → Bool
  | Tree.node Color.RED _ _ => true
  | _ => false

/-- The preprocessor-disabled body of RBNode::validate, RBTree.cc lines
330-363, as a structural recursion on the algebraic tree: returns the
black height computed for the subtree (0 marks a detected defect) and the
list of findings printed, in print order.  The virtual structureValidate
hook of the base class returns true, so the corresponding reset branch of
the source is a no-op and is omitted. -/
def validateFull : Tree → Nat × List Finding
  | Tree.nil => (1, [])
  | Tree.node c l r =>
    let p1 := validateFull l
    let bh1 := p1.1
    let p2 :=
      if 0 < bh1 ∧ ¬(r = Tree.nil) then validateFull r
      else ((1 : Nat), ([] : List Finding))
    let bh2 := p2.1
    if bh1 = bh2 then
      let own :=
        if c = Color.BLACK then (bh1 + 1, ([] : List Finding))
        else if redTop l ∨ redTop r then ((0 : Nat), [Finding.redRedChild])
        else (bh1, ([] : List Finding))
      (own.1, p1.2 ++ p2.2 ++ own.2)
    else (0, p1.2 ++ p2.2 ++ [Finding.heightMismatch])

/-- The black height of a subtree when it is uniform across all paths to
absent children (absent children count BLACK, so the base value is 1);
`none` when two paths disagree. -/
def uniformBH : Tree → Option Nat
  | Tree.nil => some 1
  | Tree.node c l r =>
    match uniformBH l, uniformBH r with
    | some a, some b =>
      if a = b then some (a + (if c = Color.BLACK then 1 else 0)) else none
    | _, _ => none

/-- No RED node has a RED child anywhere in the subtree. -/
def noRedRed : Tree → Bool
  | Tree.nil => true
  | Tree.node c l r =>
    (if c = Color.RED then !redTop l && !redTop r else true) &&
      noRedRed l && noRedRed r

end swoc

namespace swoc

/-! Basic lemmas about the heap primitives. -/

theorem mem_getD_set_self :
    ∀ (l : List RBNode) (i : Nat) (v : RBNode), i < l.length →
      (l.set i v).getD i default = v := by
  intro l
  induction l with
  | nil => intro i v hi; simp at hi
  | cons a l ih =>
    intro i v hi
    cases i with
    | zero => rfl
    | succ n => exact ih n v (by simpa using hi)

theorem mem_getD_set_ne :
    ∀ (l : List RBNode) (i j : Nat) (v : RBNode), j ≠ i →
      (l.set i v).getD j default = l.getD j default := by
  intro l
  induction l with
  | nil => intro i j v _; rfl
  | cons a l ih =>
    intro i j v hji
    cases i with
    | zero =>
      cases j with
      | zero => exact absurd rfl hji
      | succ m => rfl
    | succ n =>
      cases j with
      | zero => rfl
      | succ m => exact ih n m v (fun e => hji (by rw [e]))

theorem getN_setN_self (h : Heap) (i : Nat) (v : RBNode)
    (hi : i < h.mem.length) : getN (setN h i v) i = v :=
  mem_getD_set_self h.mem i v hi

theorem getN_setN_ne (h : Heap) (i j : Nat) (v : RBNode) (hji : j ≠ i) :
    getN (setN h i v) j = getN h j :=
  mem_getD_set_ne h.mem i j v hji

theorem length_setN (h : Heap) (i : Nat) (v : RBNode) :
    (setN h i v).mem.length = h.mem.length := by
  simp [setN]

theorem log_setN (h : Heap) (i : Nat) (v : RBNode) :
    (setN h i v).log = h.log := rfl

theorem mem_structure_fixup (h : Heap) (i : Nat) :
    (structure_fixup h i).mem = h.mem := rfl

theorem log_structure_fixup (h : Heap) (i : Nat) :
    (structure_fixup h i).log = h.log ++ [i] := rfl

theorem getN_structure_fixup (h : Heap) (i j : Nat) :
    getN (structure_fixup h i) j = getN h j := rfl

theorem set_oob : ∀ (l : List RBNode) (i : Nat) (v : RBNode),
    l.length ≤ i → l.set i v = l := by
  intro l
  induction l with
  | nil => intro i v _; rfl
  | cons a l ih =>
    intro i v hi
    cases i with
    | zero => simp at hi
    | succ n => simpa using ih n v (by simpa using hi)

theorem setN_oob (h : Heap) (i : Nat) (v : RBNode)
    (hi : h.mem.length ≤ i) : setN h i v = h := by
  simp [setN, set_oob _ _ _ hi]

theorem getN_setN (h : Heap) (i : Nat) (v : RBNode) (j : Nat) :
    getN (setN h i v) j =
      if j = i ∧ i < h.mem.length then v else getN h j := by
  by_cases hj : j = i
  · subst hj
    by_cases hi : j < h.mem.length
    · simp [hi, getN_setN_self h j v hi]
    · simp [hi, setN_oob h j v (Nat.le_of_not_lt hi)]
  · simp [hj, getN_setN_ne h i j v hj]

theorem getN_setParent (h : Heap) (i : Nat) (q : Option Nat) (j : Nat) :
    (getN (setParent h i q) j).left = (getN h j).left ∧
    (getN (setParent h i q) j).right = (getN h j).right ∧
    (getN (setParent h i q) j).color = (getN h j).color := by
  rw [setParent, getN_setN]
  split
  · rename_i hh
    rw [hh.1]
    exact ⟨rfl, rfl, rfl⟩
  · exact ⟨rfl, rfl, rfl⟩

theorem mem_rippleAux : ∀ (fuel : Nat) (h : Heap) (p : Nat),
    (rippleAux fuel h p).1.mem = h.mem := by
  intro fuel
  induction fuel with
  | zero => intro h p; rfl
  | succ n ih =>
    intro h p
    show (match (getN (structure_fixup h p) p).parent with
      | none => (structure_fixup h p, p)
      | some q => rippleAux n (structure_fixup h p) q).1.mem = h.mem
    cases (getN (structure_fixup h p) p).parent with
    | none => rfl
    | some q => rw [ih, mem_structure_fixup]

theorem removeFinish_color (h : Heap) (t rn sp : Nat) (c : Color)
    (d : Direction) : (removeFinish h t rn sp c d).2.2.1 = c := by
  unfold removeFinish
  split <;> rfl

/-! Claim C5. -/

/-- C5: calling rotate with direction NONE, or with no child opposite to
the rotation direction, is a no-op: it returns the target node itself and
leaves the whole heap (every color, parent, left and right link, and even
the fixup log) unchanged. -/
theorem C5_rotate_noop (h : Heap) (t : Nat) (dir : Direction)
    (hcond : dir = Direction.NONE ∨ child_at h t (flip dir) = none) :
    rotate h t dir = (h, t) := by
  rcases hcond with hd | hc
  · simp [rotate, hd]
  · by_cases hd : dir = Direction.NONE
    · simp [rotate, hd]
    · simp [rotate, hd, hc]

/-- Single BLACK node with no children, used as a no-op rotation input. -/
def hC5 : Heap := ⟨[⟨Color.BLACK, none, none, none⟩], []⟩

/-- Witness for C5 at a concrete heap: the node has no right child, so a
LEFT rotation returns the node and the unchanged heap. -/
theorem C5_rotate_noop_witness :
    child_at hC5 0 (flip Direction.LEFT) = none ∧
    rotate hC5 0 Direction.LEFT = (hC5, 0) :=
  ⟨by decide, C5_rotate_noop hC5 0 Direction.LEFT (Or.inr (by decide))⟩

/-! Claim C6. -/

/-- C6: rebalance_after_remove with removed color RED changes no color and
no parent, left or right link anywhere: it reduces to the final
structure-fixup ripple from the anchor (which returns the root), and that
ripple leaves the node memory untouched. -/
theorem C6_red_removal_frame (h : Heap) (t : Nat) (d : Direction) :
    rebalance_after_remove h t Color.RED d =
      some (ripple_structure_fixup h t) ∧
    (ripple_structure_fixup h t).1.mem = h.mem := by
  constructor
  · simp [rebalance_after_remove]
  · exact mem_rippleAux h.mem.length h t

/-! Claim C7. -/

/-- Two unrelated BLACK nodes. -/
def hC7 : Heap :=
  ⟨[⟨Color.BLACK, none, none, none⟩, ⟨Color.BLACK, none, none, none⟩], []⟩

/-- Counterexample to C7 as stated: set_child with direction NONE writes
the parent back-reference of the child but no left or right link, so
afterwards node 1 has parent 0 while node 0 links to nothing — the claimed
mutual-consistency equivalence fails for d = NONE. -/
theorem C7_counterexample :
    (getN (set_child hC7 0 (some 1) Direction.NONE) 1).parent = some 0 ∧
    (getN (set_child hC7 0 (some 1) Direction.NONE) 0).left ≠ some 1 ∧
    (getN (set_child hC7 0 (some 1) Direction.NONE) 0).right ≠ some 1 := by
  decide

/-- C7 as amended: for d in LEFT and RIGHT, set_child synchronizes the
edge it creates — the child gets p as parent and p gets the child as its
d link — and it touches no other node; passing an absent child changes
only the link of p (no back-reference obligation), leaving the parent
field of p and every other node unchanged.  (With d = NONE the source
writes the back-reference without any link, and set_child never clears
the back-reference of a child it overwrites or detaches, so the global
parent-iff-link equivalence of the original claim is not established by a
single call.) -/
theorem C7_set_child_sync (h : Heap) (p c : Nat) (d : Direction)
    (hp : p < h.mem.length) (hc : c < h.mem.length)
    (hd : d ≠ Direction.NONE) :
    (getN (set_child h p (some c) d) c).parent = some p ∧
    child_at (set_child h p (some c) d) p d = some c ∧
    (∀ i, i ≠ p → i ≠ c → getN (set_child h p (some c) d) i = getN h i) ∧
    (∀ i, i ≠ p → getN (set_child h p none d) i = getN h i) ∧
    (getN (set_child h p none d) p).parent = (getN h p).parent := by
  have hlen : (setParent h c (some p)).mem.length = h.mem.length :=
    length_setN _ _ _
  cases d with
  | NONE => exact absurd rfl hd
  | LEFT =>
    refine ⟨?_, ?_, ?_, ?_, ?_⟩
    · by_cases hpc : c = p
      · subst hpc
        simp [set_child, setLeft, setParent, getN_setN, length_setN, hp, hc]
      · simp [set_child, setLeft, setParent, getN_setN, length_setN, hp, hc, hpc]
    · simp [set_child, child_at, setLeft, setParent, getN_setN, length_setN, hp, hc]
    · intro i hip hic
      simp [set_child, setLeft, setParent, getN_setN, hip, hic]
    · intro i hip
      simp [set_child, setLeft, getN_setN, hip]
    · simp [set_child, setLeft, getN_setN, hp]
  | RIGHT =>
    refine ⟨?_, ?_, ?_, ?_, ?_⟩
    · by_cases hpc : c = p
      · subst hpc
        simp [set_child, setRight, setParent, getN_setN, length_setN, hp, hc]
      · simp [set_child, setRight, setParent, getN_setN, length_setN, hp, hc, hpc]
    · simp [set_child, child_at, setRight, setParent, getN_setN, length_setN, hp, hc]
    · intro i hip hic
      simp [set_child, setRight, setParent, getN_setN, hip, hic]
    · intro i hip
      simp [set_child, setRight, getN_setN, hip]
    · simp [set_child, setRight, getN_setN, hp]

/-! Claim C4. -/

theorem log_set_child (h : Heap) (p : Nat) (cc : Option Nat) (d : Direction) :
    (set_child h p cc d).log = h.log := by
  cases cc <;> cases d <;> rfl

theorem log_clear_child (h : Heap) (p : Nat) (d : Direction) :
    (clear_child h p d).log = h.log := by
  cases d <;> rfl

theorem log_rotateRelink (h : Heap) (t c : Nat) (dir od : Direction) :
    (rotateRelink h t c dir od).log = h.log := by
  simp [rotateRelink, log_set_child, log_clear_child]

theorem lr_set_child (h : Heap) (p : Nat) (cc : Option Nat) (d : Direction)
    (i : Nat) (hip : i ≠ p) :
    (getN (set_child h p cc d) i).left = (getN h i).left ∧
    (getN (set_child h p cc d) i).right = (getN h i).right := by
  cases cc with
  | none =>
    cases d <;>
      simp [set_child, setLeft, setRight, getN_setN_ne _ _ _ _ hip]
  | some c0 =>
    cases d <;>
      simp [set_child, setLeft, setRight, getN_setN_ne _ _ _ _ hip,
        getN_setParent]

theorem getN_clear_child_ne (h : Heap) (p : Nat) (d : Direction) (i : Nat)
    (hip : i ≠ p) : getN (clear_child h p d) i = getN h i := by
  cases d <;> simp [clear_child, setLeft, setRight, getN_setN_ne _ _ _ _ hip]

/-- Target node with a right child, ready for a LEFT rotation. -/
def hC4 : Heap :=
  ⟨[⟨Color.BLACK, none, none, some 1⟩, ⟨Color.RED, some 0, none, none⟩], []⟩

/-- Counterexample to C4 as stated: in a successful LEFT rotation of node
0 with right child 1, the structure-fixup hook runs first on the NEW
LOCAL ROOT (node 1) and then on the demoted rotation target (node 0) —
the log is [1, 0] — whereas the claim asserts the bottom-up order, target
first (log [0, 1]). -/
theorem C4_counterexample :
    (rotate hC4 0 Direction.LEFT).1.log = [1, 0] ∧
    (rotate hC4 0 Direction.LEFT).1.log ≠ [0, 1] := by
  decide

/-- C4 as amended: in every successful rotation the hook is invoked
exactly once on each of the two restructured nodes, after their child
links are rewritten — the heap in which each hook runs is the relinked
heap `rotateRelink h t c dir (flip dir)`, whose mem the hooks do not
change, and the child links of both nodes there already agree with the
final heap — but the order is top-down: first the new local root c, then
the demoted rotation target t. -/
theorem C4_rotate_fixup_order (h : Heap) (t c : Nat) (dir : Direction)
    (hdir : dir ≠ Direction.NONE) (hc : child_at h t (flip dir) = some c)
    (hpar : ∀ p, (getN h t).parent = some p → p ≠ t ∧ p ≠ c) :
    (rotate h t dir).1.log = h.log ++ [c, t] ∧
    (rotate h t dir).2 = c ∧
    (getN (rotate h t dir).1 c).left =
      (getN (rotateRelink h t c dir (flip dir)) c).left ∧
    (getN (rotate h t dir).1 c).right =
      (getN (rotateRelink h t c dir (flip dir)) c).right ∧
    (getN (rotate h t dir).1 t).left =
      (getN (rotateRelink h t c dir (flip dir)) t).left ∧
    (getN (rotate h t dir).1 t).right =
      (getN (rotateRelink h t c dir (flip dir)) t).right := by
  cases hp : (getN h t).parent with
  | none =>
    simp only [rotate, hp, hc, if_neg hdir]
    refine ⟨?_, trivial, ?_, ?_, ?_, ?_⟩
    · simp [setParent, log_setN, log_structure_fixup, log_rotateRelink]
    · exact (getN_setParent _ _ _ _).1
    · exact (getN_setParent _ _ _ _).2.1
    · exact (getN_setParent _ _ _ _).1
    · exact (getN_setParent _ _ _ _).2.1
  | some p =>
    obtain ⟨hpt, hpc⟩ := hpar p hp
    simp only [rotate, hp, hc, if_neg hdir]
    refine ⟨?_, trivial, ?_, ?_, ?_, ?_⟩
    · simp [log_set_child, log_clear_child, log_structure_fixup,
        log_rotateRelink]
    · rw [(lr_set_child _ _ _ _ _ (Ne.symm hpc)).1,
        getN_clear_child_ne _ _ _ _ (Ne.symm hpc)]
      rfl
    · rw [(lr_set_child _ _ _ _ _ (Ne.symm hpc)).2,
        getN_clear_child_ne _ _ _ _ (Ne.symm hpc)]
      rfl
    · rw [(lr_set_child _ _ _ _ _ (Ne.symm hpt)).1,
        getN_clear_child_ne _ _ _ _ (Ne.symm hpt)]
      rfl
    · rw [(lr_set_child _ _ _ _ _ (Ne.symm hpt)).2,
        getN_clear_child_ne _ _ _ _ (Ne.symm hpt)]
      rfl

/-- Three-node chain: 0 is the parent of 1, 1 has right child 2, used as a
rotation input with a live parent link. -/
def hC4w : Heap :=
  ⟨[⟨Color.BLACK, none, some 1, none⟩, ⟨Color.BLACK, some 0, none, some 2⟩,
    ⟨Color.RED, some 1, none, none⟩], []⟩

/-- Witness for the amended C4 at a concrete heap. -/
theorem C4_rotate_fixup_order_witness :
    (Direction.LEFT ≠ Direction.NONE ∧
      child_at hC4w 1 (flip Direction.LEFT) = some 2) ∧
    (rotate hC4w 1 Direction.LEFT).1.log = hC4w.log ++ [2, 1] ∧
    (rotate hC4w 1 Direction.LEFT).2 = 2 :=
  ⟨⟨by decide, by decide⟩,
    (C4_rotate_fixup_order hC4w 1 2 Direction.LEFT (by decide) (by decide)
      (by
        intro p hp
        rw [show (getN hC4w 1).parent = some 0 from by decide] at hp
        injection hp with hp0
        subst hp0
        exact ⟨by decide, by decide⟩)).1,
    (C4_rotate_fixup_order hC4w 1 2 Direction.LEFT (by decide) (by decide)
      (by
        intro p hp
        rw [show (getN hC4w 1).parent = some 0 from by decide] at hp
        injection hp with hp0
        subst hp0
        exact ⟨by decide, by decide⟩)).2.1⟩

/-! Claim C2. -/

/-- C2: the color handed to rebalance_after_remove by the splicing stage
of remove: when the physically detached node has a child (which is
promoted into its place by replace_with), it is the original color of
that promoted child read before any relinking; only when the detached
node has no child is it the detached node color itself. -/
theorem C2_remove_color_passed (h : Heap) (t : Nat)
    (res : Heap × Nat × Color × Direction)
    (hres : removeSplice h t = some res) :
    res.2.2.1 =
      (match (getN h (detachedNode h t)).left,
          (getN h (detachedNode h t)).right with
        | some sc, _ => (getN h sc).color
        | none, some sc => (getN h sc).color
        | none, none => (getN h (detachedNode h t)).color) := by
  cases hl : (getN h (detachedNode h t)).left with
  | some sc =>
    simp only [removeSplice, hl] at hres
    injection hres with hres
    rw [← hres]
    simp [removeFinish_color]
  | none =>
    cases hr : (getN h (detachedNode h t)).right with
    | some sc =>
      simp only [removeSplice, hl, hr] at hres
      injection hres with hres
      rw [← hres]
      simp [removeFinish_color]
    | none =>
      cases hpp : (getN h (detachedNode h t)).parent with
      | none => simp [removeSplice, hl, hr, hpp] at hres
      | some p =>
        simp only [removeSplice, hl, hr, hpp] at hres
        injection hres with hres
        rw [← hres]
        simp [removeFinish_color]

/-- Root 0 BLACK with RED left leaf child 1. -/
def hC2 : Heap :=
  ⟨[⟨Color.BLACK, none, some 1, none⟩, ⟨Color.RED, some 0, none, none⟩], []⟩

/-- Witness for C2 at a concrete heap: removing the childless RED leaf 1
passes the color of the leaf itself. -/
theorem C2_remove_color_passed_witness :
    removeSplice hC2 1 =
      some (set_child hC2 0 none Direction.LEFT, 0, Color.RED,
        Direction.LEFT) ∧
    (set_child hC2 0 none Direction.LEFT, 0, Color.RED,
        Direction.LEFT).2.2.1 = Color.RED :=
  ⟨by decide,
    (C2_remove_color_passed hC2 1 _ (by decide)).trans (by decide)⟩

/-! Claim C9. -/

theorem uniformBH_node_inv (c : Color) (l r : Tree) (a : Nat)
    (ha : uniformBH (Tree.node c l r) = some a) :
    ∃ al, uniformBH l = some al ∧ uniformBH r = some al ∧
      a = al + (if c = Color.BLACK then 1 else 0) := by
  simp only [uniformBH] at ha
  rcases hul : uniformBH l with _ | al <;> rw [hul] at ha
  · exact absurd ha (by simp)
  · rcases hur : uniformBH r with _ | ar <;> rw [hur] at ha
    · exact absurd ha (by simp)
    · have ha' : (if al = ar then
          some (al + if c = Color.BLACK then 1 else 0) else none) = some a := ha
      by_cases hab : al = ar
      · subst hab
        rw [if_pos rfl] at ha'
        injection ha' with ha'
        exact ⟨al, rfl, rfl, ha'.symm⟩
      · rw [if_neg hab] at ha'
        exact absurd ha' (by simp)

theorem uniformBH_nil_inv (a : Nat) (ha : uniformBH Tree.nil = some a) :
    a = 1 := by
  simp only [uniformBH] at ha
  injection ha with ha
  exact ha.symm

theorem uniformBH_pos : ∀ (t : Tree) (a : Nat), uniformBH t = some a → 0 < a := by
  intro t
  induction t with
  | nil =>
    intro a ha
    rw [uniformBH_nil_inv a ha]
    omega
  | node c l r ihl ihr =>
    intro a ha
    obtain ⟨al, hl, _, hav⟩ := uniformBH_node_inv c l r a ha
    have hp := ihl al hl
    rw [hav]
    cases c with
    | RED => simpa using hp
    | BLACK => simp

theorem validateFull_valid :
    ∀ (t : Tree) (a : Nat), noRedRed t = true → uniformBH t = some a →
      validateFull t = (a, []) := by
  intro t
  induction t with
  | nil =>
    intro a _ ha
    rw [uniformBH_nil_inv a ha]
    rfl
  | node c l r ihl ihr =>
    intro a hrr ha
    simp only [noRedRed, Bool.and_eq_true] at hrr
    obtain ⟨⟨hc, hl1⟩, hr1⟩ := hrr
    obtain ⟨al, hl, hr, hav⟩ := uniformBH_node_inv c l r a ha
    have hvl := ihl al hl1 hl
    have hvr := ihr al hr1 hr
    have hpos := uniformBH_pos l al hl
    have hred : c = Color.RED → redTop l = false ∧ redTop r = false := by
      intro hcr
      rw [hcr] at hc
      simp only [eq_self_iff_true, if_true, Bool.and_eq_true,
        Bool.not_eq_true'] at hc
      exact hc
    show validateFull (Tree.node c l r) = (a, [])
    by_cases hrn : r = Tree.nil
    · have h1 : al = 1 := uniformBH_nil_inv al (by rw [← hrn]; exact hr)
      subst hrn
      subst h1
      cases c with
      | BLACK =>
        rw [hav]
        simp [validateFull, hvl]
      | RED =>
        obtain ⟨hrl, hrr2⟩ := hred rfl
        rw [hav]
        simp [validateFull, hvl, hrl, hrr2]
    · cases c with
      | BLACK =>
        rw [hav]
        simp [validateFull, hvl, hvr, hpos, hrn]
      | RED =>
        obtain ⟨hrl, hrr2⟩ := hred rfl
        rw [hav]
        simp [validateFull, hvl, hvr, hpos, hrn, hrl, hrr2]

theorem validateFull_defect :
    ∀ t : Tree, noRedRed t = false ∨ uniformBH t = none →
      (validateFull t).1 = 0 ∧ (validateFull t).2 ≠ [] := by
  intro t
  induction t with
  | nil =>
    intro hdef
    rcases hdef with hdef | hdef <;> simp [noRedRed, uniformBH] at hdef
  | node c l r ihl ihr =>
    intro hdef
    by_cases hld : noRedRed l = false ∨ uniformBH l = none
    · obtain ⟨hz, hf⟩ := ihl hld
      obtain ⟨fl, hfl⟩ : ∃ f, validateFull l = (0, f) :=
        ⟨(validateFull l).2, by rw [← hz]⟩
      have hfne : fl ≠ [] := by
        intro hcon
        rw [hcon] at hfl
        exact hf (by rw [hfl])
      exact ⟨by simp [validateFull, hfl], by simp [validateFull, hfl]⟩
    · push_neg at hld
      obtain ⟨hl1, hl2⟩ := hld
      have hl1' : noRedRed l = true := by
        cases hnl : noRedRed l
        · exact absurd hnl hl1
        · rfl
      obtain ⟨al, hal⟩ : ∃ a, uniformBH l = some a := by
        cases hul : uniformBH l
        · exact absurd hul hl2
        · exact ⟨_, rfl⟩
      have hvl := validateFull_valid l al hl1' hal
      have hposl := uniformBH_pos l al hal
      have halne : ¬(al = 0) := by omega
      by_cases hrd : noRedRed r = false ∨ uniformBH r = none
      · obtain ⟨hz, hf⟩ := ihr hrd
        obtain ⟨fr, hfr⟩ : ∃ f, validateFull r = (0, f) :=
          ⟨(validateFull r).2, by rw [← hz]⟩
        have hrnil : r ≠ Tree.nil := by
          intro hn
          rw [hn] at hrd
          rcases hrd with hh | hh <;> simp [noRedRed, uniformBH] at hh
        refine ⟨?_, ?_⟩
        · simp [validateFull, hvl, hfr, hposl, hrnil, halne]
        · simp [validateFull, hvl, hfr, hposl, hrnil, halne]
      · push_neg at hrd
        obtain ⟨hr1, hr2⟩ := hrd
        have hr1' : noRedRed r = true := by
          cases hnr : noRedRed r
          · exact absurd hnr hr1
          · rfl
        obtain ⟨ar, har⟩ : ∃ a, uniformBH r = some a := by
          cases hur : uniformBH r
          · exact absurd hur hr2
          · exact ⟨_, rfl⟩
        have hvr := validateFull_valid r ar hr1' har
        have hM : al ≠ ar ∨ (c = Color.RED ∧ (redTop l ∨ redTop r)) := by
          rcases hdef with hdef | hdef
          · simp only [noRedRed, Bool.and_eq_true] at hdef
            rw [hl1', hr1'] at hdef
            cases hcc : c with
            | BLACK => rw [hcc] at hdef; simp at hdef
            | RED =>
              rw [hcc] at hdef
              simp only [eq_self_iff_true, if_true] at hdef
              right
              refine ⟨rfl, ?_⟩
              by_contra hno
              push_neg at hno
              have h1 : redTop l = false := by
                cases hx : redTop l
                · rfl
                · exact absurd hx (by simpa using hno.1)
              have h2 : redTop r = false := by
                cases hx : redTop r
                · rfl
                · exact absurd hx (by simpa using hno.2)
              rw [h1, h2] at hdef
              simp at hdef
          · left
            intro hab
            have hcon : uniformBH (Tree.node c l r) =
                some (al + if c = Color.BLACK then 1 else 0) := by
              simp only [uniformBH, hal, har]
              have hit : (if al = ar then
                  some (al + if c = Color.BLACK then 1 else 0)
                  else none) =
                  some (al + if c = Color.BLACK then 1 else 0) := by
                rw [if_pos hab]
              exact hit
            rw [hdef] at hcon
            exact Option.noConfusion hcon
        by_cases hrn : r = Tree.nil
        · have h1 : ar = 1 := uniformBH_nil_inv ar (by rw [← hrn]; exact har)
          subst hrn
          subst h1
          rcases hM with hM | hM
          · refine ⟨?_, ?_⟩
            · simp [validateFull, hvl, hM]
            · simp [validateFull, hvl, hM]
          · obtain ⟨hcc, hred⟩ := hM
            subst hcc
            have hredl : redTop l = true := by
              rcases hred with hh | hh
              · exact hh
              · simp [redTop] at hh
            by_cases hab : al = 1
            · refine ⟨?_, ?_⟩
              · simp [validateFull, hvl, hab, hredl]
              · simp [validateFull, hvl, hab, hredl]
            · refine ⟨?_, ?_⟩
              · simp [validateFull, hvl, hab]
              · simp [validateFull, hvl, hab]
        · rcases hM with hM | hM
          · refine ⟨?_, ?_⟩
            · simp [validateFull, hvl, hvr, hposl, hrn, hM]
            · simp [validateFull, hvl, hvr, hposl, hrn, hM]
          · obtain ⟨hcc, hred⟩ := hM
            subst hcc
            by_cases hab : al = ar
            · subst hab
              refine ⟨?_, ?_⟩
              · simp [validateFull, hvl, hvr, hposl, hrn, hred]
              · simp [validateFull, hvl, hvr, hposl, hrn, hred]
            · refine ⟨?_, ?_⟩
              · simp [validateFull, hvl, hvr, hposl, hrn, hab]
              · simp [validateFull, hvl, hvr, hposl, hrn, hab]


/-- Heap with a RED root whose left child is also RED: a red-red defect. -/
def hC9d : Heap :=
  ⟨[⟨Color.RED, none, some 1, none⟩, ⟨Color.RED, some 0, none, none⟩], []⟩

/-- Heap with a single BLACK node: a valid red-black tree. -/
def hC9v : Heap := ⟨[⟨Color.BLACK, none, none, none⟩], []⟩

/-- Counterexample to C9 as stated: the compiled validate (its whole check
body is preprocessor-disabled) returns 0 both on a tree with a RED node
whose left child is RED and on a valid single-node tree — it detects
nothing and cannot distinguish defective trees from valid ones. -/
theorem C9_counterexample :
    (getN hC9d 0).color = Color.RED ∧ (getN hC9d 0).left = some 1 ∧
    (getN hC9d 1).color = Color.RED ∧
    (getN hC9v 0).color = Color.BLACK ∧ (getN hC9v 0).left = none ∧
    (getN hC9v 0).right = none ∧
    validate hC9d 0 = 0 ∧ validate hC9v 0 = 0 ∧
    validate hC9d 0 = validate hC9v 0 := by
  decide

/-- C9 as amended: the compiled validate returns 0 unconditionally (the
exhaustive recursive check of the source is disabled by the preprocessor);
the disabled check body itself, modelled by validateFull, does distinguish
and report: on every subtree with equal positive black heights and no
red-red adjacency it returns that black height (positive) with no
findings, and on every subtree with a red-red adjacency or non-uniform
black height it returns 0 and a nonempty findings list. -/
theorem C9_validate_diagnostic :
    (∀ (h : Heap) (i : Nat), validate h i = 0) ∧
    (∀ (t : Tree) (a : Nat), noRedRed t = true → uniformBH t = some a →
      validateFull t = (a, []) ∧ 0 < a) ∧
    (∀ t : Tree, noRedRed t = false ∨ uniformBH t = none →
      (validateFull t).1 = 0 ∧ (validateFull t).2 ≠ []) :=
  ⟨fun _ _ => rfl,
    fun t a h1 h2 => ⟨validateFull_valid t a h1 h2, uniformBH_pos t a h2⟩,
    validateFull_defect⟩

/-- Witness for the amended C9: a concrete valid tree gets its black
height back with no findings, and a concrete red-red tree gets 0 and a
finding. -/
theorem C9_validate_diagnostic_witness :
    (noRedRed (Tree.node Color.BLACK Tree.nil Tree.nil) = true ∧
      uniformBH (Tree.node Color.BLACK Tree.nil Tree.nil) = some 2) ∧
    validateFull (Tree.node Color.BLACK Tree.nil Tree.nil) = (2, []) ∧
    (noRedRed (Tree.node Color.RED
        (Tree.node Color.RED Tree.nil Tree.nil) Tree.nil) = false) ∧
    (validateFull (Tree.node Color.RED
        (Tree.node Color.RED Tree.nil Tree.nil) Tree.nil)).1 = 0 ∧
    (validateFull (Tree.node Color.RED
        (Tree.node Color.RED Tree.nil Tree.nil) Tree.nil)).2 ≠ [] :=
  ⟨⟨by decide, by decide⟩,
    (C9_validate_diagnostic.2.1 (Tree.node Color.BLACK Tree.nil Tree.nil) 2
      (by decide) (by decide)).1,
    by decide,
    (C9_validate_diagnostic.2.2 (Tree.node Color.RED
      (Tree.node Color.RED Tree.nil Tree.nil) Tree.nil)
      (Or.inl (by decide))).1,
    (C9_validate_diagnostic.2.2 (Tree.node Color.RED
      (Tree.node Color.RED Tree.nil Tree.nil) Tree.nil)
      (Or.inl (by decide))).2⟩

/-- Witness for the amended C7 at a concrete heap. -/
theorem C7_set_child_sync_witness :
    (0 < hC7.mem.length ∧ 1 < hC7.mem.length ∧
      Direction.LEFT ≠ Direction.NONE) ∧
    (getN (set_child hC7 0 (some 1) Direction.LEFT) 1).parent = some 0 ∧
    child_at (set_child hC7 0 (some 1) Direction.LEFT) 0 Direction.LEFT =
      some 1 :=
  ⟨⟨by decide, by decide, by decide⟩,
    (C7_set_child_sync hC7 0 1 Direction.LEFT (by decide) (by decide)
      (by decide)).1,
    (C7_set_child_sync hC7 0 1 Direction.LEFT (by decide) (by decide)
      (by decide)).2.1⟩

end swoc

/-! Claim C3: helper lemmas characterizing single-field heap writes. -/

namespace swoc

theorem getN_setColor (h : Heap) (i : Nat) (c : Color) (j : Nat) :
    getN (setColor h i c) j =
      if j = i ∧ i < h.mem.length then { getN h i with color := c }
      else getN h j := getN_setN h i _ j

theorem getN_setParent' (h : Heap) (i : Nat) (q : Option Nat) (j : Nat) :
    getN (setParent h i q) j =
      if j = i ∧ i < h.mem.length then { getN h i with parent := q }
      else getN h j := getN_setN h i _ j

theorem getN_setLeft (h : Heap) (i : Nat) (v : Option Nat) (j : Nat) :
    getN (setLeft h i v) j =
      if j = i ∧ i < h.mem.length then { getN h i with left := v }
      else getN h j := getN_setN h i _ j

theorem getN_setRight (h : Heap) (i : Nat) (v : Option Nat) (j : Nat) :
    getN (setRight h i v) j =
      if j = i ∧ i < h.mem.length then { getN h i with right := v }
      else getN h j := getN_setN h i _ j

theorem length_setColor (h : Heap) (i : Nat) (c : Color) :
    (setColor h i c).mem.length = h.mem.length := length_setN _ _ _

theorem length_setParent (h : Heap) (i : Nat) (q : Option Nat) :
    (setParent h i q).mem.length = h.mem.length := length_setN _ _ _

theorem length_setLeft (h : Heap) (i : Nat) (v : Option Nat) :
    (setLeft h i v).mem.length = h.mem.length := length_setN _ _ _

theorem length_setRight (h : Heap) (i : Nat) (v : Option Nat) :
    (setRight h i v).mem.length = h.mem.length := length_setN _ _ _


end swoc

namespace swoc

set_option maxHeartbeats 4000000

theorem replace_with_frame (h : Heap) (t n i : Nat)
    (ht : t < h.mem.length) (hn : n < h.mem.length) (htn : t ≠ n)
    (hit : i ≠ t) (hin : i ≠ n)
    (htp2 : (getN h t).parent ≠ some t)
    (htl2 : (getN h t).left ≠ some t)
    (htr2 : (getN h t).right ≠ some t)
    (hnotp : (getN h t).parent ≠ some i)
    (hnotl : (getN h t).left ≠ some i)
    (hnotr : (getN h t).right ≠ some i) :
    getN (replace_with h t n) i = getN h i := by
  have hnt : n ≠ t := Ne.symm htn
  rcases hP : (getN h t).parent with _ | p <;>
    rcases hL : (getN h t).left with _ | l <;>
      rcases hR : (getN h t).right with _ | r
  · all_goals simp [replace_with, set_child, clear_child, direction_of,
      getN_setColor, getN_setParent', getN_setLeft, getN_setRight,
      length_setColor, length_setParent, length_setLeft, length_setRight,
      hP, hL, hR, ht, hn, htn, hnt, hit, hin]
  · have hir : i ≠ r := by intro e; apply hnotr; rw [hR, ← e]
    have htr3 : t ≠ r := by intro e; apply htr2; rw [hR, ← e]
    all_goals by_cases hrn : r = n
    all_goals simp [replace_with, set_child, clear_child, direction_of,
      getN_setColor, getN_setParent', getN_setLeft, getN_setRight,
      length_setColor, length_setParent, length_setLeft, length_setRight,
      hP, hL, hR, ht, hn, htn, hnt, hit, hin, hrn,
      hir,
      htr3,
      Ne.symm hir,
      Ne.symm htr3]
  · have hil : i ≠ l := by intro e; apply hnotl; rw [hL, ← e]
    have htl3 : t ≠ l := by intro e; apply htl2; rw [hL, ← e]
    all_goals by_cases hln : l = n
    all_goals simp [replace_with, set_child, clear_child, direction_of,
      getN_setColor, getN_setParent', getN_setLeft, getN_setRight,
      length_setColor, length_setParent, length_setLeft, length_setRight,
      hP, hL, hR, ht, hn, htn, hnt, hit, hin, hln,
      hil,
      htl3,
      Ne.symm hil,
      Ne.symm htl3]
  · have hil : i ≠ l := by intro e; apply hnotl; rw [hL, ← e]
    have htl3 : t ≠ l := by intro e; apply htl2; rw [hL, ← e]
    have hir : i ≠ r := by intro e; apply hnotr; rw [hR, ← e]
    have htr3 : t ≠ r := by intro e; apply htr2; rw [hR, ← e]
    all_goals by_cases hln : l = n
    all_goals by_cases hrn : r = n
    all_goals simp [replace_with, set_child, clear_child, direction_of,
      getN_setColor, getN_setParent', getN_setLeft, getN_setRight,
      length_setColor, length_setParent, length_setLeft, length_setRight,
      hP, hL, hR, ht, hn, htn, hnt, hit, hin, hln, hrn,
      hil,
      htl3,
      Ne.symm hil,
      Ne.symm htl3,
      hir,
      htr3,
      Ne.symm hir,
      Ne.symm htr3]
  · have hip : i ≠ p := by intro e; apply hnotp; rw [hP, ← e]
    have htp3 : t ≠ p := by intro e; apply htp2; rw [hP, ← e]
    all_goals by_cases hpn : p = n
    all_goals by_cases hpd : (getN h p).left = some t
    all_goals by_cases hpd2 : (getN h p).right = some t
    all_goals try simp only [hpn] at hpd hpd2
    all_goals simp [replace_with, set_child, clear_child, direction_of,
      getN_setColor, getN_setParent', getN_setLeft, getN_setRight,
      length_setColor, length_setParent, length_setLeft, length_setRight,
      hP, hL, hR, ht, hn, htn, hnt, hit, hin, hpn,
      hip,
      htp3,
      Ne.symm hip,
      Ne.symm htp3,
      hpd, hpd2]
  · have hip : i ≠ p := by intro e; apply hnotp; rw [hP, ← e]
    have htp3 : t ≠ p := by intro e; apply htp2; rw [hP, ← e]
    have hir : i ≠ r := by intro e; apply hnotr; rw [hR, ← e]
    have htr3 : t ≠ r := by intro e; apply htr2; rw [hR, ← e]
    all_goals by_cases hrn : r = n
    all_goals by_cases hpn : p = n
    all_goals by_cases hpd : (getN h p).left = some t
    all_goals by_cases hpd2 : (getN h p).right = some t
    all_goals try simp only [hpn] at hpd hpd2
    all_goals simp [replace_with, set_child, clear_child, direction_of,
      getN_setColor, getN_setParent', getN_setLeft, getN_setRight,
      length_setColor, length_setParent, length_setLeft, length_setRight,
      hP, hL, hR, ht, hn, htn, hnt, hit, hin, hrn, hpn,
      hip,
      htp3,
      Ne.symm hip,
      Ne.symm htp3,
      hir,
      htr3,
      Ne.symm hir,
      Ne.symm htr3,
      hpd, hpd2]
  · have hip : i ≠ p := by intro e; apply hnotp; rw [hP, ← e]
    have htp3 : t ≠ p := by intro e; apply htp2; rw [hP, ← e]
    have hil : i ≠ l := by intro e; apply hnotl; rw [hL, ← e]
    have htl3 : t ≠ l := by intro e; apply htl2; rw [hL, ← e]
    all_goals by_cases hln : l = n
    all_goals by_cases hpn : p = n
    all_goals by_cases hpd : (getN h p).left = some t
    all_goals by_cases hpd2 : (getN h p).right = some t
    all_goals try simp only [hpn] at hpd hpd2
    all_goals simp [replace_with, set_child, clear_child, direction_of,
      getN_setColor, getN_setParent', getN_setLeft, getN_setRight,
      length_setColor, length_setParent, length_setLeft, length_setRight,
      hP, hL, hR, ht, hn, htn, hnt, hit, hin, hln, hpn,
      hip,
      htp3,
      Ne.symm hip,
      Ne.symm htp3,
      hil,
      htl3,
      Ne.symm hil,
      Ne.symm htl3,
      hpd, hpd2]
  · have hip : i ≠ p := by intro e; apply hnotp; rw [hP, ← e]
    have htp3 : t ≠ p := by intro e; apply htp2; rw [hP, ← e]
    have hil : i ≠ l := by intro e; apply hnotl; rw [hL, ← e]
    have htl3 : t ≠ l := by intro e; apply htl2; rw [hL, ← e]
    have hir : i ≠ r := by intro e; apply hnotr; rw [hR, ← e]
    have htr3 : t ≠ r := by intro e; apply htr2; rw [hR, ← e]
    all_goals by_cases hln : l = n
    all_goals by_cases hrn : r = n
    all_goals by_cases hpn : p = n
    all_goals by_cases hpd : (getN h p).left = some t
    all_goals by_cases hpd2 : (getN h p).right = some t
    all_goals try simp only [hpn] at hpd hpd2
    all_goals simp [replace_with, set_child, clear_child, direction_of,
      getN_setColor, getN_setParent', getN_setLeft, getN_setRight,
      length_setColor, length_setParent, length_setLeft, length_setRight,
      hP, hL, hR, ht, hn, htn, hnt, hit, hin, hln, hrn, hpn,
      hip,
      htp3,
      Ne.symm hip,
      Ne.symm htp3,
      hil,
      htl3,
      Ne.symm hil,
      Ne.symm htl3,
      hir,
      htr3,
      Ne.symm hir,
      Ne.symm htr3,
      hpd, hpd2]

end swoc

namespace swoc

set_option maxHeartbeats 4000000

theorem replace_with_fields (h : Heap) (t n : Nat)
    (ht : t < h.mem.length) (hn : n < h.mem.length) (htn : t ≠ n)
    (htp : (getN h t).parent ≠ some t)
    (htl : (getN h t).left ≠ some t)
    (htr : (getN h t).right ≠ some t)
    (hLR : (getN h t).left = none ∨ (getN h t).left ≠ (getN h t).right)
    (hypPar : Option.elim (getN h t).parent True (fun p =>
      p < h.mem.length ∧ p ≠ n ∧ p ≠ t ∧
      ((getN h p).left = some t ∨ (getN h p).right = some t) ∧
      ¬((getN h p).left = some t ∧ (getN h p).right = some t) ∧
      (getN h t).left ≠ some p ∧ (getN h t).right ≠ some p))
    (hypL : Option.elim (getN h t).left True (fun l =>
      l < h.mem.length ∧ (getN h l).parent = some t))
    (hypR : Option.elim (getN h t).right True (fun r =>
      r < h.mem.length ∧ (getN h r).parent = some t)) :
    (getN (replace_with h t n) n).color = (getN h t).color ∧
    (getN (replace_with h t n) n).parent = (getN h t).parent ∧
    (getN (replace_with h t n) n).left =
      (if (getN h t).left = some n then none else (getN h t).left) ∧
    (getN (replace_with h t n) n).right =
      (if (getN h t).right = some n then none else (getN h t).right) ∧
    (∀ p, (getN h t).parent = some p →
      ((getN h p).left = some t →
        (getN (replace_with h t n) p).left = some n ∧
        (getN (replace_with h t n) p).right = (getN h p).right) ∧
      ((getN h p).left ≠ some t →
        (getN (replace_with h t n) p).right = some n ∧
        (getN (replace_with h t n) p).left = (getN h p).left) ∧
      (getN (replace_with h t n) p).parent = (getN h p).parent) ∧
    (∀ l, (getN h t).left = some l → l ≠ n →
      (getN (replace_with h t n) l).parent = some n ∧
      (getN (replace_with h t n) l).left = (getN h l).left ∧
      (getN (replace_with h t n) l).right = (getN h l).right) ∧
    (∀ r, (getN h t).right = some r → r ≠ n →
      (getN (replace_with h t n) r).parent = some n ∧
      (getN (replace_with h t n) r).left = (getN h r).left ∧
      (getN (replace_with h t n) r).right = (getN h r).right) ∧
    ((getN (replace_with h t n) t).left = none ∧
     (getN (replace_with h t n) t).right = none ∧
     (getN (replace_with h t n) t).parent = (getN h t).parent) := by
  have hnt : n ≠ t := Ne.symm htn
  rcases hP : (getN h t).parent with _ | p <;>
    rcases hL : (getN h t).left with _ | l <;>
      rcases hR : (getN h t).right with _ | r
  · -- parent none, left none, right none
    refine ⟨?_, ?_, ?_, ?_, ?_, ?_, ?_, ?_, ?_, ?_⟩
    · simp [replace_with, set_child, clear_child, direction_of,
        getN_setColor, getN_setParent', getN_setLeft, getN_setRight,
        length_setColor, length_setParent, length_setLeft, length_setRight,
        hP, hL, hR, ht, hn, htn, hnt]
    · simp [replace_with, set_child, clear_child, direction_of,
        getN_setColor, getN_setParent', getN_setLeft, getN_setRight,
        length_setColor, length_setParent, length_setLeft, length_setRight,
        hP, hL, hR, ht, hn, htn, hnt]
    · simp [replace_with, set_child, clear_child, direction_of,
        getN_setColor, getN_setParent', getN_setLeft, getN_setRight,
        length_setColor, length_setParent, length_setLeft, length_setRight,
        hP, hL, hR, ht, hn, htn, hnt]
    · simp [replace_with, set_child, clear_child, direction_of,
        getN_setColor, getN_setParent', getN_setLeft, getN_setRight,
        length_setColor, length_setParent, length_setLeft, length_setRight,
        hP, hL, hR, ht, hn, htn, hnt]
    · intro q hq
      exact Option.noConfusion hq
    · intro l0 h0 hn0
      exact Option.noConfusion h0
    · intro r0 h0 hn0
      exact Option.noConfusion h0
    · simp [replace_with, set_child, clear_child, direction_of,
        getN_setColor, getN_setParent', getN_setLeft, getN_setRight,
        length_setColor, length_setParent, length_setLeft, length_setRight,
        hP, hL, hR, ht, hn, htn, hnt]
    · simp [replace_with, set_child, clear_child, direction_of,
        getN_setColor, getN_setParent', getN_setLeft, getN_setRight,
        length_setColor, length_setParent, length_setLeft, length_setRight,
        hP, hL, hR, ht, hn, htn, hnt]
    · simp [replace_with, set_child, clear_child, direction_of,
        getN_setColor, getN_setParent', getN_setLeft, getN_setRight,
        length_setColor, length_setParent, length_setLeft, length_setRight,
        hP, hL, hR, ht, hn, htn, hnt]
  · -- parent none, left none, right some
    simp only [hR, Option.elim] at hypR
    obtain ⟨hrlen, hrback⟩ := hypR
    have hrt : r ≠ t := fun e => htr (by rw [hR, e])
    by_cases hrn : r = n
    · -- r = n
      refine ⟨?_, ?_, ?_, ?_, ?_, ?_, ?_, ?_, ?_, ?_⟩
      · simp [replace_with, set_child, clear_child, direction_of,
          getN_setColor, getN_setParent', getN_setLeft, getN_setRight,
          length_setColor, length_setParent, length_setLeft, length_setRight,
          hP, hL, hR, ht, hn, htn, hnt, hrlen, hrt, Ne.symm hrt, hrn]
      · simp [replace_with, set_child, clear_child, direction_of,
          getN_setColor, getN_setParent', getN_setLeft, getN_setRight,
          length_setColor, length_setParent, length_setLeft, length_setRight,
          hP, hL, hR, ht, hn, htn, hnt, hrlen, hrt, Ne.symm hrt, hrn]
      · simp [replace_with, set_child, clear_child, direction_of,
          getN_setColor, getN_setParent', getN_setLeft, getN_setRight,
          length_setColor, length_setParent, length_setLeft, length_setRight,
          hP, hL, hR, ht, hn, htn, hnt, hrlen, hrt, Ne.symm hrt, hrn]
      · simp [replace_with, set_child, clear_child, direction_of,
          getN_setColor, getN_setParent', getN_setLeft, getN_setRight,
          length_setColor, length_setParent, length_setLeft, length_setRight,
          hP, hL, hR, ht, hn, htn, hnt, hrlen, hrt, Ne.symm hrt, hrn]
      · intro q hq
        exact Option.noConfusion hq
      · intro l0 h0 hn0
        exact Option.noConfusion h0
      · intro r0 h0 hn0
        injection h0 with h0
        subst h0
        exact absurd hrn hn0
      · simp [replace_with, set_child, clear_child, direction_of,
          getN_setColor, getN_setParent', getN_setLeft, getN_setRight,
          length_setColor, length_setParent, length_setLeft, length_setRight,
          hP, hL, hR, ht, hn, htn, hnt, hrlen, hrt, Ne.symm hrt, hrn]
      · simp [replace_with, set_child, clear_child, direction_of,
          getN_setColor, getN_setParent', getN_setLeft, getN_setRight,
          length_setColor, length_setParent, length_setLeft, length_setRight,
          hP, hL, hR, ht, hn, htn, hnt, hrlen, hrt, Ne.symm hrt, hrn]
      · simp [replace_with, set_child, clear_child, direction_of,
          getN_setColor, getN_setParent', getN_setLeft, getN_setRight,
          length_setColor, length_setParent, length_setLeft, length_setRight,
          hP, hL, hR, ht, hn, htn, hnt, hrlen, hrt, Ne.symm hrt, hrn]
    · -- r ≠ n
      refine ⟨?_, ?_, ?_, ?_, ?_, ?_, ?_, ?_, ?_, ?_⟩
      · simp [replace_with, set_child, clear_child, direction_of,
          getN_setColor, getN_setParent', getN_setLeft, getN_setRight,
          length_setColor, length_setParent, length_setLeft, length_setRight,
          hP, hL, hR, ht, hn, htn, hnt, hrlen, hrt, Ne.symm hrt, hrn,
          Ne.symm hrn]
      · simp [replace_with, set_child, clear_child, direction_of,
          getN_setColor, getN_setParent', getN_setLeft, getN_setRight,
          length_setColor, length_setParent, length_setLeft, length_setRight,
          hP, hL, hR, ht, hn, htn, hnt, hrlen, hrt, Ne.symm hrt, hrn,
          Ne.symm hrn]
      · simp [replace_with, set_child, clear_child, direction_of,
          getN_setColor, getN_setParent', getN_setLeft, getN_setRight,
          length_setColor, length_setParent, length_setLeft, length_setRight,
          hP, hL, hR, ht, hn, htn, hnt, hrlen, hrt, Ne.symm hrt, hrn,
          Ne.symm hrn]
      · simp [replace_with, set_child, clear_child, direction_of,
          getN_setColor, getN_setParent', getN_setLeft, getN_setRight,
          length_setColor, length_setParent, length_setLeft, length_setRight,
          hP, hL, hR, ht, hn, htn, hnt, hrlen, hrt, Ne.symm hrt, hrn,
          Ne.symm hrn]
      · intro q hq
        exact Option.noConfusion hq
      · intro l0 h0 hn0
        exact Option.noConfusion h0
      · intro r0 h0 hn0
        injection h0 with h0
        subst h0
        refine ⟨?_, ?_, ?_⟩
        · simp [replace_with, set_child, clear_child, direction_of,
            getN_setColor, getN_setParent', getN_setLeft, getN_setRight,
            length_setColor, length_setParent, length_setLeft,
            length_setRight, hP, hL, hR, ht, hn, htn, hnt, hrlen, hrt,
            Ne.symm hrt, hrn, Ne.symm hrn]
        · simp [replace_with, set_child, clear_child, direction_of,
            getN_setColor, getN_setParent', getN_setLeft, getN_setRight,
            length_setColor, length_setParent, length_setLeft,
            length_setRight, hP, hL, hR, ht, hn, htn, hnt, hrlen, hrt,
            Ne.symm hrt, hrn, Ne.symm hrn]
        · simp [replace_with, set_child, clear_child, direction_of,
            getN_setColor, getN_setParent', getN_setLeft, getN_setRight,
            length_setColor, length_setParent, length_setLeft,
            length_setRight, hP, hL, hR, ht, hn, htn, hnt, hrlen, hrt,
            Ne.symm hrt, hrn, Ne.symm hrn]
      · simp [replace_with, set_child, clear_child, direction_of,
          getN_setColor, getN_setParent', getN_setLeft, getN_setRight,
          length_setColor, length_setParent, length_setLeft, length_setRight,
          hP, hL, hR, ht, hn, htn, hnt, hrlen, hrt, Ne.symm hrt, hrn,
          Ne.symm hrn]
      · simp [replace_with, set_child, clear_child, direction_of,
          getN_setColor, getN_setParent', getN_setLeft, getN_setRight,
          length_setColor, length_setParent, length_setLeft, length_setRight,
          hP, hL, hR, ht, hn, htn, hnt, hrlen, hrt, Ne.symm hrt, hrn,
          Ne.symm hrn]
      · simp [replace_with, set_child, clear_child, direction_of,
          getN_setColor, getN_setParent', getN_setLeft, getN_setRight,
          length_setColor, length_setParent, length_setLeft, length_setRight,
          hP, hL, hR, ht, hn, htn, hnt, hrlen, hrt, Ne.symm hrt, hrn,
          Ne.symm hrn]
  · -- parent none, left some, right none
    simp only [hL, Option.elim] at hypL
    obtain ⟨hllen, hlback⟩ := hypL
    have hlt : l ≠ t := fun e => htl (by rw [hL, e])
    by_cases hln : l = n
    · -- l = n
      refine ⟨?_, ?_, ?_, ?_, ?_, ?_, ?_, ?_, ?_, ?_⟩
      · simp [replace_with, set_child, clear_child, direction_of,
          getN_setColor, getN_setParent', getN_setLeft, getN_setRight,
          length_setColor, length_setParent, length_setLeft, length_setRight,
          hP, hL, hR, ht, hn, htn, hnt, hllen, hlt, Ne.symm hlt, hln]
      · simp [replace_with, set_child, clear_child, direction_of,
          getN_setColor, getN_setParent', getN_setLeft, getN_setRight,
          length_setColor, length_setParent, length_setLeft, length_setRight,
          hP, hL, hR, ht, hn, htn, hnt, hllen, hlt, Ne.symm hlt, hln]
      · simp [replace_with, set_child, clear_child, direction_of,
          getN_setColor, getN_setParent', getN_setLeft, getN_setRight,
          length_setColor, length_setParent, length_setLeft, length_setRight,
          hP, hL, hR, ht, hn, htn, hnt, hllen, hlt, Ne.symm hlt, hln]
      · simp [replace_with, set_child, clear_child, direction_of,
          getN_setColor, getN_setParent', getN_setLeft, getN_setRight,
          length_setColor, length_setParent, length_setLeft, length_setRight,
          hP, hL, hR, ht, hn, htn, hnt, hllen, hlt, Ne.symm hlt, hln]
      · intro q hq
        exact Option.noConfusion hq
      · intro l0 h0 hn0
        injection h0 with h0
        subst h0
        exact absurd hln hn0
      · intro r0 h0 hn0
        exact Option.noConfusion h0
      · simp [replace_with, set_child, clear_child, direction_of,
          getN_setColor, getN_setParent', getN_setLeft, getN_setRight,
          length_setColor, length_setParent, length_setLeft, length_setRight,
          hP, hL, hR, ht, hn, htn, hnt, hllen, hlt, Ne.symm hlt, hln]
      · simp [replace_with, set_child, clear_child, direction_of,
          getN_setColor, getN_setParent', getN_setLeft, getN_setRight,
          length_setColor, length_setParent, length_setLeft, length_setRight,
          hP, hL, hR, ht, hn, htn, hnt, hllen, hlt, Ne.symm hlt, hln]
      · simp [replace_with, set_child, clear_child, direction_of,
          getN_setColor, getN_setParent', getN_setLeft, getN_setRight,
          length_setColor, length_setParent, length_setLeft, length_setRight,
          hP, hL, hR, ht, hn, htn, hnt, hllen, hlt, Ne.symm hlt, hln]
    · -- l ≠ n
      refine ⟨?_, ?_, ?_, ?_, ?_, ?_, ?_, ?_, ?_, ?_⟩
      · simp [replace_with, set_child, clear_child, direction_of,
          getN_setColor, getN_setParent', getN_setLeft, getN_setRight,
          length_setColor, length_setParent, length_setLeft, length_setRight,
          hP, hL, hR, ht, hn, htn, hnt, hllen, hlt, Ne.symm hlt, hln,
          Ne.symm hln]
      · simp [replace_with, set_child, clear_child, direction_of,
          getN_setColor, getN_setParent', getN_setLeft, getN_setRight,
          length_setColor, length_setParent, length_setLeft, length_setRight,
          hP, hL, hR, ht, hn, htn, hnt, hllen, hlt, Ne.symm hlt, hln,
          Ne.symm hln]
      · simp [replace_with, set_child, clear_child, direction_of,
          getN_setColor, getN_setParent', getN_setLeft, getN_setRight,
          length_setColor, length_setParent, length_setLeft, length_setRight,
          hP, hL, hR, ht, hn, htn, hnt, hllen, hlt, Ne.symm hlt, hln,
          Ne.symm hln]
      · simp [replace_with, set_child, clear_child, direction_of,
          getN_setColor, getN_setParent', getN_setLeft, getN_setRight,
          length_setColor, length_setParent, length_setLeft, length_setRight,
          hP, hL, hR, ht, hn, htn, hnt, hllen, hlt, Ne.symm hlt, hln,
          Ne.symm hln]
      · intro q hq
        exact Option.noConfusion hq
      · intro l0 h0 hn0
        injection h0 with h0
        subst h0
        refine ⟨?_, ?_, ?_⟩
        · simp [replace_with, set_child, clear_child, direction_of,
            getN_setColor, getN_setParent', getN_setLeft, getN_setRight,
            length_setColor, length_setParent, length_setLeft,
            length_setRight, hP, hL, hR, ht, hn, htn, hnt, hllen, hlt,
            Ne.symm hlt, hln, Ne.symm hln]
        · simp [replace_with, set_child, clear_child, direction_of,
            getN_setColor, getN_setParent', getN_setLeft, getN_setRight,
            length_setColor, length_setParent, length_setLeft,
            length_setRight, hP, hL, hR, ht, hn, htn, hnt, hllen, hlt,
            Ne.symm hlt, hln, Ne.symm hln]
        · simp [replace_with, set_child, clear_child, direction_of,
            getN_setColor, getN_setParent', getN_setLeft, getN_setRight,
            length_setColor, length_setParent, length_setLeft,
            length_setRight, hP, hL, hR, ht, hn, htn, hnt, hllen, hlt,
            Ne.symm hlt, hln, Ne.symm hln]
      · intro r0 h0 hn0
        exact Option.noConfusion h0
      · simp [replace_with, set_child, clear_child, direction_of,
          getN_setColor, getN_setParent', getN_setLeft, getN_setRight,
          length_setColor, length_setParent, length_setLeft, length_setRight,
          hP, hL, hR, ht, hn, htn, hnt, hllen, hlt, Ne.symm hlt, hln,
          Ne.symm hln]
      · simp [replace_with, set_child, clear_child, direction_of,
          getN_setColor, getN_setParent', getN_setLeft, getN_setRight,
          length_setColor, length_setParent, length_setLeft, length_setRight,
          hP, hL, hR, ht, hn, htn, hnt, hllen, hlt, Ne.symm hlt, hln,
          Ne.symm hln]
      · simp [replace_with, set_child, clear_child, direction_of,
          getN_setColor, getN_setParent', getN_setLeft, getN_setRight,
          length_setColor, length_setParent, length_setLeft, length_setRight,
          hP, hL, hR, ht, hn, htn, hnt, hllen, hlt, Ne.symm hlt, hln,
          Ne.symm hln]
  · -- parent none, left some, right some
    simp only [hL, Option.elim] at hypL
    obtain ⟨hllen, hlback⟩ := hypL
    have hlt : l ≠ t := fun e => htl (by rw [hL, e])
    simp only [hR, Option.elim] at hypR
    obtain ⟨hrlen, hrback⟩ := hypR
    have hrt : r ≠ t := fun e => htr (by rw [hR, e])
    have hlr : l ≠ r := by
      rcases hLR with hh | hh
      · rw [hL] at hh
        exact Option.noConfusion hh
      · rw [hL, hR] at hh
        intro e
        apply hh
        rw [e]
    by_cases hln : l = n
    · -- l = n
      by_cases hrn : r = n
      · -- r = n
        exact absurd (hln.trans hrn.symm) hlr
      · -- r ≠ n
        refine ⟨?_, ?_, ?_, ?_, ?_, ?_, ?_, ?_, ?_, ?_⟩
        · simp [replace_with, set_child, clear_child, direction_of,
            getN_setColor, getN_setParent', getN_setLeft, getN_setRight,
            length_setColor, length_setParent, length_setLeft,
            length_setRight, hP, hL, hR, ht, hn, htn, hnt, hllen, hlt,
            Ne.symm hlt, hln, hrlen, hrt, Ne.symm hrt, hrn, Ne.symm hrn, hlr,
            Ne.symm hlr]
        · simp [replace_with, set_child, clear_child, direction_of,
            getN_setColor, getN_setParent', getN_setLeft, getN_setRight,
            length_setColor, length_setParent, length_setLeft,
            length_setRight, hP, hL, hR, ht, hn, htn, hnt, hllen, hlt,
            Ne.symm hlt, hln, hrlen, hrt, Ne.symm hrt, hrn, Ne.symm hrn, hlr,
            Ne.symm hlr]
        · simp [replace_with, set_child, clear_child, direction_of,
            getN_setColor, getN_setParent', getN_setLeft, getN_setRight,
            length_setColor, length_setParent, length_setLeft,
            length_setRight, hP, hL, hR, ht, hn, htn, hnt, hllen, hlt,
            Ne.symm hlt, hln, hrlen, hrt, Ne.symm hrt, hrn, Ne.symm hrn, hlr,
            Ne.symm hlr]
        · simp [replace_with, set_child, clear_child, direction_of,
            getN_setColor, getN_setParent', getN_setLeft, getN_setRight,
            length_setColor, length_setParent, length_setLeft,
            length_setRight, hP, hL, hR, ht, hn, htn, hnt, hllen, hlt,
            Ne.symm hlt, hln, hrlen, hrt, Ne.symm hrt, hrn, Ne.symm hrn, hlr,
            Ne.symm hlr]
        · intro q hq
          exact Option.noConfusion hq
        · intro l0 h0 hn0
          injection h0 with h0
          subst h0
          exact absurd hln hn0
        · intro r0 h0 hn0
          injection h0 with h0
          subst h0
          refine ⟨?_, ?_, ?_⟩
          · simp [replace_with, set_child, clear_child, direction_of,
              getN_setColor, getN_setParent', getN_setLeft, getN_setRight,
              length_setColor, length_setParent, length_setLeft,
              length_setRight, hP, hL, hR, ht, hn, htn, hnt, hllen, hlt,
              Ne.symm hlt, hln, hrlen, hrt, Ne.symm hrt, hrn, Ne.symm hrn,
              hlr, Ne.symm hlr]
          · simp [replace_with, set_child, clear_child, direction_of,
              getN_setColor, getN_setParent', getN_setLeft, getN_setRight,
              length_setColor, length_setParent, length_setLeft,
              length_setRight, hP, hL, hR, ht, hn, htn, hnt, hllen, hlt,
              Ne.symm hlt, hln, hrlen, hrt, Ne.symm hrt, hrn, Ne.symm hrn,
              hlr, Ne.symm hlr]
          · simp [replace_with, set_child, clear_child, direction_of,
              getN_setColor, getN_setParent', getN_setLeft, getN_setRight,
              length_setColor, length_setParent, length_setLeft,
              length_setRight, hP, hL, hR, ht, hn, htn, hnt, hllen, hlt,
              Ne.symm hlt, hln, hrlen, hrt, Ne.symm hrt, hrn, Ne.symm hrn,
              hlr, Ne.symm hlr]
        · simp [replace_with, set_child, clear_child, direction_of,
            getN_setColor, getN_setParent', getN_setLeft, getN_setRight,
            length_setColor, length_setParent, length_setLeft,
            length_setRight, hP, hL, hR, ht, hn, htn, hnt, hllen, hlt,
            Ne.symm hlt, hln, hrlen, hrt, Ne.symm hrt, hrn, Ne.symm hrn, hlr,
            Ne.symm hlr]
        · simp [replace_with, set_child, clear_child, direction_of,
            getN_setColor, getN_setParent', getN_setLeft, getN_setRight,
            length_setColor, length_setParent, length_setLeft,
            length_setRight, hP, hL, hR, ht, hn, htn, hnt, hllen, hlt,
            Ne.symm hlt, hln, hrlen, hrt, Ne.symm hrt, hrn, Ne.symm hrn, hlr,
            Ne.symm hlr]
        · simp [replace_with, set_child, clear_child, direction_of,
            getN_setColor, getN_setParent', getN_setLeft, getN_setRight,
            length_setColor, length_setParent, length_setLeft,
            length_setRight, hP, hL, hR, ht, hn, htn, hnt, hllen, hlt,
            Ne.symm hlt, hln, hrlen, hrt, Ne.symm hrt, hrn, Ne.symm hrn, hlr,
            Ne.symm hlr]
    · -- l ≠ n
      by_cases hrn : r = n
      · -- r = n
        refine ⟨?_, ?_, ?_, ?_, ?_, ?_, ?_, ?_, ?_, ?_⟩
        · simp [replace_with, set_child, clear_child, direction_of,
            getN_setColor, getN_setParent', getN_setLeft, getN_setRight,
            length_setColor, length_setParent, length_setLeft,
            length_setRight, hP, hL, hR, ht, hn, htn, hnt, hllen, hlt,
            Ne.symm hlt, hln, Ne.symm hln, hrlen, hrt, Ne.symm hrt, hrn, hlr,
            Ne.symm hlr]
        · simp [replace_with, set_child, clear_child, direction_of,
            getN_setColor, getN_setParent', getN_setLeft, getN_setRight,
            length_setColor, length_setParent, length_setLeft,
            length_setRight, hP, hL, hR, ht, hn, htn, hnt, hllen, hlt,
            Ne.symm hlt, hln, Ne.symm hln, hrlen, hrt, Ne.symm hrt, hrn, hlr,
            Ne.symm hlr]
        · simp [replace_with, set_child, clear_child, direction_of,
            getN_setColor, getN_setParent', getN_setLeft, getN_setRight,
            length_setColor, length_setParent, length_setLeft,
            length_setRight, hP, hL, hR, ht, hn, htn, hnt, hllen, hlt,
            Ne.symm hlt, hln, Ne.symm hln, hrlen, hrt, Ne.symm hrt, hrn, hlr,
            Ne.symm hlr]
        · simp [replace_with, set_child, clear_child, direction_of,
            getN_setColor, getN_setParent', getN_setLeft, getN_setRight,
            length_setColor, length_setParent, length_setLeft,
            length_setRight, hP, hL, hR, ht, hn, htn, hnt, hllen, hlt,
            Ne.symm hlt, hln, Ne.symm hln, hrlen, hrt, Ne.symm hrt, hrn, hlr,
            Ne.symm hlr]
        · intro q hq
          exact Option.noConfusion hq
        · intro l0 h0 hn0
          injection h0 with h0
          subst h0
          refine ⟨?_, ?_, ?_⟩
          · simp [replace_with, set_child, clear_child, direction_of,
              getN_setColor, getN_setParent', getN_setLeft, getN_setRight,
              length_setColor, length_setParent, length_setLeft,
              length_setRight, hP, hL, hR, ht, hn, htn, hnt, hllen, hlt,
              Ne.symm hlt, hln, Ne.symm hln, hrlen, hrt, Ne.symm hrt, hrn,
              hlr, Ne.symm hlr]
          · simp [replace_with, set_child, clear_child, direction_of,
              getN_setColor, getN_setParent', getN_setLeft, getN_setRight,
              length_setColor, length_setParent, length_setLeft,
              length_setRight, hP, hL, hR, ht, hn, htn, hnt, hllen, hlt,
              Ne.symm hlt, hln, Ne.symm hln, hrlen, hrt, Ne.symm hrt, hrn,
              hlr, Ne.symm hlr]
          · simp [replace_with, set_child, clear_child, direction_of,
              getN_setColor, getN_setParent', getN_setLeft, getN_setRight,
              length_setColor, length_setParent, length_setLeft,
              length_setRight, hP, hL, hR, ht, hn, htn, hnt, hllen, hlt,
              Ne.symm hlt, hln, Ne.symm hln, hrlen, hrt, Ne.symm hrt, hrn,
              hlr, Ne.symm hlr]
        · intro r0 h0 hn0
          injection h0 with h0
          subst h0
          exact absurd hrn hn0
        · simp [replace_with, set_child, clear_child, direction_of,
            getN_setColor, getN_setParent', getN_setLeft, getN_setRight,
            length_setColor, length_setParent, length_setLeft,
            length_setRight, hP, hL, hR, ht, hn, htn, hnt, hllen, hlt,
            Ne.symm hlt, hln, Ne.symm hln, hrlen, hrt, Ne.symm hrt, hrn, hlr,
            Ne.symm hlr]
        · simp [replace_with, set_child, clear_child, direction_of,
            getN_setColor, getN_setParent', getN_setLeft, getN_setRight,
            length_setColor, length_setParent, length_setLeft,
            length_setRight, hP, hL, hR, ht, hn, htn, hnt, hllen, hlt,
            Ne.symm hlt, hln, Ne.symm hln, hrlen, hrt, Ne.symm hrt, hrn, hlr,
            Ne.symm hlr]
        · simp [replace_with, set_child, clear_child, direction_of,
            getN_setColor, getN_setParent', getN_setLeft, getN_setRight,
            length_setColor, length_setParent, length_setLeft,
            length_setRight, hP, hL, hR, ht, hn, htn, hnt, hllen, hlt,
            Ne.symm hlt, hln, Ne.symm hln, hrlen, hrt, Ne.symm hrt, hrn, hlr,
            Ne.symm hlr]
      · -- r ≠ n
        refine ⟨?_, ?_, ?_, ?_, ?_, ?_, ?_, ?_, ?_, ?_⟩
        · simp [replace_with, set_child, clear_child, direction_of,
            getN_setColor, getN_setParent', getN_setLeft, getN_setRight,
            length_setColor, length_setParent, length_setLeft,
            length_setRight, hP, hL, hR, ht, hn, htn, hnt, hllen, hlt,
            Ne.symm hlt, hln, Ne.symm hln, hrlen, hrt, Ne.symm hrt, hrn,
            Ne.symm hrn, hlr, Ne.symm hlr]
        · simp [replace_with, set_child, clear_child, direction_of,
            getN_setColor, getN_setParent', getN_setLeft, getN_setRight,
            length_setColor, length_setParent, length_setLeft,
            length_setRight, hP, hL, hR, ht, hn, htn, hnt, hllen, hlt,
            Ne.symm hlt, hln, Ne.symm hln, hrlen, hrt, Ne.symm hrt, hrn,
            Ne.symm hrn, hlr, Ne.symm hlr]
        · simp [replace_with, set_child, clear_child, direction_of,
            getN_setColor, getN_setParent', getN_setLeft, getN_setRight,
            length_setColor, length_setParent, length_setLeft,
            length_setRight, hP, hL, hR, ht, hn, htn, hnt, hllen, hlt,
            Ne.symm hlt, hln, Ne.symm hln, hrlen, hrt, Ne.symm hrt, hrn,
            Ne.symm hrn, hlr, Ne.symm hlr]
        · simp [replace_with, set_child, clear_child, direction_of,
            getN_setColor, getN_setParent', getN_setLeft, getN_setRight,
            length_setColor, length_setParent, length_setLeft,
            length_setRight, hP, hL, hR, ht, hn, htn, hnt, hllen, hlt,
            Ne.symm hlt, hln, Ne.symm hln, hrlen, hrt, Ne.symm hrt, hrn,
            Ne.symm hrn, hlr, Ne.symm hlr]
        · intro q hq
          exact Option.noConfusion hq
        · intro l0 h0 hn0
          injection h0 with h0
          subst h0
          refine ⟨?_, ?_, ?_⟩
          · simp [replace_with, set_child, clear_child, direction_of,
              getN_setColor, getN_setParent', getN_setLeft, getN_setRight,
              length_setColor, length_setParent, length_setLeft,
              length_setRight, hP, hL, hR, ht, hn, htn, hnt, hllen, hlt,
              Ne.symm hlt, hln, Ne.symm hln, hrlen, hrt, Ne.symm hrt, hrn,
              Ne.symm hrn, hlr, Ne.symm hlr]
          · simp [replace_with, set_child, clear_child, direction_of,
              getN_setColor, getN_setParent', getN_setLeft, getN_setRight,
              length_setColor, length_setParent, length_setLeft,
              length_setRight, hP, hL, hR, ht, hn, htn, hnt, hllen, hlt,
              Ne.symm hlt, hln, Ne.symm hln, hrlen, hrt, Ne.symm hrt, hrn,
              Ne.symm hrn, hlr, Ne.symm hlr]
          · simp [replace_with, set_child, clear_child, direction_of,
              getN_setColor, getN_setParent', getN_setLeft, getN_setRight,
              length_setColor, length_setParent, length_setLeft,
              length_setRight, hP, hL, hR, ht, hn, htn, hnt, hllen, hlt,
              Ne.symm hlt, hln, Ne.symm hln, hrlen, hrt, Ne.symm hrt, hrn,
              Ne.symm hrn, hlr, Ne.symm hlr]
        · intro r0 h0 hn0
          injection h0 with h0
          subst h0
          refine ⟨?_, ?_, ?_⟩
          · simp [replace_with, set_child, clear_child, direction_of,
              getN_setColor, getN_setParent', getN_setLeft, getN_setRight,
              length_setColor, length_setParent, length_setLeft,
              length_setRight, hP, hL, hR, ht, hn, htn, hnt, hllen, hlt,
              Ne.symm hlt, hln, Ne.symm hln, hrlen, hrt, Ne.symm hrt, hrn,
              Ne.symm hrn, hlr, Ne.symm hlr]
          · simp [replace_with, set_child, clear_child, direction_of,
              getN_setColor, getN_setParent', getN_setLeft, getN_setRight,
              length_setColor, length_setParent, length_setLeft,
              length_setRight, hP, hL, hR, ht, hn, htn, hnt, hllen, hlt,
              Ne.symm hlt, hln, Ne.symm hln, hrlen, hrt, Ne.symm hrt, hrn,
              Ne.symm hrn, hlr, Ne.symm hlr]
          · simp [replace_with, set_child, clear_child, direction_of,
              getN_setColor, getN_setParent', getN_setLeft, getN_setRight,
              length_setColor, length_setParent, length_setLeft,
              length_setRight, hP, hL, hR, ht, hn, htn, hnt, hllen, hlt,
              Ne.symm hlt, hln, Ne.symm hln, hrlen, hrt, Ne.symm hrt, hrn,
              Ne.symm hrn, hlr, Ne.symm hlr]
        · simp [replace_with, set_child, clear_child, direction_of,
            getN_setColor, getN_setParent', getN_setLeft, getN_setRight,
            length_setColor, length_setParent, length_setLeft,
            length_setRight, hP, hL, hR, ht, hn, htn, hnt, hllen, hlt,
            Ne.symm hlt, hln, Ne.symm hln, hrlen, hrt, Ne.symm hrt, hrn,
            Ne.symm hrn, hlr, Ne.symm hlr]
        · simp [replace_with, set_child, clear_child, direction_of,
            getN_setColor, getN_setParent', getN_setLeft, getN_setRight,
            length_setColor, length_setParent, length_setLeft,
            length_setRight, hP, hL, hR, ht, hn, htn, hnt, hllen, hlt,
            Ne.symm hlt, hln, Ne.symm hln, hrlen, hrt, Ne.symm hrt, hrn,
            Ne.symm hrn, hlr, Ne.symm hlr]
        · simp [replace_with, set_child, clear_child, direction_of,
            getN_setColor, getN_setParent', getN_setLeft, getN_setRight,
            length_setColor, length_setParent, length_setLeft,
            length_setRight, hP, hL, hR, ht, hn, htn, hnt, hllen, hlt,
            Ne.symm hlt, hln, Ne.symm hln, hrlen, hrt, Ne.symm hrt, hrn,
            Ne.symm hrn, hlr, Ne.symm hlr]
  · -- parent some, left none, right none
    simp only [hP, Option.elim] at hypPar
    obtain ⟨hplen, hpn2, hpt2, hpdir, hpboth, hpl2, hpr2⟩ := hypPar
    have hnp : n ≠ p := Ne.symm hpn2
    have htp3 : t ≠ p := Ne.symm hpt2
    rcases hpdir with hpd | hpd2
    · have hpd2 : (getN h p).right ≠ some t :=
        fun hc => hpboth ⟨hpd, hc⟩
      refine ⟨?_, ?_, ?_, ?_, ?_, ?_, ?_, ?_, ?_, ?_⟩
      · simp [replace_with, set_child, clear_child, direction_of,
          getN_setColor, getN_setParent', getN_setLeft, getN_setRight,
          length_setColor, length_setParent, length_setLeft, length_setRight,
          hP, hL, hR, ht, hn, htn, hnt, hplen, hpn2, hnp, hpt2, htp3, hpd,
          hpd2]
      · simp [replace_with, set_child, clear_child, direction_of,
          getN_setColor, getN_setParent', getN_setLeft, getN_setRight,
          length_setColor, length_setParent, length_setLeft, length_setRight,
          hP, hL, hR, ht, hn, htn, hnt, hplen, hpn2, hnp, hpt2, htp3, hpd,
          hpd2]
      · simp [replace_with, set_child, clear_child, direction_of,
          getN_setColor, getN_setParent', getN_setLeft, getN_setRight,
          length_setColor, length_setParent, length_setLeft, length_setRight,
          hP, hL, hR, ht, hn, htn, hnt, hplen, hpn2, hnp, hpt2, htp3, hpd,
          hpd2]
      · simp [replace_with, set_child, clear_child, direction_of,
          getN_setColor, getN_setParent', getN_setLeft, getN_setRight,
          length_setColor, length_setParent, length_setLeft, length_setRight,
          hP, hL, hR, ht, hn, htn, hnt, hplen, hpn2, hnp, hpt2, htp3, hpd,
          hpd2]
      · intro q hq
        injection hq with hq
        subst hq
        refine ⟨fun _ => ⟨?_, ?_⟩, fun hcon => absurd hpd hcon, ?_⟩
        · simp [replace_with, set_child, clear_child, direction_of,
            getN_setColor, getN_setParent', getN_setLeft, getN_setRight,
            length_setColor, length_setParent, length_setLeft,
            length_setRight, hP, hL, hR, ht, hn, htn, hnt, hplen, hpn2, hnp,
            hpt2, htp3, hpd, hpd2]
        · simp [replace_with, set_child, clear_child, direction_of,
            getN_setColor, getN_setParent', getN_setLeft, getN_setRight,
            length_setColor, length_setParent, length_setLeft,
            length_setRight, hP, hL, hR, ht, hn, htn, hnt, hplen, hpn2, hnp,
            hpt2, htp3, hpd, hpd2]
        · simp [replace_with, set_child, clear_child, direction_of,
            getN_setColor, getN_setParent', getN_setLeft, getN_setRight,
            length_setColor, length_setParent, length_setLeft,
            length_setRight, hP, hL, hR, ht, hn, htn, hnt, hplen, hpn2, hnp,
            hpt2, htp3, hpd, hpd2]
      · intro l0 h0 hn0
        exact Option.noConfusion h0
      · intro r0 h0 hn0
        exact Option.noConfusion h0
      · simp [replace_with, set_child, clear_child, direction_of,
          getN_setColor, getN_setParent', getN_setLeft, getN_setRight,
          length_setColor, length_setParent, length_setLeft, length_setRight,
          hP, hL, hR, ht, hn, htn, hnt, hplen, hpn2, hnp, hpt2, htp3, hpd,
          hpd2]
      · simp [replace_with, set_child, clear_child, direction_of,
          getN_setColor, getN_setParent', getN_setLeft, getN_setRight,
          length_setColor, length_setParent, length_setLeft, length_setRight,
          hP, hL, hR, ht, hn, htn, hnt, hplen, hpn2, hnp, hpt2, htp3, hpd,
          hpd2]
      · simp [replace_with, set_child, clear_child, direction_of,
          getN_setColor, getN_setParent', getN_setLeft, getN_setRight,
          length_setColor, length_setParent, length_setLeft, length_setRight,
          hP, hL, hR, ht, hn, htn, hnt, hplen, hpn2, hnp, hpt2, htp3, hpd,
          hpd2]
    · have hpd : (getN h p).left ≠ some t :=
        fun hc => hpboth ⟨hc, hpd2⟩
      refine ⟨?_, ?_, ?_, ?_, ?_, ?_, ?_, ?_, ?_, ?_⟩
      · simp [replace_with, set_child, clear_child, direction_of,
          getN_setColor, getN_setParent', getN_setLeft, getN_setRight,
          length_setColor, length_setParent, length_setLeft, length_setRight,
          hP, hL, hR, ht, hn, htn, hnt, hplen, hpn2, hnp, hpt2, htp3, hpd,
          hpd2]
      · simp [replace_with, set_child, clear_child, direction_of,
          getN_setColor, getN_setParent', getN_setLeft, getN_setRight,
          length_setColor, length_setParent, length_setLeft, length_setRight,
          hP, hL, hR, ht, hn, htn, hnt, hplen, hpn2, hnp, hpt2, htp3, hpd,
          hpd2]
      · simp [replace_with, set_child, clear_child, direction_of,
          getN_setColor, getN_setParent', getN_setLeft, getN_setRight,
          length_setColor, length_setParent, length_setLeft, length_setRight,
          hP, hL, hR, ht, hn, htn, hnt, hplen, hpn2, hnp, hpt2, htp3, hpd,
          hpd2]
      · simp [replace_with, set_child, clear_child, direction_of,
          getN_setColor, getN_setParent', getN_setLeft, getN_setRight,
          length_setColor, length_setParent, length_setLeft, length_setRight,
          hP, hL, hR, ht, hn, htn, hnt, hplen, hpn2, hnp, hpt2, htp3, hpd,
          hpd2]
      · intro q hq
        injection hq with hq
        subst hq
        refine ⟨fun hcon => absurd hcon hpd, fun _ => ⟨?_, ?_⟩, ?_⟩
        · simp [replace_with, set_child, clear_child, direction_of,
            getN_setColor, getN_setParent', getN_setLeft, getN_setRight,
            length_setColor, length_setParent, length_setLeft,
            length_setRight, hP, hL, hR, ht, hn, htn, hnt, hplen, hpn2, hnp,
            hpt2, htp3, hpd, hpd2]
        · simp [replace_with, set_child, clear_child, direction_of,
            getN_setColor, getN_setParent', getN_setLeft, getN_setRight,
            length_setColor, length_setParent, length_setLeft,
            length_setRight, hP, hL, hR, ht, hn, htn, hnt, hplen, hpn2, hnp,
            hpt2, htp3, hpd, hpd2]
        · simp [replace_with, set_child, clear_child, direction_of,
            getN_setColor, getN_setParent', getN_setLeft, getN_setRight,
            length_setColor, length_setParent, length_setLeft,
            length_setRight, hP, hL, hR, ht, hn, htn, hnt, hplen, hpn2, hnp,
            hpt2, htp3, hpd, hpd2]
      · intro l0 h0 hn0
        exact Option.noConfusion h0
      · intro r0 h0 hn0
        exact Option.noConfusion h0
      · simp [replace_with, set_child, clear_child, direction_of,
          getN_setColor, getN_setParent', getN_setLeft, getN_setRight,
          length_setColor, length_setParent, length_setLeft, length_setRight,
          hP, hL, hR, ht, hn, htn, hnt, hplen, hpn2, hnp, hpt2, htp3, hpd,
          hpd2]
      · simp [replace_with, set_child, clear_child, direction_of,
          getN_setColor, getN_setParent', getN_setLeft, getN_setRight,
          length_setColor, length_setParent, length_setLeft, length_setRight,
          hP, hL, hR, ht, hn, htn, hnt, hplen, hpn2, hnp, hpt2, htp3, hpd,
          hpd2]
      · simp [replace_with, set_child, clear_child, direction_of,
          getN_setColor, getN_setParent', getN_setLeft, getN_setRight,
          length_setColor, length_setParent, length_setLeft, length_setRight,
          hP, hL, hR, ht, hn, htn, hnt, hplen, hpn2, hnp, hpt2, htp3, hpd,
          hpd2]
  · -- parent some, left none, right some
    simp only [hR, Option.elim] at hypR
    obtain ⟨hrlen, hrback⟩ := hypR
    have hrt : r ≠ t := fun e => htr (by rw [hR, e])
    simp only [hP, Option.elim] at hypPar
    obtain ⟨hplen, hpn2, hpt2, hpdir, hpboth, hpl2, hpr2⟩ := hypPar
    have hnp : n ≠ p := Ne.symm hpn2
    have htp3 : t ≠ p := Ne.symm hpt2
    have hrp : r ≠ p := fun e => hpr2 (by rw [hR, e])
    by_cases hrn : r = n
    · -- r = n
      rcases hpdir with hpd | hpd2
      · have hpd2 : (getN h p).right ≠ some t :=
          fun hc => hpboth ⟨hpd, hc⟩
        refine ⟨?_, ?_, ?_, ?_, ?_, ?_, ?_, ?_, ?_, ?_⟩
        · simp [replace_with, set_child, clear_child, direction_of,
            getN_setColor, getN_setParent', getN_setLeft, getN_setRight,
            length_setColor, length_setParent, length_setLeft,
            length_setRight, hP, hL, hR, ht, hn, htn, hnt, hplen, hpn2, hnp,
            hpt2, htp3, hpd, hpd2, hrlen, hrt, Ne.symm hrt, hrn, hrp,
            Ne.symm hrp]
        · simp [replace_with, set_child, clear_child, direction_of,
            getN_setColor, getN_setParent', getN_setLeft, getN_setRight,
            length_setColor, length_setParent, length_setLeft,
            length_setRight, hP, hL, hR, ht, hn, htn, hnt, hplen, hpn2, hnp,
            hpt2, htp3, hpd, hpd2, hrlen, hrt, Ne.symm hrt, hrn, hrp,
            Ne.symm hrp]
        · simp [replace_with, set_child, clear_child, direction_of,
            getN_setColor, getN_setParent', getN_setLeft, getN_setRight,
            length_setColor, length_setParent, length_setLeft,
            length_setRight, hP, hL, hR, ht, hn, htn, hnt, hplen, hpn2, hnp,
            hpt2, htp3, hpd, hpd2, hrlen, hrt, Ne.symm hrt, hrn, hrp,
            Ne.symm hrp]
        · simp [replace_with, set_child, clear_child, direction_of,
            getN_setColor, getN_setParent', getN_setLeft, getN_setRight,
            length_setColor, length_setParent, length_setLeft,
            length_setRight, hP, hL, hR, ht, hn, htn, hnt, hplen, hpn2, hnp,
            hpt2, htp3, hpd, hpd2, hrlen, hrt, Ne.symm hrt, hrn, hrp,
            Ne.symm hrp]
        · intro q hq
          injection hq with hq
          subst hq
          refine ⟨fun _ => ⟨?_, ?_⟩, fun hcon => absurd hpd hcon, ?_⟩
          · simp [replace_with, set_child, clear_child, direction_of,
              getN_setColor, getN_setParent', getN_setLeft, getN_setRight,
              length_setColor, length_setParent, length_setLeft,
              length_setRight, hP, hL, hR, ht, hn, htn, hnt, hplen, hpn2,
              hnp, hpt2, htp3, hpd, hpd2, hrlen, hrt, Ne.symm hrt, hrn, hrp,
              Ne.symm hrp]
          · simp [replace_with, set_child, clear_child, direction_of,
              getN_setColor, getN_setParent', getN_setLeft, getN_setRight,
              length_setColor, length_setParent, length_setLeft,
              length_setRight, hP, hL, hR, ht, hn, htn, hnt, hplen, hpn2,
              hnp, hpt2, htp3, hpd, hpd2, hrlen, hrt, Ne.symm hrt, hrn, hrp,
              Ne.symm hrp]
          · simp [replace_with, set_child, clear_child, direction_of,
              getN_setColor, getN_setParent', getN_setLeft, getN_setRight,
              length_setColor, length_setParent, length_setLeft,
              length_setRight, hP, hL, hR, ht, hn, htn, hnt, hplen, hpn2,
              hnp, hpt2, htp3, hpd, hpd2, hrlen, hrt, Ne.symm hrt, hrn, hrp,
              Ne.symm hrp]
        · intro l0 h0 hn0
          exact Option.noConfusion h0
        · intro r0 h0 hn0
          injection h0 with h0
          subst h0
          exact absurd hrn hn0
        · simp [replace_with, set_child, clear_child, direction_of,
            getN_setColor, getN_setParent', getN_setLeft, getN_setRight,
            length_setColor, length_setParent, length_setLeft,
            length_setRight, hP, hL, hR, ht, hn, htn, hnt, hplen, hpn2, hnp,
            hpt2, htp3, hpd, hpd2, hrlen, hrt, Ne.symm hrt, hrn, hrp,
            Ne.symm hrp]
        · simp [replace_with, set_child, clear_child, direction_of,
            getN_setColor, getN_setParent', getN_setLeft, getN_setRight,
            length_setColor, length_setParent, length_setLeft,
            length_setRight, hP, hL, hR, ht, hn, htn, hnt, hplen, hpn2, hnp,
            hpt2, htp3, hpd, hpd2, hrlen, hrt, Ne.symm hrt, hrn, hrp,
            Ne.symm hrp]
        · simp [replace_with, set_child, clear_child, direction_of,
            getN_setColor, getN_setParent', getN_setLeft, getN_setRight,
            length_setColor, length_setParent, length_setLeft,
            length_setRight, hP, hL, hR, ht, hn, htn, hnt, hplen, hpn2, hnp,
            hpt2, htp3, hpd, hpd2, hrlen, hrt, Ne.symm hrt, hrn, hrp,
            Ne.symm hrp]
      · have hpd : (getN h p).left ≠ some t :=
          fun hc => hpboth ⟨hc, hpd2⟩
        refine ⟨?_, ?_, ?_, ?_, ?_, ?_, ?_, ?_, ?_, ?_⟩
        · simp [replace_with, set_child, clear_child, direction_of,
            getN_setColor, getN_setParent', getN_setLeft, getN_setRight,
            length_setColor, length_setParent, length_setLeft,
            length_setRight, hP, hL, hR, ht, hn, htn, hnt, hplen, hpn2, hnp,
            hpt2, htp3, hpd, hpd2, hrlen, hrt, Ne.symm hrt, hrn, hrp,
            Ne.symm hrp]
        · simp [replace_with, set_child, clear_child, direction_of,
            getN_setColor, getN_setParent', getN_setLeft, getN_setRight,
            length_setColor, length_setParent, length_setLeft,
            length_setRight, hP, hL, hR, ht, hn, htn, hnt, hplen, hpn2, hnp,
            hpt2, htp3, hpd, hpd2, hrlen, hrt, Ne.symm hrt, hrn, hrp,
            Ne.symm hrp]
        · simp [replace_with, set_child, clear_child, direction_of,
            getN_setColor, getN_setParent', getN_setLeft, getN_setRight,
            length_setColor, length_setParent, length_setLeft,
            length_setRight, hP, hL, hR, ht, hn, htn, hnt, hplen, hpn2, hnp,
            hpt2, htp3, hpd, hpd2, hrlen, hrt, Ne.symm hrt, hrn, hrp,
            Ne.symm hrp]
        · simp [replace_with, set_child, clear_child, direction_of,
            getN_setColor, getN_setParent', getN_setLeft, getN_setRight,
            length_setColor, length_setParent, length_setLeft,
            length_setRight, hP, hL, hR, ht, hn, htn, hnt, hplen, hpn2, hnp,
            hpt2, htp3, hpd, hpd2, hrlen, hrt, Ne.symm hrt, hrn, hrp,
            Ne.symm hrp]
        · intro q hq
          injection hq with hq
          subst hq
          refine ⟨fun hcon => absurd hcon hpd, fun _ => ⟨?_, ?_⟩, ?_⟩
          · simp [replace_with, set_child, clear_child, direction_of,
              getN_setColor, getN_setParent', getN_setLeft, getN_setRight,
              length_setColor, length_setParent, length_setLeft,
              length_setRight, hP, hL, hR, ht, hn, htn, hnt, hplen, hpn2,
              hnp, hpt2, htp3, hpd, hpd2, hrlen, hrt, Ne.symm hrt, hrn, hrp,
              Ne.symm hrp]
          · simp [replace_with, set_child, clear_child, direction_of,
              getN_setColor, getN_setParent', getN_setLeft, getN_setRight,
              length_setColor, length_setParent, length_setLeft,
              length_setRight, hP, hL, hR, ht, hn, htn, hnt, hplen, hpn2,
              hnp, hpt2, htp3, hpd, hpd2, hrlen, hrt, Ne.symm hrt, hrn, hrp,
              Ne.symm hrp]
          · simp [replace_with, set_child, clear_child, direction_of,
              getN_setColor, getN_setParent', getN_setLeft, getN_setRight,
              length_setColor, length_setParent, length_setLeft,
              length_setRight, hP, hL, hR, ht, hn, htn, hnt, hplen, hpn2,
              hnp, hpt2, htp3, hpd, hpd2, hrlen, hrt, Ne.symm hrt, hrn, hrp,
              Ne.symm hrp]
        · intro l0 h0 hn0
          exact Option.noConfusion h0
        · intro r0 h0 hn0
          injection h0 with h0
          subst h0
          exact absurd hrn hn0
        · simp [replace_with, set_child, clear_child, direction_of,
            getN_setColor, getN_setParent', getN_setLeft, getN_setRight,
            length_setColor, length_setParent, length_setLeft,
            length_setRight, hP, hL, hR, ht, hn, htn, hnt, hplen, hpn2, hnp,
            hpt2, htp3, hpd, hpd2, hrlen, hrt, Ne.symm hrt, hrn, hrp,
            Ne.symm hrp]
        · simp [replace_with, set_child, clear_child, direction_of,
            getN_setColor, getN_setParent', getN_setLeft, getN_setRight,
            length_setColor, length_setParent, length_setLeft,
            length_setRight, hP, hL, hR, ht, hn, htn, hnt, hplen, hpn2, hnp,
            hpt2, htp3, hpd, hpd2, hrlen, hrt, Ne.symm hrt, hrn, hrp,
            Ne.symm hrp]
        · simp [replace_with, set_child, clear_child, direction_of,
            getN_setColor, getN_setParent', getN_setLeft, getN_setRight,
            length_setColor, length_setParent, length_setLeft,
            length_setRight, hP, hL, hR, ht, hn, htn, hnt, hplen, hpn2, hnp,
            hpt2, htp3, hpd, hpd2, hrlen, hrt, Ne.symm hrt, hrn, hrp,
            Ne.symm hrp]
    · -- r ≠ n
      rcases hpdir with hpd | hpd2
      · have hpd2 : (getN h p).right ≠ some t :=
          fun hc => hpboth ⟨hpd, hc⟩
        refine ⟨?_, ?_, ?_, ?_, ?_, ?_, ?_, ?_, ?_, ?_⟩
        · simp [replace_with, set_child, clear_child, direction_of,
            getN_setColor, getN_setParent', getN_setLeft, getN_setRight,
            length_setColor, length_setParent, length_setLeft,
            length_setRight, hP, hL, hR, ht, hn, htn, hnt, hplen, hpn2, hnp,
            hpt2, htp3, hpd, hpd2, hrlen, hrt, Ne.symm hrt, hrn, Ne.symm hrn,
            hrp, Ne.symm hrp]
        · simp [replace_with, set_child, clear_child, direction_of,
            getN_setColor, getN_setParent', getN_setLeft, getN_setRight,
            length_setColor, length_setParent, length_setLeft,
            length_setRight, hP, hL, hR, ht, hn, htn, hnt, hplen, hpn2, hnp,
            hpt2, htp3, hpd, hpd2, hrlen, hrt, Ne.symm hrt, hrn, Ne.symm hrn,
            hrp, Ne.symm hrp]
        · simp [replace_with, set_child, clear_child, direction_of,
            getN_setColor, getN_setParent', getN_setLeft, getN_setRight,
            length_setColor, length_setParent, length_setLeft,
            length_setRight, hP, hL, hR, ht, hn, htn, hnt, hplen, hpn2, hnp,
            hpt2, htp3, hpd, hpd2, hrlen, hrt, Ne.symm hrt, hrn, Ne.symm hrn,
            hrp, Ne.symm hrp]
        · simp [replace_with, set_child, clear_child, direction_of,
            getN_setColor, getN_setParent', getN_setLeft, getN_setRight,
            length_setColor, length_setParent, length_setLeft,
            length_setRight, hP, hL, hR, ht, hn, htn, hnt, hplen, hpn2, hnp,
            hpt2, htp3, hpd, hpd2, hrlen, hrt, Ne.symm hrt, hrn, Ne.symm hrn,
            hrp, Ne.symm hrp]
        · intro q hq
          injection hq with hq
          subst hq
          refine ⟨fun _ => ⟨?_, ?_⟩, fun hcon => absurd hpd hcon, ?_⟩
          · simp [replace_with, set_child, clear_child, direction_of,
              getN_setColor, getN_setParent', getN_setLeft, getN_setRight,
              length_setColor, length_setParent, length_setLeft,
              length_setRight, hP, hL, hR, ht, hn, htn, hnt, hplen, hpn2,
              hnp, hpt2, htp3, hpd, hpd2, hrlen, hrt, Ne.symm hrt, hrn,
              Ne.symm hrn, hrp, Ne.symm hrp]
          · simp [replace_with, set_child, clear_child, direction_of,
              getN_setColor, getN_setParent', getN_setLeft, getN_setRight,
              length_setColor, length_setParent, length_setLeft,
              length_setRight, hP, hL, hR, ht, hn, htn, hnt, hplen, hpn2,
              hnp, hpt2, htp3, hpd, hpd2, hrlen, hrt, Ne.symm hrt, hrn,
              Ne.symm hrn, hrp, Ne.symm hrp]
          · simp [replace_with, set_child, clear_child, direction_of,
              getN_setColor, getN_setParent', getN_setLeft, getN_setRight,
              length_setColor, length_setParent, length_setLeft,
              length_setRight, hP, hL, hR, ht, hn, htn, hnt, hplen, hpn2,
              hnp, hpt2, htp3, hpd, hpd2, hrlen, hrt, Ne.symm hrt, hrn,
              Ne.symm hrn, hrp, Ne.symm hrp]
        · intro l0 h0 hn0
          exact Option.noConfusion h0
        · intro r0 h0 hn0
          injection h0 with h0
          subst h0
          refine ⟨?_, ?_, ?_⟩
          · simp [replace_with, set_child, clear_child, direction_of,
              getN_setColor, getN_setParent', getN_setLeft, getN_setRight,
              length_setColor, length_setParent, length_setLeft,
              length_setRight, hP, hL, hR, ht, hn, htn, hnt, hplen, hpn2,
              hnp, hpt2, htp3, hpd, hpd2, hrlen, hrt, Ne.symm hrt, hrn,
              Ne.symm hrn, hrp, Ne.symm hrp]
          · simp [replace_with, set_child, clear_child, direction_of,
              getN_setColor, getN_setParent', getN_setLeft, getN_setRight,
              length_setColor, length_setParent, length_setLeft,
              length_setRight, hP, hL, hR, ht, hn, htn, hnt, hplen, hpn2,
              hnp, hpt2, htp3, hpd, hpd2, hrlen, hrt, Ne.symm hrt, hrn,
              Ne.symm hrn, hrp, Ne.symm hrp]
          · simp [replace_with, set_child, clear_child, direction_of,
              getN_setColor, getN_setParent', getN_setLeft, getN_setRight,
              length_setColor, length_setParent, length_setLeft,
              length_setRight, hP, hL, hR, ht, hn, htn, hnt, hplen, hpn2,
              hnp, hpt2, htp3, hpd, hpd2, hrlen, hrt, Ne.symm hrt, hrn,
              Ne.symm hrn, hrp, Ne.symm hrp]
        · simp [replace_with, set_child, clear_child, direction_of,
            getN_setColor, getN_setParent', getN_setLeft, getN_setRight,
            length_setColor, length_setParent, length_setLeft,
            length_setRight, hP, hL, hR, ht, hn, htn, hnt, hplen, hpn2, hnp,
            hpt2, htp3, hpd, hpd2, hrlen, hrt, Ne.symm hrt, hrn, Ne.symm hrn,
            hrp, Ne.symm hrp]
        · simp [replace_with, set_child, clear_child, direction_of,
            getN_setColor, getN_setParent', getN_setLeft, getN_setRight,
            length_setColor, length_setParent, length_setLeft,
            length_setRight, hP, hL, hR, ht, hn, htn, hnt, hplen, hpn2, hnp,
            hpt2, htp3, hpd, hpd2, hrlen, hrt, Ne.symm hrt, hrn, Ne.symm hrn,
            hrp, Ne.symm hrp]
        · simp [replace_with, set_child, clear_child, direction_of,
            getN_setColor, getN_setParent', getN_setLeft, getN_setRight,
            length_setColor, length_setParent, length_setLeft,
            length_setRight, hP, hL, hR, ht, hn, htn, hnt, hplen, hpn2, hnp,
            hpt2, htp3, hpd, hpd2, hrlen, hrt, Ne.symm hrt, hrn, Ne.symm hrn,
            hrp, Ne.symm hrp]
      · have hpd : (getN h p).left ≠ some t :=
          fun hc => hpboth ⟨hc, hpd2⟩
        refine ⟨?_, ?_, ?_, ?_, ?_, ?_, ?_, ?_, ?_, ?_⟩
        · simp [replace_with, set_child, clear_child, direction_of,
            getN_setColor, getN_setParent', getN_setLeft, getN_setRight,
            length_setColor, length_setParent, length_setLeft,
            length_setRight, hP, hL, hR, ht, hn, htn, hnt, hplen, hpn2, hnp,
            hpt2, htp3, hpd, hpd2, hrlen, hrt, Ne.symm hrt, hrn, Ne.symm hrn,
            hrp, Ne.symm hrp]
        · simp [replace_with, set_child, clear_child, direction_of,
            getN_setColor, getN_setParent', getN_setLeft, getN_setRight,
            length_setColor, length_setParent, length_setLeft,
            length_setRight, hP, hL, hR, ht, hn, htn, hnt, hplen, hpn2, hnp,
            hpt2, htp3, hpd, hpd2, hrlen, hrt, Ne.symm hrt, hrn, Ne.symm hrn,
            hrp, Ne.symm hrp]
        · simp [replace_with, set_child, clear_child, direction_of,
            getN_setColor, getN_setParent', getN_setLeft, getN_setRight,
            length_setColor, length_setParent, length_setLeft,
            length_setRight, hP, hL, hR, ht, hn, htn, hnt, hplen, hpn2, hnp,
            hpt2, htp3, hpd, hpd2, hrlen, hrt, Ne.symm hrt, hrn, Ne.symm hrn,
            hrp, Ne.symm hrp]
        · simp [replace_with, set_child, clear_child, direction_of,
            getN_setColor, getN_setParent', getN_setLeft, getN_setRight,
            length_setColor, length_setParent, length_setLeft,
            length_setRight, hP, hL, hR, ht, hn, htn, hnt, hplen, hpn2, hnp,
            hpt2, htp3, hpd, hpd2, hrlen, hrt, Ne.symm hrt, hrn, Ne.symm hrn,
            hrp, Ne.symm hrp]
        · intro q hq
          injection hq with hq
          subst hq
          refine ⟨fun hcon => absurd hcon hpd, fun _ => ⟨?_, ?_⟩, ?_⟩
          · simp [replace_with, set_child, clear_child, direction_of,
              getN_setColor, getN_setParent', getN_setLeft, getN_setRight,
              length_setColor, length_setParent, length_setLeft,
              length_setRight, hP, hL, hR, ht, hn, htn, hnt, hplen, hpn2,
              hnp, hpt2, htp3, hpd, hpd2, hrlen, hrt, Ne.symm hrt, hrn,
              Ne.symm hrn, hrp, Ne.symm hrp]
          · simp [replace_with, set_child, clear_child, direction_of,
              getN_setColor, getN_setParent', getN_setLeft, getN_setRight,
              length_setColor, length_setParent, length_setLeft,
              length_setRight, hP, hL, hR, ht, hn, htn, hnt, hplen, hpn2,
              hnp, hpt2, htp3, hpd, hpd2, hrlen, hrt, Ne.symm hrt, hrn,
              Ne.symm hrn, hrp, Ne.symm hrp]
          · simp [replace_with, set_child, clear_child, direction_of,
              getN_setColor, getN_setParent', getN_setLeft, getN_setRight,
              length_setColor, length_setParent, length_setLeft,
              length_setRight, hP, hL, hR, ht, hn, htn, hnt, hplen, hpn2,
              hnp, hpt2, htp3, hpd, hpd2, hrlen, hrt, Ne.symm hrt, hrn,
              Ne.symm hrn, hrp, Ne.symm hrp]
        · intro l0 h0 hn0
          exact Option.noConfusion h0
        · intro r0 h0 hn0
          injection h0 with h0
          subst h0
          refine ⟨?_, ?_, ?_⟩
          · simp [replace_with, set_child, clear_child, direction_of,
              getN_setColor, getN_setParent', getN_setLeft, getN_setRight,
              length_setColor, length_setParent, length_setLeft,
              length_setRight, hP, hL, hR, ht, hn, htn, hnt, hplen, hpn2,
              hnp, hpt2, htp3, hpd, hpd2, hrlen, hrt, Ne.symm hrt, hrn,
              Ne.symm hrn, hrp, Ne.symm hrp]
          · simp [replace_with, set_child, clear_child, direction_of,
              getN_setColor, getN_setParent', getN_setLeft, getN_setRight,
              length_setColor, length_setParent, length_setLeft,
              length_setRight, hP, hL, hR, ht, hn, htn, hnt, hplen, hpn2,
              hnp, hpt2, htp3, hpd, hpd2, hrlen, hrt, Ne.symm hrt, hrn,
              Ne.symm hrn, hrp, Ne.symm hrp]
          · simp [replace_with, set_child, clear_child, direction_of,
              getN_setColor, getN_setParent', getN_setLeft, getN_setRight,
              length_setColor, length_setParent, length_setLeft,
              length_setRight, hP, hL, hR, ht, hn, htn, hnt, hplen, hpn2,
              hnp, hpt2, htp3, hpd, hpd2, hrlen, hrt, Ne.symm hrt, hrn,
              Ne.symm hrn, hrp, Ne.symm hrp]
        · simp [replace_with, set_child, clear_child, direction_of,
            getN_setColor, getN_setParent', getN_setLeft, getN_setRight,
            length_setColor, length_setParent, length_setLeft,
            length_setRight, hP, hL, hR, ht, hn, htn, hnt, hplen, hpn2, hnp,
            hpt2, htp3, hpd, hpd2, hrlen, hrt, Ne.symm hrt, hrn, Ne.symm hrn,
            hrp, Ne.symm hrp]
        · simp [replace_with, set_child, clear_child, direction_of,
            getN_setColor, getN_setParent', getN_setLeft, getN_setRight,
            length_setColor, length_setParent, length_setLeft,
            length_setRight, hP, hL, hR, ht, hn, htn, hnt, hplen, hpn2, hnp,
            hpt2, htp3, hpd, hpd2, hrlen, hrt, Ne.symm hrt, hrn, Ne.symm hrn,
            hrp, Ne.symm hrp]
        · simp [replace_with, set_child, clear_child, direction_of,
            getN_setColor, getN_setParent', getN_setLeft, getN_setRight,
            length_setColor, length_setParent, length_setLeft,
            length_setRight, hP, hL, hR, ht, hn, htn, hnt, hplen, hpn2, hnp,
            hpt2, htp3, hpd, hpd2, hrlen, hrt, Ne.symm hrt, hrn, Ne.symm hrn,
            hrp, Ne.symm hrp]
  · -- parent some, left some, right none
    simp only [hL, Option.elim] at hypL
    obtain ⟨hllen, hlback⟩ := hypL
    have hlt : l ≠ t := fun e => htl (by rw [hL, e])
    simp only [hP, Option.elim] at hypPar
    obtain ⟨hplen, hpn2, hpt2, hpdir, hpboth, hpl2, hpr2⟩ := hypPar
    have hnp : n ≠ p := Ne.symm hpn2
    have htp3 : t ≠ p := Ne.symm hpt2
    have hlp : l ≠ p := fun e => hpl2 (by rw [hL, e])
    by_cases hln : l = n
    · -- l = n
      rcases hpdir with hpd | hpd2
      · have hpd2 : (getN h p).right ≠ some t :=
          fun hc => hpboth ⟨hpd, hc⟩
        refine ⟨?_, ?_, ?_, ?_, ?_, ?_, ?_, ?_, ?_, ?_⟩
        · simp [replace_with, set_child, clear_child, direction_of,
            getN_setColor, getN_setParent', getN_setLeft, getN_setRight,
            length_setColor, length_setParent, length_setLeft,
            length_setRight, hP, hL, hR, ht, hn, htn, hnt, hplen, hpn2, hnp,
            hpt2, htp3, hpd, hpd2, hllen, hlt, Ne.symm hlt, hln, hlp,
            Ne.symm hlp]
        · simp [replace_with, set_child, clear_child, direction_of,
            getN_setColor, getN_setParent', getN_setLeft, getN_setRight,
            length_setColor, length_setParent, length_setLeft,
            length_setRight, hP, hL, hR, ht, hn, htn, hnt, hplen, hpn2, hnp,
            hpt2, htp3, hpd, hpd2, hllen, hlt, Ne.symm hlt, hln, hlp,
            Ne.symm hlp]
        · simp [replace_with, set_child, clear_child, direction_of,
            getN_setColor, getN_setParent', getN_setLeft, getN_setRight,
            length_setColor, length_setParent, length_setLeft,
            length_setRight, hP, hL, hR, ht, hn, htn, hnt, hplen, hpn2, hnp,
            hpt2, htp3, hpd, hpd2, hllen, hlt, Ne.symm hlt, hln, hlp,
            Ne.symm hlp]
        · simp [replace_with, set_child, clear_child, direction_of,
            getN_setColor, getN_setParent', getN_setLeft, getN_setRight,
            length_setColor, length_setParent, length_setLeft,
            length_setRight, hP, hL, hR, ht, hn, htn, hnt, hplen, hpn2, hnp,
            hpt2, htp3, hpd, hpd2, hllen, hlt, Ne.symm hlt, hln, hlp,
            Ne.symm hlp]
        · intro q hq
          injection hq with hq
          subst hq
          refine ⟨fun _ => ⟨?_, ?_⟩, fun hcon => absurd hpd hcon, ?_⟩
          · simp [replace_with, set_child, clear_child, direction_of,
              getN_setColor, getN_setParent', getN_setLeft, getN_setRight,
              length_setColor, length_setParent, length_setLeft,
              length_setRight, hP, hL, hR, ht, hn, htn, hnt, hplen, hpn2,
              hnp, hpt2, htp3, hpd, hpd2, hllen, hlt, Ne.symm hlt, hln, hlp,
              Ne.symm hlp]
          · simp [replace_with, set_child, clear_child, direction_of,
              getN_setColor, getN_setParent', getN_setLeft, getN_setRight,
              length_setColor, length_setParent, length_setLeft,
              length_setRight, hP, hL, hR, ht, hn, htn, hnt, hplen, hpn2,
              hnp, hpt2, htp3, hpd, hpd2, hllen, hlt, Ne.symm hlt, hln, hlp,
              Ne.symm hlp]
          · simp [replace_with, set_child, clear_child, direction_of,
              getN_setColor, getN_setParent', getN_setLeft, getN_setRight,
              length_setColor, length_setParent, length_setLeft,
              length_setRight, hP, hL, hR, ht, hn, htn, hnt, hplen, hpn2,
              hnp, hpt2, htp3, hpd, hpd2, hllen, hlt, Ne.symm hlt, hln, hlp,
              Ne.symm hlp]
        · intro l0 h0 hn0
          injection h0 with h0
          subst h0
          exact absurd hln hn0
        · intro r0 h0 hn0
          exact Option.noConfusion h0
        · simp [replace_with, set_child, clear_child, direction_of,
            getN_setColor, getN_setParent', getN_setLeft, getN_setRight,
            length_setColor, length_setParent, length_setLeft,
            length_setRight, hP, hL, hR, ht, hn, htn, hnt, hplen, hpn2, hnp,
            hpt2, htp3, hpd, hpd2, hllen, hlt, Ne.symm hlt, hln, hlp,
            Ne.symm hlp]
        · simp [replace_with, set_child, clear_child, direction_of,
            getN_setColor, getN_setParent', getN_setLeft, getN_setRight,
            length_setColor, length_setParent, length_setLeft,
            length_setRight, hP, hL, hR, ht, hn, htn, hnt, hplen, hpn2, hnp,
            hpt2, htp3, hpd, hpd2, hllen, hlt, Ne.symm hlt, hln, hlp,
            Ne.symm hlp]
        · simp [replace_with, set_child, clear_child, direction_of,
            getN_setColor, getN_setParent', getN_setLeft, getN_setRight,
            length_setColor, length_setParent, length_setLeft,
            length_setRight, hP, hL, hR, ht, hn, htn, hnt, hplen, hpn2, hnp,
            hpt2, htp3, hpd, hpd2, hllen, hlt, Ne.symm hlt, hln, hlp,
            Ne.symm hlp]
      · have hpd : (getN h p).left ≠ some t :=
          fun hc => hpboth ⟨hc, hpd2⟩
        refine ⟨?_, ?_, ?_, ?_, ?_, ?_, ?_, ?_, ?_, ?_⟩
        · simp [replace_with, set_child, clear_child, direction_of,
            getN_setColor, getN_setParent', getN_setLeft, getN_setRight,
            length_setColor, length_setParent, length_setLeft,
            length_setRight, hP, hL, hR, ht, hn, htn, hnt, hplen, hpn2, hnp,
            hpt2, htp3, hpd, hpd2, hllen, hlt, Ne.symm hlt, hln, hlp,
            Ne.symm hlp]
        · simp [replace_with, set_child, clear_child, direction_of,
            getN_setColor, getN_setParent', getN_setLeft, getN_setRight,
            length_setColor, length_setParent, length_setLeft,
            length_setRight, hP, hL, hR, ht, hn, htn, hnt, hplen, hpn2, hnp,
            hpt2, htp3, hpd, hpd2, hllen, hlt, Ne.symm hlt, hln, hlp,
            Ne.symm hlp]
        · simp [replace_with, set_child, clear_child, direction_of,
            getN_setColor, getN_setParent', getN_setLeft, getN_setRight,
            length_setColor, length_setParent, length_setLeft,
            length_setRight, hP, hL, hR, ht, hn, htn, hnt, hplen, hpn2, hnp,
            hpt2, htp3, hpd, hpd2, hllen, hlt, Ne.symm hlt, hln, hlp,
            Ne.symm hlp]
        · simp [replace_with, set_child, clear_child, direction_of,
            getN_setColor, getN_setParent', getN_setLeft, getN_setRight,
            length_setColor, length_setParent, length_setLeft,
            length_setRight, hP, hL, hR, ht, hn, htn, hnt, hplen, hpn2, hnp,
            hpt2, htp3, hpd, hpd2, hllen, hlt, Ne.symm hlt, hln, hlp,
            Ne.symm hlp]
        · intro q hq
          injection hq with hq
          subst hq
          refine ⟨fun hcon => absurd hcon hpd, fun _ => ⟨?_, ?_⟩, ?_⟩
          · simp [replace_with, set_child, clear_child, direction_of,
              getN_setColor, getN_setParent', getN_setLeft, getN_setRight,
              length_setColor, length_setParent, length_setLeft,
              length_setRight, hP, hL, hR, ht, hn, htn, hnt, hplen, hpn2,
              hnp, hpt2, htp3, hpd, hpd2, hllen, hlt, Ne.symm hlt, hln, hlp,
              Ne.symm hlp]
          · simp [replace_with, set_child, clear_child, direction_of,
              getN_setColor, getN_setParent', getN_setLeft, getN_setRight,
              length_setColor, length_setParent, length_setLeft,
              length_setRight, hP, hL, hR, ht, hn, htn, hnt, hplen, hpn2,
              hnp, hpt2, htp3, hpd, hpd2, hllen, hlt, Ne.symm hlt, hln, hlp,
              Ne.symm hlp]
          · simp [replace_with, set_child, clear_child, direction_of,
              getN_setColor, getN_setParent', getN_setLeft, getN_setRight,
              length_setColor, length_setParent, length_setLeft,
              length_setRight, hP, hL, hR, ht, hn, htn, hnt, hplen, hpn2,
              hnp, hpt2, htp3, hpd, hpd2, hllen, hlt, Ne.symm hlt, hln, hlp,
              Ne.symm hlp]
        · intro l0 h0 hn0
          injection h0 with h0
          subst h0
          exact absurd hln hn0
        · intro r0 h0 hn0
          exact Option.noConfusion h0
        · simp [replace_with, set_child, clear_child, direction_of,
            getN_setColor, getN_setParent', getN_setLeft, getN_setRight,
            length_setColor, length_setParent, length_setLeft,
            length_setRight, hP, hL, hR, ht, hn, htn, hnt, hplen, hpn2, hnp,
            hpt2, htp3, hpd, hpd2, hllen, hlt, Ne.symm hlt, hln, hlp,
            Ne.symm hlp]
        · simp [replace_with, set_child, clear_child, direction_of,
            getN_setColor, getN_setParent', getN_setLeft, getN_setRight,
            length_setColor, length_setParent, length_setLeft,
            length_setRight, hP, hL, hR, ht, hn, htn, hnt, hplen, hpn2, hnp,
            hpt2, htp3, hpd, hpd2, hllen, hlt, Ne.symm hlt, hln, hlp,
            Ne.symm hlp]
        · simp [replace_with, set_child, clear_child, direction_of,
            getN_setColor, getN_setParent', getN_setLeft, getN_setRight,
            length_setColor, length_setParent, length_setLeft,
            length_setRight, hP, hL, hR, ht, hn, htn, hnt, hplen, hpn2, hnp,
            hpt2, htp3, hpd, hpd2, hllen, hlt, Ne.symm hlt, hln, hlp,
            Ne.symm hlp]
    · -- l ≠ n
      rcases hpdir with hpd | hpd2
      · have hpd2 : (getN h p).right ≠ some t :=
          fun hc => hpboth ⟨hpd, hc⟩
        refine ⟨?_, ?_, ?_, ?_, ?_, ?_, ?_, ?_, ?_, ?_⟩
        · simp [replace_with, set_child, clear_child, direction_of,
            getN_setColor, getN_setParent', getN_setLeft, getN_setRight,
            length_setColor, length_setParent, length_setLeft,
            length_setRight, hP, hL, hR, ht, hn, htn, hnt, hplen, hpn2, hnp,
            hpt2, htp3, hpd, hpd2, hllen, hlt, Ne.symm hlt, hln, Ne.symm hln,
            hlp, Ne.symm hlp]
        · simp [replace_with, set_child, clear_child, direction_of,
            getN_setColor, getN_setParent', getN_setLeft, getN_setRight,
            length_setColor, length_setParent, length_setLeft,
            length_setRight, hP, hL, hR, ht, hn, htn, hnt, hplen, hpn2, hnp,
            hpt2, htp3, hpd, hpd2, hllen, hlt, Ne.symm hlt, hln, Ne.symm hln,
            hlp, Ne.symm hlp]
        · simp [replace_with, set_child, clear_child, direction_of,
            getN_setColor, getN_setParent', getN_setLeft, getN_setRight,
            length_setColor, length_setParent, length_setLeft,
            length_setRight, hP, hL, hR, ht, hn, htn, hnt, hplen, hpn2, hnp,
            hpt2, htp3, hpd, hpd2, hllen, hlt, Ne.symm hlt, hln, Ne.symm hln,
            hlp, Ne.symm hlp]
        · simp [replace_with, set_child, clear_child, direction_of,
            getN_setColor, getN_setParent', getN_setLeft, getN_setRight,
            length_setColor, length_setParent, length_setLeft,
            length_setRight, hP, hL, hR, ht, hn, htn, hnt, hplen, hpn2, hnp,
            hpt2, htp3, hpd, hpd2, hllen, hlt, Ne.symm hlt, hln, Ne.symm hln,
            hlp, Ne.symm hlp]
        · intro q hq
          injection hq with hq
          subst hq
          refine ⟨fun _ => ⟨?_, ?_⟩, fun hcon => absurd hpd hcon, ?_⟩
          · simp [replace_with, set_child, clear_child, direction_of,
              getN_setColor, getN_setParent', getN_setLeft, getN_setRight,
              length_setColor, length_setParent, length_setLeft,
              length_setRight, hP, hL, hR, ht, hn, htn, hnt, hplen, hpn2,
              hnp, hpt2, htp3, hpd, hpd2, hllen, hlt, Ne.symm hlt, hln,
              Ne.symm hln, hlp, Ne.symm hlp]
          · simp [replace_with, set_child, clear_child, direction_of,
              getN_setColor, getN_setParent', getN_setLeft, getN_setRight,
              length_setColor, length_setParent, length_setLeft,
              length_setRight, hP, hL, hR, ht, hn, htn, hnt, hplen, hpn2,
              hnp, hpt2, htp3, hpd, hpd2, hllen, hlt, Ne.symm hlt, hln,
              Ne.symm hln, hlp, Ne.symm hlp]
          · simp [replace_with, set_child, clear_child, direction_of,
              getN_setColor, getN_setParent', getN_setLeft, getN_setRight,
              length_setColor, length_setParent, length_setLeft,
              length_setRight, hP, hL, hR, ht, hn, htn, hnt, hplen, hpn2,
              hnp, hpt2, htp3, hpd, hpd2, hllen, hlt, Ne.symm hlt, hln,
              Ne.symm hln, hlp, Ne.symm hlp]
        · intro l0 h0 hn0
          injection h0 with h0
          subst h0
          refine ⟨?_, ?_, ?_⟩
          · simp [replace_with, set_child, clear_child, direction_of,
              getN_setColor, getN_setParent', getN_setLeft, getN_setRight,
              length_setColor, length_setParent, length_setLeft,
              length_setRight, hP, hL, hR, ht, hn, htn, hnt, hplen, hpn2,
              hnp, hpt2, htp3, hpd, hpd2, hllen, hlt, Ne.symm hlt, hln,
              Ne.symm hln, hlp, Ne.symm hlp]
          · simp [replace_with, set_child, clear_child, direction_of,
              getN_setColor, getN_setParent', getN_setLeft, getN_setRight,
              length_setColor, length_setParent, length_setLeft,
              length_setRight, hP, hL, hR, ht, hn, htn, hnt, hplen, hpn2,
              hnp, hpt2, htp3, hpd, hpd2, hllen, hlt, Ne.symm hlt, hln,
              Ne.symm hln, hlp, Ne.symm hlp]
          · simp [replace_with, set_child, clear_child, direction_of,
              getN_setColor, getN_setParent', getN_setLeft, getN_setRight,
              length_setColor, length_setParent, length_setLeft,
              length_setRight, hP, hL, hR, ht, hn, htn, hnt, hplen, hpn2,
              hnp, hpt2, htp3, hpd, hpd2, hllen, hlt, Ne.symm hlt, hln,
              Ne.symm hln, hlp, Ne.symm hlp]
        · intro r0 h0 hn0
          exact Option.noConfusion h0
        · simp [replace_with, set_child, clear_child, direction_of,
            getN_setColor, getN_setParent', getN_setLeft, getN_setRight,
            length_setColor, length_setParent, length_setLeft,
            length_setRight, hP, hL, hR, ht, hn, htn, hnt, hplen, hpn2, hnp,
            hpt2, htp3, hpd, hpd2, hllen, hlt, Ne.symm hlt, hln, Ne.symm hln,
            hlp, Ne.symm hlp]
        · simp [replace_with, set_child, clear_child, direction_of,
            getN_setColor, getN_setParent', getN_setLeft, getN_setRight,
            length_setColor, length_setParent, length_setLeft,
            length_setRight, hP, hL, hR, ht, hn, htn, hnt, hplen, hpn2, hnp,
            hpt2, htp3, hpd, hpd2, hllen, hlt, Ne.symm hlt, hln, Ne.symm hln,
            hlp, Ne.symm hlp]
        · simp [replace_with, set_child, clear_child, direction_of,
            getN_setColor, getN_setParent', getN_setLeft, getN_setRight,
            length_setColor, length_setParent, length_setLeft,
            length_setRight, hP, hL, hR, ht, hn, htn, hnt, hplen, hpn2, hnp,
            hpt2, htp3, hpd, hpd2, hllen, hlt, Ne.symm hlt, hln, Ne.symm hln,
            hlp, Ne.symm hlp]
      · have hpd : (getN h p).left ≠ some t :=
          fun hc => hpboth ⟨hc, hpd2⟩
        refine ⟨?_, ?_, ?_, ?_, ?_, ?_, ?_, ?_, ?_, ?_⟩
        · simp [replace_with, set_child, clear_child, direction_of,
            getN_setColor, getN_setParent', getN_setLeft, getN_setRight,
            length_setColor, length_setParent, length_setLeft,
            length_setRight, hP, hL, hR, ht, hn, htn, hnt, hplen, hpn2, hnp,
            hpt2, htp3, hpd, hpd2, hllen, hlt, Ne.symm hlt, hln, Ne.symm hln,
            hlp, Ne.symm hlp]
        · simp [replace_with, set_child, clear_child, direction_of,
            getN_setColor, getN_setParent', getN_setLeft, getN_setRight,
            length_setColor, length_setParent, length_setLeft,
            length_setRight, hP, hL, hR, ht, hn, htn, hnt, hplen, hpn2, hnp,
            hpt2, htp3, hpd, hpd2, hllen, hlt, Ne.symm hlt, hln, Ne.symm hln,
            hlp, Ne.symm hlp]
        · simp [replace_with, set_child, clear_child, direction_of,
            getN_setColor, getN_setParent', getN_setLeft, getN_setRight,
            length_setColor, length_setParent, length_setLeft,
            length_setRight, hP, hL, hR, ht, hn, htn, hnt, hplen, hpn2, hnp,
            hpt2, htp3, hpd, hpd2, hllen, hlt, Ne.symm hlt, hln, Ne.symm hln,
            hlp, Ne.symm hlp]
        · simp [replace_with, set_child, clear_child, direction_of,
            getN_setColor, getN_setParent', getN_setLeft, getN_setRight,
            length_setColor, length_setParent, length_setLeft,
            length_setRight, hP, hL, hR, ht, hn, htn, hnt, hplen, hpn2, hnp,
            hpt2, htp3, hpd, hpd2, hllen, hlt, Ne.symm hlt, hln, Ne.symm hln,
            hlp, Ne.symm hlp]
        · intro q hq
          injection hq with hq
          subst hq
          refine ⟨fun hcon => absurd hcon hpd, fun _ => ⟨?_, ?_⟩, ?_⟩
          · simp [replace_with, set_child, clear_child, direction_of,
              getN_setColor, getN_setParent', getN_setLeft, getN_setRight,
              length_setColor, length_setParent, length_setLeft,
              length_setRight, hP, hL, hR, ht, hn, htn, hnt, hplen, hpn2,
              hnp, hpt2, htp3, hpd, hpd2, hllen, hlt, Ne.symm hlt, hln,
              Ne.symm hln, hlp, Ne.symm hlp]
          · simp [replace_with, set_child, clear_child, direction_of,
              getN_setColor, getN_setParent', getN_setLeft, getN_setRight,
              length_setColor, length_setParent, length_setLeft,
              length_setRight, hP, hL, hR, ht, hn, htn, hnt, hplen, hpn2,
              hnp, hpt2, htp3, hpd, hpd2, hllen, hlt, Ne.symm hlt, hln,
              Ne.symm hln, hlp, Ne.symm hlp]
          · simp [replace_with, set_child, clear_child, direction_of,
              getN_setColor, getN_setParent', getN_setLeft, getN_setRight,
              length_setColor, length_setParent, length_setLeft,
              length_setRight, hP, hL, hR, ht, hn, htn, hnt, hplen, hpn2,
              hnp, hpt2, htp3, hpd, hpd2, hllen, hlt, Ne.symm hlt, hln,
              Ne.symm hln, hlp, Ne.symm hlp]
        · intro l0 h0 hn0
          injection h0 with h0
          subst h0
          refine ⟨?_, ?_, ?_⟩
          · simp [replace_with, set_child, clear_child, direction_of,
              getN_setColor, getN_setParent', getN_setLeft, getN_setRight,
              length_setColor, length_setParent, length_setLeft,
              length_setRight, hP, hL, hR, ht, hn, htn, hnt, hplen, hpn2,
              hnp, hpt2, htp3, hpd, hpd2, hllen, hlt, Ne.symm hlt, hln,
              Ne.symm hln, hlp, Ne.symm hlp]
          · simp [replace_with, set_child, clear_child, direction_of,
              getN_setColor, getN_setParent', getN_setLeft, getN_setRight,
              length_setColor, length_setParent, length_setLeft,
              length_setRight, hP, hL, hR, ht, hn, htn, hnt, hplen, hpn2,
              hnp, hpt2, htp3, hpd, hpd2, hllen, hlt, Ne.symm hlt, hln,
              Ne.symm hln, hlp, Ne.symm hlp]
          · simp [replace_with, set_child, clear_child, direction_of,
              getN_setColor, getN_setParent', getN_setLeft, getN_setRight,
              length_setColor, length_setParent, length_setLeft,
              length_setRight, hP, hL, hR, ht, hn, htn, hnt, hplen, hpn2,
              hnp, hpt2, htp3, hpd, hpd2, hllen, hlt, Ne.symm hlt, hln,
              Ne.symm hln, hlp, Ne.symm hlp]
        · intro r0 h0 hn0
          exact Option.noConfusion h0
        · simp [replace_with, set_child, clear_child, direction_of,
            getN_setColor, getN_setParent', getN_setLeft, getN_setRight,
            length_setColor, length_setParent, length_setLeft,
            length_setRight, hP, hL, hR, ht, hn, htn, hnt, hplen, hpn2, hnp,
            hpt2, htp3, hpd, hpd2, hllen, hlt, Ne.symm hlt, hln, Ne.symm hln,
            hlp, Ne.symm hlp]
        · simp [replace_with, set_child, clear_child, direction_of,
            getN_setColor, getN_setParent', getN_setLeft, getN_setRight,
            length_setColor, length_setParent, length_setLeft,
            length_setRight, hP, hL, hR, ht, hn, htn, hnt, hplen, hpn2, hnp,
            hpt2, htp3, hpd, hpd2, hllen, hlt, Ne.symm hlt, hln, Ne.symm hln,
            hlp, Ne.symm hlp]
        · simp [replace_with, set_child, clear_child, direction_of,
            getN_setColor, getN_setParent', getN_setLeft, getN_setRight,
            length_setColor, length_setParent, length_setLeft,
            length_setRight, hP, hL, hR, ht, hn, htn, hnt, hplen, hpn2, hnp,
            hpt2, htp3, hpd, hpd2, hllen, hlt, Ne.symm hlt, hln, Ne.symm hln,
            hlp, Ne.symm hlp]
  · -- parent some, left some, right some
    simp only [hL, Option.elim] at hypL
    obtain ⟨hllen, hlback⟩ := hypL
    have hlt : l ≠ t := fun e => htl (by rw [hL, e])
    simp only [hR, Option.elim] at hypR
    obtain ⟨hrlen, hrback⟩ := hypR
    have hrt : r ≠ t := fun e => htr (by rw [hR, e])
    have hlr : l ≠ r := by
      rcases hLR with hh | hh
      · rw [hL] at hh
        exact Option.noConfusion hh
      · rw [hL, hR] at hh
        intro e
        apply hh
        rw [e]
    simp only [hP, Option.elim] at hypPar
    obtain ⟨hplen, hpn2, hpt2, hpdir, hpboth, hpl2, hpr2⟩ := hypPar
    have hnp : n ≠ p := Ne.symm hpn2
    have htp3 : t ≠ p := Ne.symm hpt2
    have hlp : l ≠ p := fun e => hpl2 (by rw [hL, e])
    have hrp : r ≠ p := fun e => hpr2 (by rw [hR, e])
    by_cases hln : l = n
    · -- l = n
      by_cases hrn : r = n
      · -- r = n
        exact absurd (hln.trans hrn.symm) hlr
      · -- r ≠ n
        rcases hpdir with hpd | hpd2
        · have hpd2 : (getN h p).right ≠ some t :=
            fun hc => hpboth ⟨hpd, hc⟩
          refine ⟨?_, ?_, ?_, ?_, ?_, ?_, ?_, ?_, ?_, ?_⟩
          · simp [replace_with, set_child, clear_child, direction_of,
              getN_setColor, getN_setParent', getN_setLeft, getN_setRight,
              length_setColor, length_setParent, length_setLeft,
              length_setRight, hP, hL, hR, ht, hn, htn, hnt, hplen, hpn2,
              hnp, hpt2, htp3, hpd, hpd2, hllen, hlt, Ne.symm hlt, hln, hlp,
              Ne.symm hlp, hrlen, hrt, Ne.symm hrt, hrn, Ne.symm hrn, hrp,
              Ne.symm hrp, hlr, Ne.symm hlr]
          · simp [replace_with, set_child, clear_child, direction_of,
              getN_setColor, getN_setParent', getN_setLeft, getN_setRight,
              length_setColor, length_setParent, length_setLeft,
              length_setRight, hP, hL, hR, ht, hn, htn, hnt, hplen, hpn2,
              hnp, hpt2, htp3, hpd, hpd2, hllen, hlt, Ne.symm hlt, hln, hlp,
              Ne.symm hlp, hrlen, hrt, Ne.symm hrt, hrn, Ne.symm hrn, hrp,
              Ne.symm hrp, hlr, Ne.symm hlr]
          · simp [replace_with, set_child, clear_child, direction_of,
              getN_setColor, getN_setParent', getN_setLeft, getN_setRight,
              length_setColor, length_setParent, length_setLeft,
              length_setRight, hP, hL, hR, ht, hn, htn, hnt, hplen, hpn2,
              hnp, hpt2, htp3, hpd, hpd2, hllen, hlt, Ne.symm hlt, hln, hlp,
              Ne.symm hlp, hrlen, hrt, Ne.symm hrt, hrn, Ne.symm hrn, hrp,
              Ne.symm hrp, hlr, Ne.symm hlr]
          · simp [replace_with, set_child, clear_child, direction_of,
              getN_setColor, getN_setParent', getN_setLeft, getN_setRight,
              length_setColor, length_setParent, length_setLeft,
              length_setRight, hP, hL, hR, ht, hn, htn, hnt, hplen, hpn2,
              hnp, hpt2, htp3, hpd, hpd2, hllen, hlt, Ne.symm hlt, hln, hlp,
              Ne.symm hlp, hrlen, hrt, Ne.symm hrt, hrn, Ne.symm hrn, hrp,
              Ne.symm hrp, hlr, Ne.symm hlr]
          · intro q hq
            injection hq with hq
            subst hq
            refine ⟨fun _ => ⟨?_, ?_⟩, fun hcon => absurd hpd hcon, ?_⟩
            · simp [replace_with, set_child, clear_child, direction_of,
                getN_setColor, getN_setParent', getN_setLeft, getN_setRight,
                length_setColor, length_setParent, length_setLeft,
                length_setRight, hP, hL, hR, ht, hn, htn, hnt, hplen, hpn2,
                hnp, hpt2, htp3, hpd, hpd2, hllen, hlt, Ne.symm hlt, hln,
                hlp, Ne.symm hlp, hrlen, hrt, Ne.symm hrt, hrn, Ne.symm hrn,
                hrp, Ne.symm hrp, hlr, Ne.symm hlr]
            · simp [replace_with, set_child, clear_child, direction_of,
                getN_setColor, getN_setParent', getN_setLeft, getN_setRight,
                length_setColor, length_setParent, length_setLeft,
                length_setRight, hP, hL, hR, ht, hn, htn, hnt, hplen, hpn2,
                hnp, hpt2, htp3, hpd, hpd2, hllen, hlt, Ne.symm hlt, hln,
                hlp, Ne.symm hlp, hrlen, hrt, Ne.symm hrt, hrn, Ne.symm hrn,
                hrp, Ne.symm hrp, hlr, Ne.symm hlr]
            · simp [replace_with, set_child, clear_child, direction_of,
                getN_setColor, getN_setParent', getN_setLeft, getN_setRight,
                length_setColor, length_setParent, length_setLeft,
                length_setRight, hP, hL, hR, ht, hn, htn, hnt, hplen, hpn2,
                hnp, hpt2, htp3, hpd, hpd2, hllen, hlt, Ne.symm hlt, hln,
                hlp, Ne.symm hlp, hrlen, hrt, Ne.symm hrt, hrn, Ne.symm hrn,
                hrp, Ne.symm hrp, hlr, Ne.symm hlr]
          · intro l0 h0 hn0
            injection h0 with h0
            subst h0
            exact absurd hln hn0
          · intro r0 h0 hn0
            injection h0 with h0
            subst h0
            refine ⟨?_, ?_, ?_⟩
            · simp [replace_with, set_child, clear_child, direction_of,
                getN_setColor, getN_setParent', getN_setLeft, getN_setRight,
                length_setColor, length_setParent, length_setLeft,
                length_setRight, hP, hL, hR, ht, hn, htn, hnt, hplen, hpn2,
                hnp, hpt2, htp3, hpd, hpd2, hllen, hlt, Ne.symm hlt, hln,
                hlp, Ne.symm hlp, hrlen, hrt, Ne.symm hrt, hrn, Ne.symm hrn,
                hrp, Ne.symm hrp, hlr, Ne.symm hlr]
            · simp [replace_with, set_child, clear_child, direction_of,
                getN_setColor, getN_setParent', getN_setLeft, getN_setRight,
                length_setColor, length_setParent, length_setLeft,
                length_setRight, hP, hL, hR, ht, hn, htn, hnt, hplen, hpn2,
                hnp, hpt2, htp3, hpd, hpd2, hllen, hlt, Ne.symm hlt, hln,
                hlp, Ne.symm hlp, hrlen, hrt, Ne.symm hrt, hrn, Ne.symm hrn,
                hrp, Ne.symm hrp, hlr, Ne.symm hlr]
            · simp [replace_with, set_child, clear_child, direction_of,
                getN_setColor, getN_setParent', getN_setLeft, getN_setRight,
                length_setColor, length_setParent, length_setLeft,
                length_setRight, hP, hL, hR, ht, hn, htn, hnt, hplen, hpn2,
                hnp, hpt2, htp3, hpd, hpd2, hllen, hlt, Ne.symm hlt, hln,
                hlp, Ne.symm hlp, hrlen, hrt, Ne.symm hrt, hrn, Ne.symm hrn,
                hrp, Ne.symm hrp, hlr, Ne.symm hlr]
          · simp [replace_with, set_child, clear_child, direction_of,
              getN_setColor, getN_setParent', getN_setLeft, getN_setRight,
              length_setColor, length_setParent, length_setLeft,
              length_setRight, hP, hL, hR, ht, hn, htn, hnt, hplen, hpn2,
              hnp, hpt2, htp3, hpd, hpd2, hllen, hlt, Ne.symm hlt, hln, hlp,
              Ne.symm hlp, hrlen, hrt, Ne.symm hrt, hrn, Ne.symm hrn, hrp,
              Ne.symm hrp, hlr, Ne.symm hlr]
          · simp [replace_with, set_child, clear_child, direction_of,
              getN_setColor, getN_setParent', getN_setLeft, getN_setRight,
              length_setColor, length_setParent, length_setLeft,
              length_setRight, hP, hL, hR, ht, hn, htn, hnt, hplen, hpn2,
              hnp, hpt2, htp3, hpd, hpd2, hllen, hlt, Ne.symm hlt, hln, hlp,
              Ne.symm hlp, hrlen, hrt, Ne.symm hrt, hrn, Ne.symm hrn, hrp,
              Ne.symm hrp, hlr, Ne.symm hlr]
          · simp [replace_with, set_child, clear_child, direction_of,
              getN_setColor, getN_setParent', getN_setLeft, getN_setRight,
              length_setColor, length_setParent, length_setLeft,
              length_setRight, hP, hL, hR, ht, hn, htn, hnt, hplen, hpn2,
              hnp, hpt2, htp3, hpd, hpd2, hllen, hlt, Ne.symm hlt, hln, hlp,
              Ne.symm hlp, hrlen, hrt, Ne.symm hrt, hrn, Ne.symm hrn, hrp,
              Ne.symm hrp, hlr, Ne.symm hlr]
        · have hpd : (getN h p).left ≠ some t :=
            fun hc => hpboth ⟨hc, hpd2⟩
          refine ⟨?_, ?_, ?_, ?_, ?_, ?_, ?_, ?_, ?_, ?_⟩
          · simp [replace_with, set_child, clear_child, direction_of,
              getN_setColor, getN_setParent', getN_setLeft, getN_setRight,
              length_setColor, length_setParent, length_setLeft,
              length_setRight, hP, hL, hR, ht, hn, htn, hnt, hplen, hpn2,
              hnp, hpt2, htp3, hpd, hpd2, hllen, hlt, Ne.symm hlt, hln, hlp,
              Ne.symm hlp, hrlen, hrt, Ne.symm hrt, hrn, Ne.symm hrn, hrp,
              Ne.symm hrp, hlr, Ne.symm hlr]
          · simp [replace_with, set_child, clear_child, direction_of,
              getN_setColor, getN_setParent', getN_setLeft, getN_setRight,
              length_setColor, length_setParent, length_setLeft,
              length_setRight, hP, hL, hR, ht, hn, htn, hnt, hplen, hpn2,
              hnp, hpt2, htp3, hpd, hpd2, hllen, hlt, Ne.symm hlt, hln, hlp,
              Ne.symm hlp, hrlen, hrt, Ne.symm hrt, hrn, Ne.symm hrn, hrp,
              Ne.symm hrp, hlr, Ne.symm hlr]
          · simp [replace_with, set_child, clear_child, direction_of,
              getN_setColor, getN_setParent', getN_setLeft, getN_setRight,
              length_setColor, length_setParent, length_setLeft,
              length_setRight, hP, hL, hR, ht, hn, htn, hnt, hplen, hpn2,
              hnp, hpt2, htp3, hpd, hpd2, hllen, hlt, Ne.symm hlt, hln, hlp,
              Ne.symm hlp, hrlen, hrt, Ne.symm hrt, hrn, Ne.symm hrn, hrp,
              Ne.symm hrp, hlr, Ne.symm hlr]
          · simp [replace_with, set_child, clear_child, direction_of,
              getN_setColor, getN_setParent', getN_setLeft, getN_setRight,
              length_setColor, length_setParent, length_setLeft,
              length_setRight, hP, hL, hR, ht, hn, htn, hnt, hplen, hpn2,
              hnp, hpt2, htp3, hpd, hpd2, hllen, hlt, Ne.symm hlt, hln, hlp,
              Ne.symm hlp, hrlen, hrt, Ne.symm hrt, hrn, Ne.symm hrn, hrp,
              Ne.symm hrp, hlr, Ne.symm hlr]
          · intro q hq
            injection hq with hq
            subst hq
            refine ⟨fun hcon => absurd hcon hpd, fun _ => ⟨?_, ?_⟩, ?_⟩
            · simp [replace_with, set_child, clear_child, direction_of,
                getN_setColor, getN_setParent', getN_setLeft, getN_setRight,
                length_setColor, length_setParent, length_setLeft,
                length_setRight, hP, hL, hR, ht, hn, htn, hnt, hplen, hpn2,
                hnp, hpt2, htp3, hpd, hpd2, hllen, hlt, Ne.symm hlt, hln,
                hlp, Ne.symm hlp, hrlen, hrt, Ne.symm hrt, hrn, Ne.symm hrn,
                hrp, Ne.symm hrp, hlr, Ne.symm hlr]
            · simp [replace_with, set_child, clear_child, direction_of,
                getN_setColor, getN_setParent', getN_setLeft, getN_setRight,
                length_setColor, length_setParent, length_setLeft,
                length_setRight, hP, hL, hR, ht, hn, htn, hnt, hplen, hpn2,
                hnp, hpt2, htp3, hpd, hpd2, hllen, hlt, Ne.symm hlt, hln,
                hlp, Ne.symm hlp, hrlen, hrt, Ne.symm hrt, hrn, Ne.symm hrn,
                hrp, Ne.symm hrp, hlr, Ne.symm hlr]
            · simp [replace_with, set_child, clear_child, direction_of,
                getN_setColor, getN_setParent', getN_setLeft, getN_setRight,
                length_setColor, length_setParent, length_setLeft,
                length_setRight, hP, hL, hR, ht, hn, htn, hnt, hplen, hpn2,
                hnp, hpt2, htp3, hpd, hpd2, hllen, hlt, Ne.symm hlt, hln,
                hlp, Ne.symm hlp, hrlen, hrt, Ne.symm hrt, hrn, Ne.symm hrn,
                hrp, Ne.symm hrp, hlr, Ne.symm hlr]
          · intro l0 h0 hn0
            injection h0 with h0
            subst h0
            exact absurd hln hn0
          · intro r0 h0 hn0
            injection h0 with h0
            subst h0
            refine ⟨?_, ?_, ?_⟩
            · simp [replace_with, set_child, clear_child, direction_of,
                getN_setColor, getN_setParent', getN_setLeft, getN_setRight,
                length_setColor, length_setParent, length_setLeft,
                length_setRight, hP, hL, hR, ht, hn, htn, hnt, hplen, hpn2,
                hnp, hpt2, htp3, hpd, hpd2, hllen, hlt, Ne.symm hlt, hln,
                hlp, Ne.symm hlp, hrlen, hrt, Ne.symm hrt, hrn, Ne.symm hrn,
                hrp, Ne.symm hrp, hlr, Ne.symm hlr]
            · simp [replace_with, set_child, clear_child, direction_of,
                getN_setColor, getN_setParent', getN_setLeft, getN_setRight,
                length_setColor, length_setParent, length_setLeft,
                length_setRight, hP, hL, hR, ht, hn, htn, hnt, hplen, hpn2,
                hnp, hpt2, htp3, hpd, hpd2, hllen, hlt, Ne.symm hlt, hln,
                hlp, Ne.symm hlp, hrlen, hrt, Ne.symm hrt, hrn, Ne.symm hrn,
                hrp, Ne.symm hrp, hlr, Ne.symm hlr]
            · simp [replace_with, set_child, clear_child, direction_of,
                getN_setColor, getN_setParent', getN_setLeft, getN_setRight,
                length_setColor, length_setParent, length_setLeft,
                length_setRight, hP, hL, hR, ht, hn, htn, hnt, hplen, hpn2,
                hnp, hpt2, htp3, hpd, hpd2, hllen, hlt, Ne.symm hlt, hln,
                hlp, Ne.symm hlp, hrlen, hrt, Ne.symm hrt, hrn, Ne.symm hrn,
                hrp, Ne.symm hrp, hlr, Ne.symm hlr]
          · simp [replace_with, set_child, clear_child, direction_of,
              getN_setColor, getN_setParent', getN_setLeft, getN_setRight,
              length_setColor, length_setParent, length_setLeft,
              length_setRight, hP, hL, hR, ht, hn, htn, hnt, hplen, hpn2,
              hnp, hpt2, htp3, hpd, hpd2, hllen, hlt, Ne.symm hlt, hln, hlp,
              Ne.symm hlp, hrlen, hrt, Ne.symm hrt, hrn, Ne.symm hrn, hrp,
              Ne.symm hrp, hlr, Ne.symm hlr]
          · simp [replace_with, set_child, clear_child, direction_of,
              getN_setColor, getN_setParent', getN_setLeft, getN_setRight,
              length_setColor, length_setParent, length_setLeft,
              length_setRight, hP, hL, hR, ht, hn, htn, hnt, hplen, hpn2,
              hnp, hpt2, htp3, hpd, hpd2, hllen, hlt, Ne.symm hlt, hln, hlp,
              Ne.symm hlp, hrlen, hrt, Ne.symm hrt, hrn, Ne.symm hrn, hrp,
              Ne.symm hrp, hlr, Ne.symm hlr]
          · simp [replace_with, set_child, clear_child, direction_of,
              getN_setColor, getN_setParent', getN_setLeft, getN_setRight,
              length_setColor, length_setParent, length_setLeft,
              length_setRight, hP, hL, hR, ht, hn, htn, hnt, hplen, hpn2,
              hnp, hpt2, htp3, hpd, hpd2, hllen, hlt, Ne.symm hlt, hln, hlp,
              Ne.symm hlp, hrlen, hrt, Ne.symm hrt, hrn, Ne.symm hrn, hrp,
              Ne.symm hrp, hlr, Ne.symm hlr]
    · -- l ≠ n
      by_cases hrn : r = n
      · -- r = n
        rcases hpdir with hpd | hpd2
        · have hpd2 : (getN h p).right ≠ some t :=
            fun hc => hpboth ⟨hpd, hc⟩
          refine ⟨?_, ?_, ?_, ?_, ?_, ?_, ?_, ?_, ?_, ?_⟩
          · simp [replace_with, set_child, clear_child, direction_of,
              getN_setColor, getN_setParent', getN_setLeft, getN_setRight,
              length_setColor, length_setParent, length_setLeft,
              length_setRight, hP, hL, hR, ht, hn, htn, hnt, hplen, hpn2,
              hnp, hpt2, htp3, hpd, hpd2, hllen, hlt, Ne.symm hlt, hln,
              Ne.symm hln, hlp, Ne.symm hlp, hrlen, hrt, Ne.symm hrt, hrn,
              hrp, Ne.symm hrp, hlr, Ne.symm hlr]
          · simp [replace_with, set_child, clear_child, direction_of,
              getN_setColor, getN_setParent', getN_setLeft, getN_setRight,
              length_setColor, length_setParent, length_setLeft,
              length_setRight, hP, hL, hR, ht, hn, htn, hnt, hplen, hpn2,
              hnp, hpt2, htp3, hpd, hpd2, hllen, hlt, Ne.symm hlt, hln,
              Ne.symm hln, hlp, Ne.symm hlp, hrlen, hrt, Ne.symm hrt, hrn,
              hrp, Ne.symm hrp, hlr, Ne.symm hlr]
          · simp [replace_with, set_child, clear_child, direction_of,
              getN_setColor, getN_setParent', getN_setLeft, getN_setRight,
              length_setColor, length_setParent, length_setLeft,
              length_setRight, hP, hL, hR, ht, hn, htn, hnt, hplen, hpn2,
              hnp, hpt2, htp3, hpd, hpd2, hllen, hlt, Ne.symm hlt, hln,
              Ne.symm hln, hlp, Ne.symm hlp, hrlen, hrt, Ne.symm hrt, hrn,
              hrp, Ne.symm hrp, hlr, Ne.symm hlr]
          · simp [replace_with, set_child, clear_child, direction_of,
              getN_setColor, getN_setParent', getN_setLeft, getN_setRight,
              length_setColor, length_setParent, length_setLeft,
              length_setRight, hP, hL, hR, ht, hn, htn, hnt, hplen, hpn2,
              hnp, hpt2, htp3, hpd, hpd2, hllen, hlt, Ne.symm hlt, hln,
              Ne.symm hln, hlp, Ne.symm hlp, hrlen, hrt, Ne.symm hrt, hrn,
              hrp, Ne.symm hrp, hlr, Ne.symm hlr]
          · intro q hq
            injection hq with hq
            subst hq
            refine ⟨fun _ => ⟨?_, ?_⟩, fun hcon => absurd hpd hcon, ?_⟩
            · simp [replace_with, set_child, clear_child, direction_of,
                getN_setColor, getN_setParent', getN_setLeft, getN_setRight,
                length_setColor, length_setParent, length_setLeft,
                length_setRight, hP, hL, hR, ht, hn, htn, hnt, hplen, hpn2,
                hnp, hpt2, htp3, hpd, hpd2, hllen, hlt, Ne.symm hlt, hln,
                Ne.symm hln, hlp, Ne.symm hlp, hrlen, hrt, Ne.symm hrt, hrn,
                hrp, Ne.symm hrp, hlr, Ne.symm hlr]
            · simp [replace_with, set_child, clear_child, direction_of,
                getN_setColor, getN_setParent', getN_setLeft, getN_setRight,
                length_setColor, length_setParent, length_setLeft,
                length_setRight, hP, hL, hR, ht, hn, htn, hnt, hplen, hpn2,
                hnp, hpt2, htp3, hpd, hpd2, hllen, hlt, Ne.symm hlt, hln,
                Ne.symm hln, hlp, Ne.symm hlp, hrlen, hrt, Ne.symm hrt, hrn,
                hrp, Ne.symm hrp, hlr, Ne.symm hlr]
            · simp [replace_with, set_child, clear_child, direction_of,
                getN_setColor, getN_setParent', getN_setLeft, getN_setRight,
                length_setColor, length_setParent, length_setLeft,
                length_setRight, hP, hL, hR, ht, hn, htn, hnt, hplen, hpn2,
                hnp, hpt2, htp3, hpd, hpd2, hllen, hlt, Ne.symm hlt, hln,
                Ne.symm hln, hlp, Ne.symm hlp, hrlen, hrt, Ne.symm hrt, hrn,
                hrp, Ne.symm hrp, hlr, Ne.symm hlr]
          · intro l0 h0 hn0
            injection h0 with h0
            subst h0
            refine ⟨?_, ?_, ?_⟩
            · simp [replace_with, set_child, clear_child, direction_of,
                getN_setColor, getN_setParent', getN_setLeft, getN_setRight,
                length_setColor, length_setParent, length_setLeft,
                length_setRight, hP, hL, hR, ht, hn, htn, hnt, hplen, hpn2,
                hnp, hpt2, htp3, hpd, hpd2, hllen, hlt, Ne.symm hlt, hln,
                Ne.symm hln, hlp, Ne.symm hlp, hrlen, hrt, Ne.symm hrt, hrn,
                hrp, Ne.symm hrp, hlr, Ne.symm hlr]
            · simp [replace_with, set_child, clear_child, direction_of,
                getN_setColor, getN_setParent', getN_setLeft, getN_setRight,
                length_setColor, length_setParent, length_setLeft,
                length_setRight, hP, hL, hR, ht, hn, htn, hnt, hplen, hpn2,
                hnp, hpt2, htp3, hpd, hpd2, hllen, hlt, Ne.symm hlt, hln,
                Ne.symm hln, hlp, Ne.symm hlp, hrlen, hrt, Ne.symm hrt, hrn,
                hrp, Ne.symm hrp, hlr, Ne.symm hlr]
            · simp [replace_with, set_child, clear_child, direction_of,
                getN_setColor, getN_setParent', getN_setLeft, getN_setRight,
                length_setColor, length_setParent, length_setLeft,
                length_setRight, hP, hL, hR, ht, hn, htn, hnt, hplen, hpn2,
                hnp, hpt2, htp3, hpd, hpd2, hllen, hlt, Ne.symm hlt, hln,
                Ne.symm hln, hlp, Ne.symm hlp, hrlen, hrt, Ne.symm hrt, hrn,
                hrp, Ne.symm hrp, hlr, Ne.symm hlr]
          · intro r0 h0 hn0
            injection h0 with h0
            subst h0
            exact absurd hrn hn0
          · simp [replace_with, set_child, clear_child, direction_of,
              getN_setColor, getN_setParent', getN_setLeft, getN_setRight,
              length_setColor, length_setParent, length_setLeft,
              length_setRight, hP, hL, hR, ht, hn, htn, hnt, hplen, hpn2,
              hnp, hpt2, htp3, hpd, hpd2, hllen, hlt, Ne.symm hlt, hln,
              Ne.symm hln, hlp, Ne.symm hlp, hrlen, hrt, Ne.symm hrt, hrn,
              hrp, Ne.symm hrp, hlr, Ne.symm hlr]
          · simp [replace_with, set_child, clear_child, direction_of,
              getN_setColor, getN_setParent', getN_setLeft, getN_setRight,
              length_setColor, length_setParent, length_setLeft,
              length_setRight, hP, hL, hR, ht, hn, htn, hnt, hplen, hpn2,
              hnp, hpt2, htp3, hpd, hpd2, hllen, hlt, Ne.symm hlt, hln,
              Ne.symm hln, hlp, Ne.symm hlp, hrlen, hrt, Ne.symm hrt, hrn,
              hrp, Ne.symm hrp, hlr, Ne.symm hlr]
          · simp [replace_with, set_child, clear_child, direction_of,
              getN_setColor, getN_setParent', getN_setLeft, getN_setRight,
              length_setColor, length_setParent, length_setLeft,
              length_setRight, hP, hL, hR, ht, hn, htn, hnt, hplen, hpn2,
              hnp, hpt2, htp3, hpd, hpd2, hllen, hlt, Ne.symm hlt, hln,
              Ne.symm hln, hlp, Ne.symm hlp, hrlen, hrt, Ne.symm hrt, hrn,
              hrp, Ne.symm hrp, hlr, Ne.symm hlr]
        · have hpd : (getN h p).left ≠ some t :=
            fun hc => hpboth ⟨hc, hpd2⟩
          refine ⟨?_, ?_, ?_, ?_, ?_, ?_, ?_, ?_, ?_, ?_⟩
          · simp [replace_with, set_child, clear_child, direction_of,
              getN_setColor, getN_setParent', getN_setLeft, getN_setRight,
              length_setColor, length_setParent, length_setLeft,
              length_setRight, hP, hL, hR, ht, hn, htn, hnt, hplen, hpn2,
              hnp, hpt2, htp3, hpd, hpd2, hllen, hlt, Ne.symm hlt, hln,
              Ne.symm hln, hlp, Ne.symm hlp, hrlen, hrt, Ne.symm hrt, hrn,
              hrp, Ne.symm hrp, hlr, Ne.symm hlr]
          · simp [replace_with, set_child, clear_child, direction_of,
              getN_setColor, getN_setParent', getN_setLeft, getN_setRight,
              length_setColor, length_setParent, length_setLeft,
              length_setRight, hP, hL, hR, ht, hn, htn, hnt, hplen, hpn2,
              hnp, hpt2, htp3, hpd, hpd2, hllen, hlt, Ne.symm hlt, hln,
              Ne.symm hln, hlp, Ne.symm hlp, hrlen, hrt, Ne.symm hrt, hrn,
              hrp, Ne.symm hrp, hlr, Ne.symm hlr]
          · simp [replace_with, set_child, clear_child, direction_of,
              getN_setColor, getN_setParent', getN_setLeft, getN_setRight,
              length_setColor, length_setParent, length_setLeft,
              length_setRight, hP, hL, hR, ht, hn, htn, hnt, hplen, hpn2,
              hnp, hpt2, htp3, hpd, hpd2, hllen, hlt, Ne.symm hlt, hln,
              Ne.symm hln, hlp, Ne.symm hlp, hrlen, hrt, Ne.symm hrt, hrn,
              hrp, Ne.symm hrp, hlr, Ne.symm hlr]
          · simp [replace_with, set_child, clear_child, direction_of,
              getN_setColor, getN_setParent', getN_setLeft, getN_setRight,
              length_setColor, length_setParent, length_setLeft,
              length_setRight, hP, hL, hR, ht, hn, htn, hnt, hplen, hpn2,
              hnp, hpt2, htp3, hpd, hpd2, hllen, hlt, Ne.symm hlt, hln,
              Ne.symm hln, hlp, Ne.symm hlp, hrlen, hrt, Ne.symm hrt, hrn,
              hrp, Ne.symm hrp, hlr, Ne.symm hlr]
          · intro q hq
            injection hq with hq
            subst hq
            refine ⟨fun hcon => absurd hcon hpd, fun _ => ⟨?_, ?_⟩, ?_⟩
            · simp [replace_with, set_child, clear_child, direction_of,
                getN_setColor, getN_setParent', getN_setLeft, getN_setRight,
                length_setColor, length_setParent, length_setLeft,
                length_setRight, hP, hL, hR, ht, hn, htn, hnt, hplen, hpn2,
                hnp, hpt2, htp3, hpd, hpd2, hllen, hlt, Ne.symm hlt, hln,
                Ne.symm hln, hlp, Ne.symm hlp, hrlen, hrt, Ne.symm hrt, hrn,
                hrp, Ne.symm hrp, hlr, Ne.symm hlr]
            · simp [replace_with, set_child, clear_child, direction_of,
                getN_setColor, getN_setParent', getN_setLeft, getN_setRight,
                length_setColor, length_setParent, length_setLeft,
                length_setRight, hP, hL, hR, ht, hn, htn, hnt, hplen, hpn2,
                hnp, hpt2, htp3, hpd, hpd2, hllen, hlt, Ne.symm hlt, hln,
                Ne.symm hln, hlp, Ne.symm hlp, hrlen, hrt, Ne.symm hrt, hrn,
                hrp, Ne.symm hrp, hlr, Ne.symm hlr]
            · simp [replace_with, set_child, clear_child, direction_of,
                getN_setColor, getN_setParent', getN_setLeft, getN_setRight,
                length_setColor, length_setParent, length_setLeft,
                length_setRight, hP, hL, hR, ht, hn, htn, hnt, hplen, hpn2,
                hnp, hpt2, htp3, hpd, hpd2, hllen, hlt, Ne.symm hlt, hln,
                Ne.symm hln, hlp, Ne.symm hlp, hrlen, hrt, Ne.symm hrt, hrn,
                hrp, Ne.symm hrp, hlr, Ne.symm hlr]
          · intro l0 h0 hn0
            injection h0 with h0
            subst h0
            refine ⟨?_, ?_, ?_⟩
            · simp [replace_with, set_child, clear_child, direction_of,
                getN_setColor, getN_setParent', getN_setLeft, getN_setRight,
                length_setColor, length_setParent, length_setLeft,
                length_setRight, hP, hL, hR, ht, hn, htn, hnt, hplen, hpn2,
                hnp, hpt2, htp3, hpd, hpd2, hllen, hlt, Ne.symm hlt, hln,
                Ne.symm hln, hlp, Ne.symm hlp, hrlen, hrt, Ne.symm hrt, hrn,
                hrp, Ne.symm hrp, hlr, Ne.symm hlr]
            · simp [replace_with, set_child, clear_child, direction_of,
                getN_setColor, getN_setParent', getN_setLeft, getN_setRight,
                length_setColor, length_setParent, length_setLeft,
                length_setRight, hP, hL, hR, ht, hn, htn, hnt, hplen, hpn2,
                hnp, hpt2, htp3, hpd, hpd2, hllen, hlt, Ne.symm hlt, hln,
                Ne.symm hln, hlp, Ne.symm hlp, hrlen, hrt, Ne.symm hrt, hrn,
                hrp, Ne.symm hrp, hlr, Ne.symm hlr]
            · simp [replace_with, set_child, clear_child, direction_of,
                getN_setColor, getN_setParent', getN_setLeft, getN_setRight,
                length_setColor, length_setParent, length_setLeft,
                length_setRight, hP, hL, hR, ht, hn, htn, hnt, hplen, hpn2,
                hnp, hpt2, htp3, hpd, hpd2, hllen, hlt, Ne.symm hlt, hln,
                Ne.symm hln, hlp, Ne.symm hlp, hrlen, hrt, Ne.symm hrt, hrn,
                hrp, Ne.symm hrp, hlr, Ne.symm hlr]
          · intro r0 h0 hn0
            injection h0 with h0
            subst h0
            exact absurd hrn hn0
          · simp [replace_with, set_child, clear_child, direction_of,
              getN_setColor, getN_setParent', getN_setLeft, getN_setRight,
              length_setColor, length_setParent, length_setLeft,
              length_setRight, hP, hL, hR, ht, hn, htn, hnt, hplen, hpn2,
              hnp, hpt2, htp3, hpd, hpd2, hllen, hlt, Ne.symm hlt, hln,
              Ne.symm hln, hlp, Ne.symm hlp, hrlen, hrt, Ne.symm hrt, hrn,
              hrp, Ne.symm hrp, hlr, Ne.symm hlr]
          · simp [replace_with, set_child, clear_child, direction_of,
              getN_setColor, getN_setParent', getN_setLeft, getN_setRight,
              length_setColor, length_setParent, length_setLeft,
              length_setRight, hP, hL, hR, ht, hn, htn, hnt, hplen, hpn2,
              hnp, hpt2, htp3, hpd, hpd2, hllen, hlt, Ne.symm hlt, hln,
              Ne.symm hln, hlp, Ne.symm hlp, hrlen, hrt, Ne.symm hrt, hrn,
              hrp, Ne.symm hrp, hlr, Ne.symm hlr]
          · simp [replace_with, set_child, clear_child, direction_of,
              getN_setColor, getN_setParent', getN_setLeft, getN_setRight,
              length_setColor, length_setParent, length_setLeft,
              length_setRight, hP, hL, hR, ht, hn, htn, hnt, hplen, hpn2,
              hnp, hpt2, htp3, hpd, hpd2, hllen, hlt, Ne.symm hlt, hln,
              Ne.symm hln, hlp, Ne.symm hlp, hrlen, hrt, Ne.symm hrt, hrn,
              hrp, Ne.symm hrp, hlr, Ne.symm hlr]
      · -- r ≠ n
        rcases hpdir with hpd | hpd2
        · have hpd2 : (getN h p).right ≠ some t :=
            fun hc => hpboth ⟨hpd, hc⟩
          refine ⟨?_, ?_, ?_, ?_, ?_, ?_, ?_, ?_, ?_, ?_⟩
          · simp [replace_with, set_child, clear_child, direction_of,
              getN_setColor, getN_setParent', getN_setLeft, getN_setRight,
              length_setColor, length_setParent, length_setLeft,
              length_setRight, hP, hL, hR, ht, hn, htn, hnt, hplen, hpn2,
              hnp, hpt2, htp3, hpd, hpd2, hllen, hlt, Ne.symm hlt, hln,
              Ne.symm hln, hlp, Ne.symm hlp, hrlen, hrt, Ne.symm hrt, hrn,
              Ne.symm hrn, hrp, Ne.symm hrp, hlr, Ne.symm hlr]
          · simp [replace_with, set_child, clear_child, direction_of,
              getN_setColor, getN_setParent', getN_setLeft, getN_setRight,
              length_setColor, length_setParent, length_setLeft,
              length_setRight, hP, hL, hR, ht, hn, htn, hnt, hplen, hpn2,
              hnp, hpt2, htp3, hpd, hpd2, hllen, hlt, Ne.symm hlt, hln,
              Ne.symm hln, hlp, Ne.symm hlp, hrlen, hrt, Ne.symm hrt, hrn,
              Ne.symm hrn, hrp, Ne.symm hrp, hlr, Ne.symm hlr]
          · simp [replace_with, set_child, clear_child, direction_of,
              getN_setColor, getN_setParent', getN_setLeft, getN_setRight,
              length_setColor, length_setParent, length_setLeft,
              length_setRight, hP, hL, hR, ht, hn, htn, hnt, hplen, hpn2,
              hnp, hpt2, htp3, hpd, hpd2, hllen, hlt, Ne.symm hlt, hln,
              Ne.symm hln, hlp, Ne.symm hlp, hrlen, hrt, Ne.symm hrt, hrn,
              Ne.symm hrn, hrp, Ne.symm hrp, hlr, Ne.symm hlr]
          · simp [replace_with, set_child, clear_child, direction_of,
              getN_setColor, getN_setParent', getN_setLeft, getN_setRight,
              length_setColor, length_setParent, length_setLeft,
              length_setRight, hP, hL, hR, ht, hn, htn, hnt, hplen, hpn2,
              hnp, hpt2, htp3, hpd, hpd2, hllen, hlt, Ne.symm hlt, hln,
              Ne.symm hln, hlp, Ne.symm hlp, hrlen, hrt, Ne.symm hrt, hrn,
              Ne.symm hrn, hrp, Ne.symm hrp, hlr, Ne.symm hlr]
          · intro q hq
            injection hq with hq
            subst hq
            refine ⟨fun _ => ⟨?_, ?_⟩, fun hcon => absurd hpd hcon, ?_⟩
            · simp [replace_with, set_child, clear_child, direction_of,
                getN_setColor, getN_setParent', getN_setLeft, getN_setRight,
                length_setColor, length_setParent, length_setLeft,
                length_setRight, hP, hL, hR, ht, hn, htn, hnt, hplen, hpn2,
                hnp, hpt2, htp3, hpd, hpd2, hllen, hlt, Ne.symm hlt, hln,
                Ne.symm hln, hlp, Ne.symm hlp, hrlen, hrt, Ne.symm hrt, hrn,
                Ne.symm hrn, hrp, Ne.symm hrp, hlr, Ne.symm hlr]
            · simp [replace_with, set_child, clear_child, direction_of,
                getN_setColor, getN_setParent', getN_setLeft, getN_setRight,
                length_setColor, length_setParent, length_setLeft,
                length_setRight, hP, hL, hR, ht, hn, htn, hnt, hplen, hpn2,
                hnp, hpt2, htp3, hpd, hpd2, hllen, hlt, Ne.symm hlt, hln,
                Ne.symm hln, hlp, Ne.symm hlp, hrlen, hrt, Ne.symm hrt, hrn,
                Ne.symm hrn, hrp, Ne.symm hrp, hlr, Ne.symm hlr]
            · simp [replace_with, set_child, clear_child, direction_of,
                getN_setColor, getN_setParent', getN_setLeft, getN_setRight,
                length_setColor, length_setParent, length_setLeft,
                length_setRight, hP, hL, hR, ht, hn, htn, hnt, hplen, hpn2,
                hnp, hpt2, htp3, hpd, hpd2, hllen, hlt, Ne.symm hlt, hln,
                Ne.symm hln, hlp, Ne.symm hlp, hrlen, hrt, Ne.symm hrt, hrn,
                Ne.symm hrn, hrp, Ne.symm hrp, hlr, Ne.symm hlr]
          · intro l0 h0 hn0
            injection h0 with h0
            subst h0
            refine ⟨?_, ?_, ?_⟩
            · simp [replace_with, set_child, clear_child, direction_of,
                getN_setColor, getN_setParent', getN_setLeft, getN_setRight,
                length_setColor, length_setParent, length_setLeft,
                length_setRight, hP, hL, hR, ht, hn, htn, hnt, hplen, hpn2,
                hnp, hpt2, htp3, hpd, hpd2, hllen, hlt, Ne.symm hlt, hln,
                Ne.symm hln, hlp, Ne.symm hlp, hrlen, hrt, Ne.symm hrt, hrn,
                Ne.symm hrn, hrp, Ne.symm hrp, hlr, Ne.symm hlr]
            · simp [replace_with, set_child, clear_child, direction_of,
                getN_setColor, getN_setParent', getN_setLeft, getN_setRight,
                length_setColor, length_setParent, length_setLeft,
                length_setRight, hP, hL, hR, ht, hn, htn, hnt, hplen, hpn2,
                hnp, hpt2, htp3, hpd, hpd2, hllen, hlt, Ne.symm hlt, hln,
                Ne.symm hln, hlp, Ne.symm hlp, hrlen, hrt, Ne.symm hrt, hrn,
                Ne.symm hrn, hrp, Ne.symm hrp, hlr, Ne.symm hlr]
            · simp [replace_with, set_child, clear_child, direction_of,
                getN_setColor, getN_setParent', getN_setLeft, getN_setRight,
                length_setColor, length_setParent, length_setLeft,
                length_setRight, hP, hL, hR, ht, hn, htn, hnt, hplen, hpn2,
                hnp, hpt2, htp3, hpd, hpd2, hllen, hlt, Ne.symm hlt, hln,
                Ne.symm hln, hlp, Ne.symm hlp, hrlen, hrt, Ne.symm hrt, hrn,
                Ne.symm hrn, hrp, Ne.symm hrp, hlr, Ne.symm hlr]
          · intro r0 h0 hn0
            injection h0 with h0
            subst h0
            refine ⟨?_, ?_, ?_⟩
            · simp [replace_with, set_child, clear_child, direction_of,
                getN_setColor, getN_setParent', getN_setLeft, getN_setRight,
                length_setColor, length_setParent, length_setLeft,
                length_setRight, hP, hL, hR, ht, hn, htn, hnt, hplen, hpn2,
                hnp, hpt2, htp3, hpd, hpd2, hllen, hlt, Ne.symm hlt, hln,
                Ne.symm hln, hlp, Ne.symm hlp, hrlen, hrt, Ne.symm hrt, hrn,
                Ne.symm hrn, hrp, Ne.symm hrp, hlr, Ne.symm hlr]
            · simp [replace_with, set_child, clear_child, direction_of,
                getN_setColor, getN_setParent', getN_setLeft, getN_setRight,
                length_setColor, length_setParent, length_setLeft,
                length_setRight, hP, hL, hR, ht, hn, htn, hnt, hplen, hpn2,
                hnp, hpt2, htp3, hpd, hpd2, hllen, hlt, Ne.symm hlt, hln,
                Ne.symm hln, hlp, Ne.symm hlp, hrlen, hrt, Ne.symm hrt, hrn,
                Ne.symm hrn, hrp, Ne.symm hrp, hlr, Ne.symm hlr]
            · simp [replace_with, set_child, clear_child, direction_of,
                getN_setColor, getN_setParent', getN_setLeft, getN_setRight,
                length_setColor, length_setParent, length_setLeft,
                length_setRight, hP, hL, hR, ht, hn, htn, hnt, hplen, hpn2,
                hnp, hpt2, htp3, hpd, hpd2, hllen, hlt, Ne.symm hlt, hln,
                Ne.symm hln, hlp, Ne.symm hlp, hrlen, hrt, Ne.symm hrt, hrn,
                Ne.symm hrn, hrp, Ne.symm hrp, hlr, Ne.symm hlr]
          · simp [replace_with, set_child, clear_child, direction_of,
              getN_setColor, getN_setParent', getN_setLeft, getN_setRight,
              length_setColor, length_setParent, length_setLeft,
              length_setRight, hP, hL, hR, ht, hn, htn, hnt, hplen, hpn2,
              hnp, hpt2, htp3, hpd, hpd2, hllen, hlt, Ne.symm hlt, hln,
              Ne.symm hln, hlp, Ne.symm hlp, hrlen, hrt, Ne.symm hrt, hrn,
              Ne.symm hrn, hrp, Ne.symm hrp, hlr, Ne.symm hlr]
          · simp [replace_with, set_child, clear_child, direction_of,
              getN_setColor, getN_setParent', getN_setLeft, getN_setRight,
              length_setColor, length_setParent, length_setLeft,
              length_setRight, hP, hL, hR, ht, hn, htn, hnt, hplen, hpn2,
              hnp, hpt2, htp3, hpd, hpd2, hllen, hlt, Ne.symm hlt, hln,
              Ne.symm hln, hlp, Ne.symm hlp, hrlen, hrt, Ne.symm hrt, hrn,
              Ne.symm hrn, hrp, Ne.symm hrp, hlr, Ne.symm hlr]
          · simp [replace_with, set_child, clear_child, direction_of,
              getN_setColor, getN_setParent', getN_setLeft, getN_setRight,
              length_setColor, length_setParent, length_setLeft,
              length_setRight, hP, hL, hR, ht, hn, htn, hnt, hplen, hpn2,
              hnp, hpt2, htp3, hpd, hpd2, hllen, hlt, Ne.symm hlt, hln,
              Ne.symm hln, hlp, Ne.symm hlp, hrlen, hrt, Ne.symm hrt, hrn,
              Ne.symm hrn, hrp, Ne.symm hrp, hlr, Ne.symm hlr]
        · have hpd : (getN h p).left ≠ some t :=
            fun hc => hpboth ⟨hc, hpd2⟩
          refine ⟨?_, ?_, ?_, ?_, ?_, ?_, ?_, ?_, ?_, ?_⟩
          · simp [replace_with, set_child, clear_child, direction_of,
              getN_setColor, getN_setParent', getN_setLeft, getN_setRight,
              length_setColor, length_setParent, length_setLeft,
              length_setRight, hP, hL, hR, ht, hn, htn, hnt, hplen, hpn2,
              hnp, hpt2, htp3, hpd, hpd2, hllen, hlt, Ne.symm hlt, hln,
              Ne.symm hln, hlp, Ne.symm hlp, hrlen, hrt, Ne.symm hrt, hrn,
              Ne.symm hrn, hrp, Ne.symm hrp, hlr, Ne.symm hlr]
          · simp [replace_with, set_child, clear_child, direction_of,
              getN_setColor, getN_setParent', getN_setLeft, getN_setRight,
              length_setColor, length_setParent, length_setLeft,
              length_setRight, hP, hL, hR, ht, hn, htn, hnt, hplen, hpn2,
              hnp, hpt2, htp3, hpd, hpd2, hllen, hlt, Ne.symm hlt, hln,
              Ne.symm hln, hlp, Ne.symm hlp, hrlen, hrt, Ne.symm hrt, hrn,
              Ne.symm hrn, hrp, Ne.symm hrp, hlr, Ne.symm hlr]
          · simp [replace_with, set_child, clear_child, direction_of,
              getN_setColor, getN_setParent', getN_setLeft, getN_setRight,
              length_setColor, length_setParent, length_setLeft,
              length_setRight, hP, hL, hR, ht, hn, htn, hnt, hplen, hpn2,
              hnp, hpt2, htp3, hpd, hpd2, hllen, hlt, Ne.symm hlt, hln,
              Ne.symm hln, hlp, Ne.symm hlp, hrlen, hrt, Ne.symm hrt, hrn,
              Ne.symm hrn, hrp, Ne.symm hrp, hlr, Ne.symm hlr]
          · simp [replace_with, set_child, clear_child, direction_of,
              getN_setColor, getN_setParent', getN_setLeft, getN_setRight,
              length_setColor, length_setParent, length_setLeft,
              length_setRight, hP, hL, hR, ht, hn, htn, hnt, hplen, hpn2,
              hnp, hpt2, htp3, hpd, hpd2, hllen, hlt, Ne.symm hlt, hln,
              Ne.symm hln, hlp, Ne.symm hlp, hrlen, hrt, Ne.symm hrt, hrn,
              Ne.symm hrn, hrp, Ne.symm hrp, hlr, Ne.symm hlr]
          · intro q hq
            injection hq with hq
            subst hq
            refine ⟨fun hcon => absurd hcon hpd, fun _ => ⟨?_, ?_⟩, ?_⟩
            · simp [replace_with, set_child, clear_child, direction_of,
                getN_setColor, getN_setParent', getN_setLeft, getN_setRight,
                length_setColor, length_setParent, length_setLeft,
                length_setRight, hP, hL, hR, ht, hn, htn, hnt, hplen, hpn2,
                hnp, hpt2, htp3, hpd, hpd2, hllen, hlt, Ne.symm hlt, hln,
                Ne.symm hln, hlp, Ne.symm hlp, hrlen, hrt, Ne.symm hrt, hrn,
                Ne.symm hrn, hrp, Ne.symm hrp, hlr, Ne.symm hlr]
            · simp [replace_with, set_child, clear_child, direction_of,
                getN_setColor, getN_setParent', getN_setLeft, getN_setRight,
                length_setColor, length_setParent, length_setLeft,
                length_setRight, hP, hL, hR, ht, hn, htn, hnt, hplen, hpn2,
                hnp, hpt2, htp3, hpd, hpd2, hllen, hlt, Ne.symm hlt, hln,
                Ne.symm hln, hlp, Ne.symm hlp, hrlen, hrt, Ne.symm hrt, hrn,
                Ne.symm hrn, hrp, Ne.symm hrp, hlr, Ne.symm hlr]
            · simp [replace_with, set_child, clear_child, direction_of,
                getN_setColor, getN_setParent', getN_setLeft, getN_setRight,
                length_setColor, length_setParent, length_setLeft,
                length_setRight, hP, hL, hR, ht, hn, htn, hnt, hplen, hpn2,
                hnp, hpt2, htp3, hpd, hpd2, hllen, hlt, Ne.symm hlt, hln,
                Ne.symm hln, hlp, Ne.symm hlp, hrlen, hrt, Ne.symm hrt, hrn,
                Ne.symm hrn, hrp, Ne.symm hrp, hlr, Ne.symm hlr]
          · intro l0 h0 hn0
            injection h0 with h0
            subst h0
            refine ⟨?_, ?_, ?_⟩
            · simp [replace_with, set_child, clear_child, direction_of,
                getN_setColor, getN_setParent', getN_setLeft, getN_setRight,
                length_setColor, length_setParent, length_setLeft,
                length_setRight, hP, hL, hR, ht, hn, htn, hnt, hplen, hpn2,
                hnp, hpt2, htp3, hpd, hpd2, hllen, hlt, Ne.symm hlt, hln,
                Ne.symm hln, hlp, Ne.symm hlp, hrlen, hrt, Ne.symm hrt, hrn,
                Ne.symm hrn, hrp, Ne.symm hrp, hlr, Ne.symm hlr]
            · simp [replace_with, set_child, clear_child, direction_of,
                getN_setColor, getN_setParent', getN_setLeft, getN_setRight,
                length_setColor, length_setParent, length_setLeft,
                length_setRight, hP, hL, hR, ht, hn, htn, hnt, hplen, hpn2,
                hnp, hpt2, htp3, hpd, hpd2, hllen, hlt, Ne.symm hlt, hln,
                Ne.symm hln, hlp, Ne.symm hlp, hrlen, hrt, Ne.symm hrt, hrn,
                Ne.symm hrn, hrp, Ne.symm hrp, hlr, Ne.symm hlr]
            · simp [replace_with, set_child, clear_child, direction_of,
                getN_setColor, getN_setParent', getN_setLeft, getN_setRight,
                length_setColor, length_setParent, length_setLeft,
                length_setRight, hP, hL, hR, ht, hn, htn, hnt, hplen, hpn2,
                hnp, hpt2, htp3, hpd, hpd2, hllen, hlt, Ne.symm hlt, hln,
                Ne.symm hln, hlp, Ne.symm hlp, hrlen, hrt, Ne.symm hrt, hrn,
                Ne.symm hrn, hrp, Ne.symm hrp, hlr, Ne.symm hlr]
          · intro r0 h0 hn0
            injection h0 with h0
            subst h0
            refine ⟨?_, ?_, ?_⟩
            · simp [replace_with, set_child, clear_child, direction_of,
                getN_setColor, getN_setParent', getN_setLeft, getN_setRight,
                length_setColor, length_setParent, length_setLeft,
                length_setRight, hP, hL, hR, ht, hn, htn, hnt, hplen, hpn2,
                hnp, hpt2, htp3, hpd, hpd2, hllen, hlt, Ne.symm hlt, hln,
                Ne.symm hln, hlp, Ne.symm hlp, hrlen, hrt, Ne.symm hrt, hrn,
                Ne.symm hrn, hrp, Ne.symm hrp, hlr, Ne.symm hlr]
            · simp [replace_with, set_child, clear_child, direction_of,
                getN_setColor, getN_setParent', getN_setLeft, getN_setRight,
                length_setColor, length_setParent, length_setLeft,
                length_setRight, hP, hL, hR, ht, hn, htn, hnt, hplen, hpn2,
                hnp, hpt2, htp3, hpd, hpd2, hllen, hlt, Ne.symm hlt, hln,
                Ne.symm hln, hlp, Ne.symm hlp, hrlen, hrt, Ne.symm hrt, hrn,
                Ne.symm hrn, hrp, Ne.symm hrp, hlr, Ne.symm hlr]
            · simp [replace_with, set_child, clear_child, direction_of,
                getN_setColor, getN_setParent', getN_setLeft, getN_setRight,
                length_setColor, length_setParent, length_setLeft,
                length_setRight, hP, hL, hR, ht, hn, htn, hnt, hplen, hpn2,
                hnp, hpt2, htp3, hpd, hpd2, hllen, hlt, Ne.symm hlt, hln,
                Ne.symm hln, hlp, Ne.symm hlp, hrlen, hrt, Ne.symm hrt, hrn,
                Ne.symm hrn, hrp, Ne.symm hrp, hlr, Ne.symm hlr]
          · simp [replace_with, set_child, clear_child, direction_of,
              getN_setColor, getN_setParent', getN_setLeft, getN_setRight,
              length_setColor, length_setParent, length_setLeft,
              length_setRight, hP, hL, hR, ht, hn, htn, hnt, hplen, hpn2,
              hnp, hpt2, htp3, hpd, hpd2, hllen, hlt, Ne.symm hlt, hln,
              Ne.symm hln, hlp, Ne.symm hlp, hrlen, hrt, Ne.symm hrt, hrn,
              Ne.symm hrn, hrp, Ne.symm hrp, hlr, Ne.symm hlr]
          · simp [replace_with, set_child, clear_child, direction_of,
              getN_setColor, getN_setParent', getN_setLeft, getN_setRight,
              length_setColor, length_setParent, length_setLeft,
              length_setRight, hP, hL, hR, ht, hn, htn, hnt, hplen, hpn2,
              hnp, hpt2, htp3, hpd, hpd2, hllen, hlt, Ne.symm hlt, hln,
              Ne.symm hln, hlp, Ne.symm hlp, hrlen, hrt, Ne.symm hrt, hrn,
              Ne.symm hrn, hrp, Ne.symm hrp, hlr, Ne.symm hlr]
          · simp [replace_with, set_child, clear_child, direction_of,
              getN_setColor, getN_setParent', getN_setLeft, getN_setRight,
              length_setColor, length_setParent, length_setLeft,
              length_setRight, hP, hL, hR, ht, hn, htn, hnt, hplen, hpn2,
              hnp, hpt2, htp3, hpd, hpd2, hllen, hlt, Ne.symm hlt, hln,
              Ne.symm hln, hlp, Ne.symm hlp, hrlen, hrt, Ne.symm hrt, hrn,
              Ne.symm hrn, hrp, Ne.symm hrp, hlr, Ne.symm hlr]

end swoc

namespace swoc

/-- Chain of two nodes: 0 is the parent of t = 1. -/
def hC3 : Heap :=
  ⟨[⟨Color.BLACK, none, some 1, none⟩, ⟨Color.RED, some 0, some 2, none⟩,
    ⟨Color.RED, some 1, none, none⟩], []⟩

/-- Counterexample to C3 as stated: replacing node 1 (child of 0, with
left child 2) by its own child n = 2 leaves node 1 with its stale parent
reference (the claim says t is left with no parent reference), and node 2
does not receive the former left child of node 1 (itself) — the claim
says n receives the former children of t even when n was one of them. -/
theorem C3_counterexample :
    (getN hC3 1).left = some 2 ∧
    (getN (replace_with hC3 1 2) 1).parent = some 0 ∧
    (getN (replace_with hC3 1 2) 1).parent ≠ none ∧
    (getN (replace_with hC3 1 2) 2).left = none := by
  decide

/-- C3 as amended: after t.replace_with(n), in a well-formed surrounding
(hypotheses: distinct in-range nodes, mutually consistent links, t not
its own parent or child, at most one parent slot referencing t): n
carries the former color, parent and children of t (except that when n
itself was one of those children, that slot of n is cleared instead, a
node not being able to become its own child); the link of the former
parent of t is repointed to n and the parent back-references of the
former children of t are repointed to n; the left and right links of t
are cleared, but the parent reference of t is left unchanged (stale)
rather than cleared; and afterwards no other node has any left, right or
parent reference to t. -/
theorem C3_replace_with (h : Heap) (t n : Nat)
    (ht : t < h.mem.length) (hn : n < h.mem.length) (htn : t ≠ n)
    (htp : (getN h t).parent ≠ some t)
    (htl : (getN h t).left ≠ some t)
    (htr : (getN h t).right ≠ some t)
    (hLR : (getN h t).left = none ∨ (getN h t).left ≠ (getN h t).right)
    (hypPar : Option.elim (getN h t).parent True (fun p =>
      p < h.mem.length ∧ p ≠ n ∧ p ≠ t ∧
      ((getN h p).left = some t ∨ (getN h p).right = some t) ∧
      ¬((getN h p).left = some t ∧ (getN h p).right = some t) ∧
      (getN h t).left ≠ some p ∧ (getN h t).right ≠ some p))
    (hypL : Option.elim (getN h t).left True (fun l =>
      l < h.mem.length ∧ (getN h l).parent = some t))
    (hypR : Option.elim (getN h t).right True (fun r =>
      r < h.mem.length ∧ (getN h r).parent = some t))
    (hypGlob : ∀ i, i < h.mem.length → i ≠ t →
      ((getN h i).left = some t → (getN h t).parent = some i) ∧
      ((getN h i).right = some t → (getN h t).parent = some i) ∧
      ((getN h i).parent = some t →
        (getN h t).left = some i ∨ (getN h t).right = some i)) :
    ((getN (replace_with h t n) n).color = (getN h t).color ∧
     (getN (replace_with h t n) n).parent = (getN h t).parent ∧
     (getN (replace_with h t n) n).left =
       (if (getN h t).left = some n then none else (getN h t).left) ∧
     (getN (replace_with h t n) n).right =
       (if (getN h t).right = some n then none else (getN h t).right) ∧
     (∀ p, (getN h t).parent = some p →
       ((getN h p).left = some t →
         (getN (replace_with h t n) p).left = some n ∧
         (getN (replace_with h t n) p).right = (getN h p).right) ∧
       ((getN h p).left ≠ some t →
         (getN (replace_with h t n) p).right = some n ∧
         (getN (replace_with h t n) p).left = (getN h p).left) ∧
       (getN (replace_with h t n) p).parent = (getN h p).parent) ∧
     (∀ l, (getN h t).left = some l → l ≠ n →
       (getN (replace_with h t n) l).parent = some n ∧
       (getN (replace_with h t n) l).left = (getN h l).left ∧
       (getN (replace_with h t n) l).right = (getN h l).right) ∧
     (∀ r, (getN h t).right = some r → r ≠ n →
       (getN (replace_with h t n) r).parent = some n ∧
       (getN (replace_with h t n) r).left = (getN h r).left ∧
       (getN (replace_with h t n) r).right = (getN h r).right) ∧
     ((getN (replace_with h t n) t).left = none ∧
      (getN (replace_with h t n) t).right = none ∧
      (getN (replace_with h t n) t).parent = (getN h t).parent)) ∧
    (∀ i, i < h.mem.length → i ≠ t →
      (getN (replace_with h t n) i).left ≠ some t ∧
      (getN (replace_with h t n) i).right ≠ some t ∧
      (getN (replace_with h t n) i).parent ≠ some t) := by
  obtain ⟨ha, hb, hc1, hc2, hd, he1, he2, hf123⟩ :=
    replace_with_fields h t n ht hn htn htp htl htr hLR hypPar hypL hypR
  refine ⟨⟨ha, hb, hc1, hc2, hd, he1, he2, hf123⟩, ?_⟩
  intro i hi hit
  obtain ⟨hg1, hg2, hg3⟩ := hypGlob i hi hit
  by_cases hin : i = n
  · subst hin
    refine ⟨?_, ?_, ?_⟩
    · rw [hc1]
      split_ifs
      · simp
      · exact htl
    · rw [hc2]
      split_ifs
      · simp
      · exact htr
    · rw [hb]
      exact htp
  · by_cases hip : (getN h t).parent = some i
    · simp only [hip, Option.elim] at hypPar
      obtain ⟨hplen, hpn2, hpt2, hpdir, hpboth, hpl2, hpr2⟩ := hypPar
      obtain ⟨hdl, hdr, hdp⟩ := hd i hip
      refine ⟨?_, ?_, ?_⟩
      · rcases hpdir with hpd | hpd2
        · rw [(hdl hpd).1]
          intro hcon
          injection hcon with hcon
          exact htn hcon.symm
        · have hpdneg : (getN h i).left ≠ some t :=
            fun hc => hpboth ⟨hc, hpd2⟩
          rw [(hdr hpdneg).2]
          exact hpdneg
      · rcases hpdir with hpd | hpd2
        · have hrne : (getN h i).right ≠ some t :=
            fun hc => hpboth ⟨hpd, hc⟩
          rw [(hdl hpd).2]
          exact hrne
        · by_cases hpdL : (getN h i).left = some t
          · exact (hpboth ⟨hpdL, hpd2⟩).elim
          · rw [(hdr hpdL).1]
            intro hcon
            injection hcon with hcon
            exact htn hcon.symm
      · rw [hdp]
        intro hcon
        rcases hg3 hcon with hh | hh
        · exact hpl2 hh
        · exact hpr2 hh
    · by_cases hil : (getN h t).left = some i
      · obtain ⟨hep, hel, her⟩ := he1 i hil hin
        refine ⟨?_, ?_, ?_⟩
        · rw [hel]
          intro hcon
          exact hip (hg1 hcon)
        · rw [her]
          intro hcon
          exact hip (hg2 hcon)
        · rw [hep]
          intro hcon
          injection hcon with hcon
          exact htn hcon.symm
      · by_cases hir : (getN h t).right = some i
        · obtain ⟨hep, hel, her⟩ := he2 i hir hin
          refine ⟨?_, ?_, ?_⟩
          · rw [hel]
            intro hcon
            exact hip (hg1 hcon)
          · rw [her]
            intro hcon
            exact hip (hg2 hcon)
          · rw [hep]
            intro hcon
            injection hcon with hcon
            exact htn hcon.symm
        · rw [replace_with_frame h t n i ht hn htn hit hin htp htl htr
            hip hil hir]
          refine ⟨fun hcon => hip (hg1 hcon), fun hcon => hip (hg2 hcon),
            fun hcon => ?_⟩
          rcases hg3 hcon with hh | hh
          · exact hil hh
          · exact hir hh

end swoc

namespace swoc

/-- Well-formed 5-node heap: 0 is the BLACK root with left child 1; node 1
is RED with children 2 and 3; node 4 is a detached spare node. -/
def hC3w : Heap :=
  ⟨[⟨Color.BLACK, none, some 1, none⟩,
    ⟨Color.RED, some 0, some 2, some 3⟩,
    ⟨Color.RED, some 1, none, none⟩,
    ⟨Color.RED, some 1, none, none⟩,
    ⟨Color.BLACK, none, none, none⟩], []⟩

/-- Witness for the amended C3 at a concrete heap: replacing node 1 by
the spare node 4 transfers color and parent, and node 1 keeps its stale
parent reference. -/
theorem C3_replace_with_witness :
    ((1:Nat) < hC3w.mem.length ∧ (1:Nat) ≠ 4 ∧
      (getN hC3w 1).parent ≠ some 1) ∧
    (getN (replace_with hC3w 1 4) 4).color = (getN hC3w 1).color ∧
    (getN (replace_with hC3w 1 4) 4).parent = some 0 ∧
    (getN (replace_with hC3w 1 4) 1).parent = (getN hC3w 1).parent := by
  have happ := C3_replace_with hC3w 1 4 (by decide) (by decide) (by decide)
    (by decide) (by decide) (by decide) (Or.inr (by decide))
    (show (0:Nat) < hC3w.mem.length ∧ (0:Nat) ≠ 4 ∧ (0:Nat) ≠ 1 ∧
        ((getN hC3w 0).left = some 1 ∨ (getN hC3w 0).right = some 1) ∧
        ¬((getN hC3w 0).left = some 1 ∧ (getN hC3w 0).right = some 1) ∧
        (getN hC3w 1).left ≠ some 0 ∧ (getN hC3w 1).right ≠ some 0
      from by decide)
    (show (2:Nat) < hC3w.mem.length ∧ (getN hC3w 2).parent = some 1
      from by decide)
    (show (3:Nat) < hC3w.mem.length ∧ (getN hC3w 3).parent = some 1
      from by decide)
    (by decide)
  exact ⟨⟨by decide, by decide, by decide⟩, happ.1.1,
    happ.1.2.1.trans (by decide), happ.1.2.2.2.2.2.2.2.2.2⟩

end swoc

namespace swoc

theorem length_set_child (h : Heap) (p : Nat) (c : Option Nat)
    (d : Direction) : (set_child h p c d).mem.length = h.mem.length := by
  cases c <;> cases d <;>
    simp [set_child, setLeft, setRight, setParent, length_setN]

theorem length_clear_child (h : Heap) (p : Nat) (d : Direction) :
    (clear_child h p d).mem.length = h.mem.length := by
  cases d <;> simp [clear_child, setLeft, setRight, length_setN]

theorem length_rotateRelink (h : Heap) (t c : Nat) (dir od : Direction) :
    (rotateRelink h t c dir od).mem.length = h.mem.length := by
  simp [rotateRelink, length_set_child, length_clear_child]

theorem length_rotate (h : Heap) (t : Nat) (d : Direction) :
    (rotate h t d).1.mem.length = h.mem.length := by
  rw [rotate]
  split
  · rfl
  · split
    · rfl
    · split
      · simp [length_set_child, length_clear_child, mem_structure_fixup,
          length_rotateRelink]
      · simp [setParent, length_setN, mem_structure_fixup,
          length_rotateRelink]

theorem mem_eq_of_getN (h1 h2 : Heap)
    (hlen : h1.mem.length = h2.mem.length)
    (hget : ∀ i, getN h1 i = getN h2 i) : h1.mem = h2.mem := by
  apply List.ext_getElem hlen
  intro i hi1 hi2
  have hx := hget i
  rw [getN, getN, List.getD_eq_getElem _ _ hi1,
    List.getD_eq_getElem _ _ hi2] at hx
  exact hx

end swoc

namespace swoc

theorem rotate_eq_root (h : Heap) (t c : Nat) (dir : Direction)
    (hdir : dir ≠ Direction.NONE)
    (hc : child_at h t (flip dir) = some c)
    (hp : (getN h t).parent = none) :
    rotate h t dir =
      (setParent (structure_fixup (structure_fixup
        (rotateRelink h t c dir (flip dir)) c) t) c none, c) := by
  simp only [rotate, hp, hc, if_neg hdir]

theorem rotate_eq_parent (h : Heap) (t c p : Nat) (dir : Direction)
    (hdir : dir ≠ Direction.NONE)
    (hc : child_at h t (flip dir) = some c)
    (hp : (getN h t).parent = some p) :
    rotate h t dir =
      (set_child (clear_child (structure_fixup (structure_fixup
          (rotateRelink h t c dir (flip dir)) c) t)
          p (direction_of h p (some t)))
        p (some c) (direction_of h p (some t)), c) := by
  simp only [rotate, hp, hc, if_neg hdir]

end swoc

namespace swoc

set_option maxHeartbeats 4000000

theorem node_ext (a b : RBNode) (h1 : a.color = b.color)
    (h2 : a.parent = b.parent) (h3 : a.left = b.left)
    (h4 : a.right = b.right) : a = b := by
  cases a
  cases b
  simp only at h1 h2 h3 h4
  rw [h1, h2, h3, h4]

/-- C8: rotating a node toward dir and immediately rotating the returned
local root toward the opposite direction restores the whole node store —
every parent, left and right link (hence the original subtree shape and
in-order sequence) and even every color — and returns the original
target.  The hypotheses say the rotation is applicable and the
surrounding links are those of a well-formed tree. -/
theorem C8_double_rotate (h : Heap) (t c : Nat) (dir : Direction)
    (hdir : dir ≠ Direction.NONE)
    (ht : t < h.mem.length) (hcl : c < h.mem.length) (htc : t ≠ c)
    (hcc : child_at h t (flip dir) = some c)
    (hcp : (getN h c).parent = some t)
    (hypG : Option.elim (child_at h c dir) True (fun g =>
      g < h.mem.length ∧ (getN h g).parent = some c ∧ g ≠ t ∧ g ≠ c))
    (hypP : Option.elim (getN h t).parent True (fun p =>
      p < h.mem.length ∧ p ≠ t ∧ p ≠ c ∧
      (∀ g0, child_at h c dir = some g0 → p ≠ g0) ∧
      ((getN h p).left = some t ∨ (getN h p).right = some t) ∧
      ¬((getN h p).left = some t ∧ (getN h p).right = some t) ∧
      (getN h p).left ≠ some c ∧ (getN h p).right ≠ some c)) :
    (rotate (rotate h t dir).1 (rotate h t dir).2 (flip dir)).1.mem =
      h.mem ∧
    (rotate (rotate h t dir).1 (rotate h t dir).2 (flip dir)).2 = t := by
  suffices hkey :
      (∀ i, getN (rotate (rotate h t dir).1 (rotate h t dir).2
        (flip dir)).1 i = getN h i) ∧
      (rotate (rotate h t dir).1 (rotate h t dir).2 (flip dir)).2 = t by
    refine ⟨mem_eq_of_getN _ _ ?_ hkey.1, hkey.2⟩
    rw [length_rotate, length_rotate]
  cases dir
  case NONE => exact absurd rfl hdir
  case LEFT =>
    simp only [flip]
    have htRc : (getN h t).right = some c := by simpa [child_at, flip] using hcc
    rcases hG : (getN h c).left with _ | g
    all_goals rw [show child_at h c Direction.LEFT = (getN h c).left from rfl, hG]
      at hypG hypP
    all_goals simp only [Option.elim] at hypG
    · -- g none
      rcases hP : (getN h t).parent with _ | p
      · -- no parent
        set A := rotateRelink h t c Direction.LEFT Direction.RIGHT with hA
        set B := setParent (structure_fixup (structure_fixup A c) t) c none
          with hB
        have hr1 : rotate h t Direction.LEFT = (B, c) := by
          rw [rotate_eq_root h t c Direction.LEFT (by decide) hcc hP]
          try rfl
        have hBcl : child_at B c Direction.LEFT = some t := by
          rw [hB, hA]
          simp [rotateRelink, set_child, clear_child, child_at, flip,
            getN_setColor, getN_setParent', getN_setLeft, getN_setRight,
            getN_structure_fixup, mem_structure_fixup, length_setColor,
            length_setParent, length_setLeft, length_setRight, ht, hcl, htc,
            Ne.symm htc, htRc, hcp, hG]
        have hBcp : (getN B c).parent = none := by
          rw [hB, hA]
          simp [rotateRelink, set_child, clear_child, child_at, flip,
            getN_setColor, getN_setParent', getN_setLeft, getN_setRight,
            getN_structure_fixup, mem_structure_fixup, length_setColor,
            length_setParent, length_setLeft, length_setRight, ht, hcl, htc,
            Ne.symm htc, htRc, hcp, hG]
        rw [hr1]
        simp only []
        rw [rotate_eq_root B c t Direction.RIGHT (by decide)
          (show child_at B c (flip Direction.RIGHT) = some t from hBcl) hBcp]
        refine ⟨?_, rfl⟩
        intro i
        by_cases hit : i = t
        · subst hit
          rw [hB, hA]
          simp [rotateRelink, set_child, clear_child, child_at, flip,
            getN_setColor, getN_setParent', getN_setLeft, getN_setRight,
            getN_structure_fixup, mem_structure_fixup, length_setColor,
            length_setParent, length_setLeft, length_setRight, ht, hcl, htc,
            Ne.symm htc, htRc, hcp, hG]
          try (apply node_ext <;> simp [hP, htRc])
        · by_cases hic : i = c
          · subst hic
            rw [hB, hA]
            simp [rotateRelink, set_child, clear_child, child_at, flip,
              getN_setColor, getN_setParent', getN_setLeft, getN_setRight,
              getN_structure_fixup, mem_structure_fixup, length_setColor,
              length_setParent, length_setLeft, length_setRight, ht, hcl,
              htc, Ne.symm htc, htRc, hcp, hG]
            try (apply node_ext <;> simp [hcp, hG])
          · rw [hB, hA]
            simp [rotateRelink, set_child, clear_child, child_at, flip,
              getN_setColor, getN_setParent', getN_setLeft, getN_setRight,
              getN_structure_fixup, mem_structure_fixup, length_setColor,
              length_setParent, length_setLeft, length_setRight, ht, hcl,
              htc, Ne.symm htc, htRc, hcp, hG, hit, hic]
      · -- parent p
        rw [hP] at hypP
        simp only [Option.elim] at hypP
        obtain ⟨hp, hpt, hpc, hpgf, hpdir, hpboth, hplc, hprc⟩ := hypP
        rcases hpdir with hplt | hprt
        · have hprtN : (getN h p).right ≠ some t :=
            fun hx => hpboth ⟨hplt, hx⟩
          have hcd : direction_of h p (some t) = Direction.LEFT := by
            simp [direction_of, hplt]
          set A := rotateRelink h t c Direction.LEFT Direction.RIGHT with hA
          set B := set_child (clear_child (structure_fixup (structure_fixup
              A c) t) p Direction.LEFT) p (some c) Direction.LEFT with hB
          have hr1 : rotate h t Direction.LEFT = (B, c) := by
            rw [rotate_eq_parent h t c p Direction.LEFT (by decide) hcc hP, hcd]
            try rfl
          have hBcl : child_at B c Direction.LEFT = some t := by
            rw [hB, hA]
            simp [rotateRelink, set_child, clear_child, child_at, flip,
              getN_setColor, getN_setParent', getN_setLeft, getN_setRight,
              getN_structure_fixup, mem_structure_fixup, length_setColor,
              length_setParent, length_setLeft, length_setRight, ht, hcl,
              htc, Ne.symm htc, htRc, hcp, hG, hP, hp, hpt, Ne.symm hpt, hpc,
              Ne.symm hpc, hplc, hprc, hplt, hprtN]
          have hBcp : (getN B c).parent = some p := by
            rw [hB, hA]
            simp [rotateRelink, set_child, clear_child, child_at, flip,
              getN_setColor, getN_setParent', getN_setLeft, getN_setRight,
              getN_structure_fixup, mem_structure_fixup, length_setColor,
              length_setParent, length_setLeft, length_setRight, ht, hcl,
              htc, Ne.symm htc, htRc, hcp, hG, hP, hp, hpt, Ne.symm hpt, hpc,
              Ne.symm hpc, hplc, hprc, hplt, hprtN]
          have hcd2 : direction_of B p (some c) = Direction.LEFT := by
            rw [hB, hA]
            simp [rotateRelink, set_child, clear_child, child_at, flip,
              getN_setColor, getN_setParent', getN_setLeft, getN_setRight,
              getN_structure_fixup, mem_structure_fixup, length_setColor,
              length_setParent, length_setLeft, length_setRight,
              direction_of, ht, hcl, htc, Ne.symm htc, htRc, hcp, hG, hP, hp,
              hpt, Ne.symm hpt, hpc, Ne.symm hpc, hplc, hprc, hplt, hprtN]
          rw [hr1]
          simp only []
          rw [rotate_eq_parent B c t p Direction.RIGHT (by decide)
            (show child_at B c (flip Direction.RIGHT) = some t from hBcl) hBcp, hcd2]
          refine ⟨?_, rfl⟩
          intro i
          by_cases hit : i = t
          · subst hit
            rw [hB, hA]
            simp [rotateRelink, set_child, clear_child, child_at, flip,
              getN_setColor, getN_setParent', getN_setLeft, getN_setRight,
              getN_structure_fixup, mem_structure_fixup, length_setColor,
              length_setParent, length_setLeft, length_setRight, ht, hcl,
              htc, Ne.symm htc, htRc, hcp, hG, hP, hp, hpt, Ne.symm hpt, hpc,
              Ne.symm hpc, hplc, hprc, hplt, hprtN]
            try (apply node_ext <;> simp [hP, htRc])
          · by_cases hic : i = c
            · subst hic
              rw [hB, hA]
              simp [rotateRelink, set_child, clear_child, child_at, flip,
                getN_setColor, getN_setParent', getN_setLeft, getN_setRight,
                getN_structure_fixup, mem_structure_fixup, length_setColor,
                length_setParent, length_setLeft, length_setRight, ht, hcl,
                htc, Ne.symm htc, htRc, hcp, hG, hP, hp, hpt, Ne.symm hpt,
                hpc, Ne.symm hpc, hplc, hprc, hplt, hprtN]
              try (apply node_ext <;> simp [hcp, hG])
            · by_cases hip : i = p
              · subst hip
                rw [hB, hA]
                simp [rotateRelink, set_child, clear_child, child_at, flip,
                  getN_setColor, getN_setParent', getN_setLeft,
                  getN_setRight, getN_structure_fixup, mem_structure_fixup,
                  length_setColor, length_setParent, length_setLeft,
                  length_setRight, ht, hcl, htc, Ne.symm htc, htRc, hcp, hG,
                  hP, hp, hpt, Ne.symm hpt, hpc, Ne.symm hpc, hplc, hprc,
                  hplt, hprtN, hit, hic]
                try (apply node_ext <;> simp [hplt])
              · rw [hB, hA]
                simp [rotateRelink, set_child, clear_child, child_at, flip,
                  getN_setColor, getN_setParent', getN_setLeft,
                  getN_setRight, getN_structure_fixup, mem_structure_fixup,
                  length_setColor, length_setParent, length_setLeft,
                  length_setRight, ht, hcl, htc, Ne.symm htc, htRc, hcp, hG,
                  hP, hp, hpt, Ne.symm hpt, hpc, Ne.symm hpc, hplc, hprc,
                  hplt, hprtN, hit, hic, hip]
        · have hpltN : (getN h p).left ≠ some t :=
            fun hx => hpboth ⟨hx, hprt⟩
          have hcd : direction_of h p (some t) = Direction.RIGHT := by
            simp [direction_of, hpltN, hprt]
          set A := rotateRelink h t c Direction.LEFT Direction.RIGHT with hA
          set B := set_child (clear_child (structure_fixup (structure_fixup
              A c) t) p Direction.RIGHT) p (some c) Direction.RIGHT with hB
          have hr1 : rotate h t Direction.LEFT = (B, c) := by
            rw [rotate_eq_parent h t c p Direction.LEFT (by decide) hcc hP, hcd]
            try rfl
          have hBcl : child_at B c Direction.LEFT = some t := by
            rw [hB, hA]
            simp [rotateRelink, set_child, clear_child, child_at, flip,
              getN_setColor, getN_setParent', getN_setLeft, getN_setRight,
              getN_structure_fixup, mem_structure_fixup, length_setColor,
              length_setParent, length_setLeft, length_setRight, ht, hcl,
              htc, Ne.symm htc, htRc, hcp, hG, hP, hp, hpt, Ne.symm hpt, hpc,
              Ne.symm hpc, hplc, hprc, hprt, hpltN]
          have hBcp : (getN B c).parent = some p := by
            rw [hB, hA]
            simp [rotateRelink, set_child, clear_child, child_at, flip,
              getN_setColor, getN_setParent', getN_setLeft, getN_setRight,
              getN_structure_fixup, mem_structure_fixup, length_setColor,
              length_setParent, length_setLeft, length_setRight, ht, hcl,
              htc, Ne.symm htc, htRc, hcp, hG, hP, hp, hpt, Ne.symm hpt, hpc,
              Ne.symm hpc, hplc, hprc, hprt, hpltN]
          have hcd2 : direction_of B p (some c) = Direction.RIGHT := by
            rw [hB, hA]
            simp [rotateRelink, set_child, clear_child, child_at, flip,
              getN_setColor, getN_setParent', getN_setLeft, getN_setRight,
              getN_structure_fixup, mem_structure_fixup, length_setColor,
              length_setParent, length_setLeft, length_setRight,
              direction_of, ht, hcl, htc, Ne.symm htc, htRc, hcp, hG, hP, hp,
              hpt, Ne.symm hpt, hpc, Ne.symm hpc, hplc, hprc, hprt, hpltN]
          rw [hr1]
          simp only []
          rw [rotate_eq_parent B c t p Direction.RIGHT (by decide)
            (show child_at B c (flip Direction.RIGHT) = some t from hBcl) hBcp, hcd2]
          refine ⟨?_, rfl⟩
          intro i
          by_cases hit : i = t
          · subst hit
            rw [hB, hA]
            simp [rotateRelink, set_child, clear_child, child_at, flip,
              getN_setColor, getN_setParent', getN_setLeft, getN_setRight,
              getN_structure_fixup, mem_structure_fixup, length_setColor,
              length_setParent, length_setLeft, length_setRight, ht, hcl,
              htc, Ne.symm htc, htRc, hcp, hG, hP, hp, hpt, Ne.symm hpt, hpc,
              Ne.symm hpc, hplc, hprc, hprt, hpltN]
            try (apply node_ext <;> simp [hP, htRc])
          · by_cases hic : i = c
            · subst hic
              rw [hB, hA]
              simp [rotateRelink, set_child, clear_child, child_at, flip,
                getN_setColor, getN_setParent', getN_setLeft, getN_setRight,
                getN_structure_fixup, mem_structure_fixup, length_setColor,
                length_setParent, length_setLeft, length_setRight, ht, hcl,
                htc, Ne.symm htc, htRc, hcp, hG, hP, hp, hpt, Ne.symm hpt,
                hpc, Ne.symm hpc, hplc, hprc, hprt, hpltN]
              try (apply node_ext <;> simp [hcp, hG])
            · by_cases hip : i = p
              · subst hip
                rw [hB, hA]
                simp [rotateRelink, set_child, clear_child, child_at, flip,
                  getN_setColor, getN_setParent', getN_setLeft,
                  getN_setRight, getN_structure_fixup, mem_structure_fixup,
                  length_setColor, length_setParent, length_setLeft,
                  length_setRight, ht, hcl, htc, Ne.symm htc, htRc, hcp, hG,
                  hP, hp, hpt, Ne.symm hpt, hpc, Ne.symm hpc, hplc, hprc,
                  hprt, hpltN, hit, hic]
                try (apply node_ext <;> simp [hprt])
              · rw [hB, hA]
                simp [rotateRelink, set_child, clear_child, child_at, flip,
                  getN_setColor, getN_setParent', getN_setLeft,
                  getN_setRight, getN_structure_fixup, mem_structure_fixup,
                  length_setColor, length_setParent, length_setLeft,
                  length_setRight, ht, hcl, htc, Ne.symm htc, htRc, hcp, hG,
                  hP, hp, hpt, Ne.symm hpt, hpc, Ne.symm hpc, hplc, hprc,
                  hprt, hpltN, hit, hic, hip]
    · -- g some
      obtain ⟨hg, hgp, hgt, hgc⟩ := hypG
      rcases hP : (getN h t).parent with _ | p
      · -- no parent
        set A := rotateRelink h t c Direction.LEFT Direction.RIGHT with hA
        set B := setParent (structure_fixup (structure_fixup A c) t) c none
          with hB
        have hr1 : rotate h t Direction.LEFT = (B, c) := by
          rw [rotate_eq_root h t c Direction.LEFT (by decide) hcc hP]
          try rfl
        have hBcl : child_at B c Direction.LEFT = some t := by
          rw [hB, hA]
          simp [rotateRelink, set_child, clear_child, child_at, flip,
            getN_setColor, getN_setParent', getN_setLeft, getN_setRight,
            getN_structure_fixup, mem_structure_fixup, length_setColor,
            length_setParent, length_setLeft, length_setRight, ht, hcl, htc,
            Ne.symm htc, htRc, hcp, hG, hg, hgp, hgt, Ne.symm hgt, hgc,
            Ne.symm hgc]
        have hBcp : (getN B c).parent = none := by
          rw [hB, hA]
          simp [rotateRelink, set_child, clear_child, child_at, flip,
            getN_setColor, getN_setParent', getN_setLeft, getN_setRight,
            getN_structure_fixup, mem_structure_fixup, length_setColor,
            length_setParent, length_setLeft, length_setRight, ht, hcl, htc,
            Ne.symm htc, htRc, hcp, hG, hg, hgp, hgt, Ne.symm hgt, hgc,
            Ne.symm hgc]
        rw [hr1]
        simp only []
        rw [rotate_eq_root B c t Direction.RIGHT (by decide)
          (show child_at B c (flip Direction.RIGHT) = some t from hBcl) hBcp]
        refine ⟨?_, rfl⟩
        intro i
        by_cases hit : i = t
        · subst hit
          rw [hB, hA]
          simp [rotateRelink, set_child, clear_child, child_at, flip,
            getN_setColor, getN_setParent', getN_setLeft, getN_setRight,
            getN_structure_fixup, mem_structure_fixup, length_setColor,
            length_setParent, length_setLeft, length_setRight, ht, hcl, htc,
            Ne.symm htc, htRc, hcp, hG, hg, hgp, hgt, Ne.symm hgt, hgc,
            Ne.symm hgc]
          try (apply node_ext <;> simp [hP, htRc])
        · by_cases hic : i = c
          · subst hic
            rw [hB, hA]
            simp [rotateRelink, set_child, clear_child, child_at, flip,
              getN_setColor, getN_setParent', getN_setLeft, getN_setRight,
              getN_structure_fixup, mem_structure_fixup, length_setColor,
              length_setParent, length_setLeft, length_setRight, ht, hcl,
              htc, Ne.symm htc, htRc, hcp, hG, hg, hgp, hgt, Ne.symm hgt,
              hgc, Ne.symm hgc]
            try (apply node_ext <;> simp [hcp, hG])
          · by_cases hig : i = g
            · subst hig
              rw [hB, hA]
              simp [rotateRelink, set_child, clear_child, child_at, flip,
                getN_setColor, getN_setParent', getN_setLeft, getN_setRight,
                getN_structure_fixup, mem_structure_fixup, length_setColor,
                length_setParent, length_setLeft, length_setRight, ht, hcl,
                htc, Ne.symm htc, htRc, hcp, hG, hg, hgp, hgt, Ne.symm hgt,
                hgc, Ne.symm hgc]
              try (apply node_ext <;> simp [hgp])
            · rw [hB, hA]
              simp [rotateRelink, set_child, clear_child, child_at, flip,
                getN_setColor, getN_setParent', getN_setLeft, getN_setRight,
                getN_structure_fixup, mem_structure_fixup, length_setColor,
                length_setParent, length_setLeft, length_setRight, ht, hcl,
                htc, Ne.symm htc, htRc, hcp, hG, hg, hgp, hgt, Ne.symm hgt,
                hgc, Ne.symm hgc, hit, hic, hig]
      · -- parent p
        rw [hP] at hypP
        simp only [Option.elim] at hypP
        obtain ⟨hp, hpt, hpc, hpgf, hpdir, hpboth, hplc, hprc⟩ := hypP
        have hpg : p ≠ g := hpgf g rfl
        rcases hpdir with hplt | hprt
        · have hprtN : (getN h p).right ≠ some t :=
            fun hx => hpboth ⟨hplt, hx⟩
          have hcd : direction_of h p (some t) = Direction.LEFT := by
            simp [direction_of, hplt]
          set A := rotateRelink h t c Direction.LEFT Direction.RIGHT with hA
          set B := set_child (clear_child (structure_fixup (structure_fixup
              A c) t) p Direction.LEFT) p (some c) Direction.LEFT with hB
          have hr1 : rotate h t Direction.LEFT = (B, c) := by
            rw [rotate_eq_parent h t c p Direction.LEFT (by decide) hcc hP, hcd]
            try rfl
          have hBcl : child_at B c Direction.LEFT = some t := by
            rw [hB, hA]
            simp [rotateRelink, set_child, clear_child, child_at, flip,
              getN_setColor, getN_setParent', getN_setLeft, getN_setRight,
              getN_structure_fixup, mem_structure_fixup, length_setColor,
              length_setParent, length_setLeft, length_setRight, ht, hcl,
              htc, Ne.symm htc, htRc, hcp, hG, hg, hgp, hgt, Ne.symm hgt,
              hgc, Ne.symm hgc, hP, hp, hpt, Ne.symm hpt, hpc, Ne.symm hpc,
              hplc, hprc, hpg, Ne.symm hpg, hplt, hprtN]
          have hBcp : (getN B c).parent = some p := by
            rw [hB, hA]
            simp [rotateRelink, set_child, clear_child, child_at, flip,
              getN_setColor, getN_setParent', getN_setLeft, getN_setRight,
              getN_structure_fixup, mem_structure_fixup, length_setColor,
              length_setParent, length_setLeft, length_setRight, ht, hcl,
              htc, Ne.symm htc, htRc, hcp, hG, hg, hgp, hgt, Ne.symm hgt,
              hgc, Ne.symm hgc, hP, hp, hpt, Ne.symm hpt, hpc, Ne.symm hpc,
              hplc, hprc, hpg, Ne.symm hpg, hplt, hprtN]
          have hcd2 : direction_of B p (some c) = Direction.LEFT := by
            rw [hB, hA]
            simp [rotateRelink, set_child, clear_child, child_at, flip,
              getN_setColor, getN_setParent', getN_setLeft, getN_setRight,
              getN_structure_fixup, mem_structure_fixup, length_setColor,
              length_setParent, length_setLeft, length_setRight,
              direction_of, ht, hcl, htc, Ne.symm htc, htRc, hcp, hG, hg,
              hgp, hgt, Ne.symm hgt, hgc, Ne.symm hgc, hP, hp, hpt,
              Ne.symm hpt, hpc, Ne.symm hpc, hplc, hprc, hpg, Ne.symm hpg,
              hplt, hprtN]
          rw [hr1]
          simp only []
          rw [rotate_eq_parent B c t p Direction.RIGHT (by decide)
            (show child_at B c (flip Direction.RIGHT) = some t from hBcl) hBcp, hcd2]
          refine ⟨?_, rfl⟩
          intro i
          by_cases hit : i = t
          · subst hit
            rw [hB, hA]
            simp [rotateRelink, set_child, clear_child, child_at, flip,
              getN_setColor, getN_setParent', getN_setLeft, getN_setRight,
              getN_structure_fixup, mem_structure_fixup, length_setColor,
              length_setParent, length_setLeft, length_setRight, ht, hcl,
              htc, Ne.symm htc, htRc, hcp, hG, hg, hgp, hgt, Ne.symm hgt,
              hgc, Ne.symm hgc, hP, hp, hpt, Ne.symm hpt, hpc, Ne.symm hpc,
              hplc, hprc, hpg, Ne.symm hpg, hplt, hprtN]
            try (apply node_ext <;> simp [hP, htRc])
          · by_cases hic : i = c
            · subst hic
              rw [hB, hA]
              simp [rotateRelink, set_child, clear_child, child_at, flip,
                getN_setColor, getN_setParent', getN_setLeft, getN_setRight,
                getN_structure_fixup, mem_structure_fixup, length_setColor,
                length_setParent, length_setLeft, length_setRight, ht, hcl,
                htc, Ne.symm htc, htRc, hcp, hG, hg, hgp, hgt, Ne.symm hgt,
                hgc, Ne.symm hgc, hP, hp, hpt, Ne.symm hpt, hpc, Ne.symm hpc,
                hplc, hprc, hpg, Ne.symm hpg, hplt, hprtN]
              try (apply node_ext <;> simp [hcp, hG])
            · by_cases hig : i = g
              · subst hig
                rw [hB, hA]
                simp [rotateRelink, set_child, clear_child, child_at, flip,
                  getN_setColor, getN_setParent', getN_setLeft,
                  getN_setRight, getN_structure_fixup, mem_structure_fixup,
                  length_setColor, length_setParent, length_setLeft,
                  length_setRight, ht, hcl, htc, Ne.symm htc, htRc, hcp, hG,
                  hg, hgp, hgt, Ne.symm hgt, hgc, Ne.symm hgc, hP, hp, hpt,
                  Ne.symm hpt, hpc, Ne.symm hpc, hplc, hprc, hpg,
                  Ne.symm hpg, hplt, hprtN]
                try (apply node_ext <;> simp [hgp])
              · by_cases hip : i = p
                · subst hip
                  rw [hB, hA]
                  simp [rotateRelink, set_child, clear_child, child_at, flip,
                    getN_setColor, getN_setParent', getN_setLeft,
                    getN_setRight, getN_structure_fixup, mem_structure_fixup,
                    length_setColor, length_setParent, length_setLeft,
                    length_setRight, ht, hcl, htc, Ne.symm htc, htRc, hcp,
                    hG, hg, hgp, hgt, Ne.symm hgt, hgc, Ne.symm hgc, hP, hp,
                    hpt, Ne.symm hpt, hpc, Ne.symm hpc, hplc, hprc, hpg,
                    Ne.symm hpg, hplt, hprtN, hit, hic, hig]
                  try (apply node_ext <;> simp [hplt])
                · rw [hB, hA]
                  simp [rotateRelink, set_child, clear_child, child_at, flip,
                    getN_setColor, getN_setParent', getN_setLeft,
                    getN_setRight, getN_structure_fixup, mem_structure_fixup,
                    length_setColor, length_setParent, length_setLeft,
                    length_setRight, ht, hcl, htc, Ne.symm htc, htRc, hcp,
                    hG, hg, hgp, hgt, Ne.symm hgt, hgc, Ne.symm hgc, hP, hp,
                    hpt, Ne.symm hpt, hpc, Ne.symm hpc, hplc, hprc, hpg,
                    Ne.symm hpg, hplt, hprtN, hit, hic, hip, hig]
        · have hpltN : (getN h p).left ≠ some t :=
            fun hx => hpboth ⟨hx, hprt⟩
          have hcd : direction_of h p (some t) = Direction.RIGHT := by
            simp [direction_of, hpltN, hprt]
          set A := rotateRelink h t c Direction.LEFT Direction.RIGHT with hA
          set B := set_child (clear_child (structure_fixup (structure_fixup
              A c) t) p Direction.RIGHT) p (some c) Direction.RIGHT with hB
          have hr1 : rotate h t Direction.LEFT = (B, c) := by
            rw [rotate_eq_parent h t c p Direction.LEFT (by decide) hcc hP, hcd]
            try rfl
          have hBcl : child_at B c Direction.LEFT = some t := by
            rw [hB, hA]
            simp [rotateRelink, set_child, clear_child, child_at, flip,
              getN_setColor, getN_setParent', getN_setLeft, getN_setRight,
              getN_structure_fixup, mem_structure_fixup, length_setColor,
              length_setParent, length_setLeft, length_setRight, ht, hcl,
              htc, Ne.symm htc, htRc, hcp, hG, hg, hgp, hgt, Ne.symm hgt,
              hgc, Ne.symm hgc, hP, hp, hpt, Ne.symm hpt, hpc, Ne.symm hpc,
              hplc, hprc, hpg, Ne.symm hpg, hprt, hpltN]
          have hBcp : (getN B c).parent = some p := by
            rw [hB, hA]
            simp [rotateRelink, set_child, clear_child, child_at, flip,
              getN_setColor, getN_setParent', getN_setLeft, getN_setRight,
              getN_structure_fixup, mem_structure_fixup, length_setColor,
              length_setParent, length_setLeft, length_setRight, ht, hcl,
              htc, Ne.symm htc, htRc, hcp, hG, hg, hgp, hgt, Ne.symm hgt,
              hgc, Ne.symm hgc, hP, hp, hpt, Ne.symm hpt, hpc, Ne.symm hpc,
              hplc, hprc, hpg, Ne.symm hpg, hprt, hpltN]
          have hcd2 : direction_of B p (some c) = Direction.RIGHT := by
            rw [hB, hA]
            simp [rotateRelink, set_child, clear_child, child_at, flip,
              getN_setColor, getN_setParent', getN_setLeft, getN_setRight,
              getN_structure_fixup, mem_structure_fixup, length_setColor,
              length_setParent, length_setLeft, length_setRight,
              direction_of, ht, hcl, htc, Ne.symm htc, htRc, hcp, hG, hg,
              hgp, hgt, Ne.symm hgt, hgc, Ne.symm hgc, hP, hp, hpt,
              Ne.symm hpt, hpc, Ne.symm hpc, hplc, hprc, hpg, Ne.symm hpg,
              hprt, hpltN]
          rw [hr1]
          simp only []
          rw [rotate_eq_parent B c t p Direction.RIGHT (by decide)
            (show child_at B c (flip Direction.RIGHT) = some t from hBcl) hBcp, hcd2]
          refine ⟨?_, rfl⟩
          intro i
          by_cases hit : i = t
          · subst hit
            rw [hB, hA]
            simp [rotateRelink, set_child, clear_child, child_at, flip,
              getN_setColor, getN_setParent', getN_setLeft, getN_setRight,
              getN_structure_fixup, mem_structure_fixup, length_setColor,
              length_setParent, length_setLeft, length_setRight, ht, hcl,
              htc, Ne.symm htc, htRc, hcp, hG, hg, hgp, hgt, Ne.symm hgt,
              hgc, Ne.symm hgc, hP, hp, hpt, Ne.symm hpt, hpc, Ne.symm hpc,
              hplc, hprc, hpg, Ne.symm hpg, hprt, hpltN]
            try (apply node_ext <;> simp [hP, htRc])
          · by_cases hic : i = c
            · subst hic
              rw [hB, hA]
              simp [rotateRelink, set_child, clear_child, child_at, flip,
                getN_setColor, getN_setParent', getN_setLeft, getN_setRight,
                getN_structure_fixup, mem_structure_fixup, length_setColor,
                length_setParent, length_setLeft, length_setRight, ht, hcl,
                htc, Ne.symm htc, htRc, hcp, hG, hg, hgp, hgt, Ne.symm hgt,
                hgc, Ne.symm hgc, hP, hp, hpt, Ne.symm hpt, hpc, Ne.symm hpc,
                hplc, hprc, hpg, Ne.symm hpg, hprt, hpltN]
              try (apply node_ext <;> simp [hcp, hG])
            · by_cases hig : i = g
              · subst hig
                rw [hB, hA]
                simp [rotateRelink, set_child, clear_child, child_at, flip,
                  getN_setColor, getN_setParent', getN_setLeft,
                  getN_setRight, getN_structure_fixup, mem_structure_fixup,
                  length_setColor, length_setParent, length_setLeft,
                  length_setRight, ht, hcl, htc, Ne.symm htc, htRc, hcp, hG,
                  hg, hgp, hgt, Ne.symm hgt, hgc, Ne.symm hgc, hP, hp, hpt,
                  Ne.symm hpt, hpc, Ne.symm hpc, hplc, hprc, hpg,
                  Ne.symm hpg, hprt, hpltN]
                try (apply node_ext <;> simp [hgp])
              · by_cases hip : i = p
                · subst hip
                  rw [hB, hA]
                  simp [rotateRelink, set_child, clear_child, child_at, flip,
                    getN_setColor, getN_setParent', getN_setLeft,
                    getN_setRight, getN_structure_fixup, mem_structure_fixup,
                    length_setColor, length_setParent, length_setLeft,
                    length_setRight, ht, hcl, htc, Ne.symm htc, htRc, hcp,
                    hG, hg, hgp, hgt, Ne.symm hgt, hgc, Ne.symm hgc, hP, hp,
                    hpt, Ne.symm hpt, hpc, Ne.symm hpc, hplc, hprc, hpg,
                    Ne.symm hpg, hprt, hpltN, hit, hic, hig]
                  try (apply node_ext <;> simp [hprt])
                · rw [hB, hA]
                  simp [rotateRelink, set_child, clear_child, child_at, flip,
                    getN_setColor, getN_setParent', getN_setLeft,
                    getN_setRight, getN_structure_fixup, mem_structure_fixup,
                    length_setColor, length_setParent, length_setLeft,
                    length_setRight, ht, hcl, htc, Ne.symm htc, htRc, hcp,
                    hG, hg, hgp, hgt, Ne.symm hgt, hgc, Ne.symm hgc, hP, hp,
                    hpt, Ne.symm hpt, hpc, Ne.symm hpc, hplc, hprc, hpg,
                    Ne.symm hpg, hprt, hpltN, hit, hic, hip, hig]
  case RIGHT =>
    simp only [flip]
    have htRc : (getN h t).left = some c := by simpa [child_at, flip] using hcc
    rcases hG : (getN h c).right with _ | g
    all_goals rw [show child_at h c Direction.RIGHT = (getN h c).right from rfl, hG]
      at hypG hypP
    all_goals simp only [Option.elim] at hypG
    · -- g none
      rcases hP : (getN h t).parent with _ | p
      · -- no parent
        set A := rotateRelink h t c Direction.RIGHT Direction.LEFT with hA
        set B := setParent (structure_fixup (structure_fixup A c) t) c none
          with hB
        have hr1 : rotate h t Direction.RIGHT = (B, c) := by
          rw [rotate_eq_root h t c Direction.RIGHT (by decide) hcc hP]
          try rfl
        have hBcl : child_at B c Direction.RIGHT = some t := by
          rw [hB, hA]
          simp [rotateRelink, set_child, clear_child, child_at, flip,
            getN_setColor, getN_setParent', getN_setLeft, getN_setRight,
            getN_structure_fixup, mem_structure_fixup, length_setColor,
            length_setParent, length_setLeft, length_setRight, ht, hcl, htc,
            Ne.symm htc, htRc, hcp, hG]
        have hBcp : (getN B c).parent = none := by
          rw [hB, hA]
          simp [rotateRelink, set_child, clear_child, child_at, flip,
            getN_setColor, getN_setParent', getN_setLeft, getN_setRight,
            getN_structure_fixup, mem_structure_fixup, length_setColor,
            length_setParent, length_setLeft, length_setRight, ht, hcl, htc,
            Ne.symm htc, htRc, hcp, hG]
        rw [hr1]
        simp only []
        rw [rotate_eq_root B c t Direction.LEFT (by decide)
          (show child_at B c (flip Direction.LEFT) = some t from hBcl) hBcp]
        refine ⟨?_, rfl⟩
        intro i
        by_cases hit : i = t
        · subst hit
          rw [hB, hA]
          simp [rotateRelink, set_child, clear_child, child_at, flip,
            getN_setColor, getN_setParent', getN_setLeft, getN_setRight,
            getN_structure_fixup, mem_structure_fixup, length_setColor,
            length_setParent, length_setLeft, length_setRight, ht, hcl, htc,
            Ne.symm htc, htRc, hcp, hG]
          try (apply node_ext <;> simp [hP, htRc])
        · by_cases hic : i = c
          · subst hic
            rw [hB, hA]
            simp [rotateRelink, set_child, clear_child, child_at, flip,
              getN_setColor, getN_setParent', getN_setLeft, getN_setRight,
              getN_structure_fixup, mem_structure_fixup, length_setColor,
              length_setParent, length_setLeft, length_setRight, ht, hcl,
              htc, Ne.symm htc, htRc, hcp, hG]
            try (apply node_ext <;> simp [hcp, hG])
          · rw [hB, hA]
            simp [rotateRelink, set_child, clear_child, child_at, flip,
              getN_setColor, getN_setParent', getN_setLeft, getN_setRight,
              getN_structure_fixup, mem_structure_fixup, length_setColor,
              length_setParent, length_setLeft, length_setRight, ht, hcl,
              htc, Ne.symm htc, htRc, hcp, hG, hit, hic]
      · -- parent p
        rw [hP] at hypP
        simp only [Option.elim] at hypP
        obtain ⟨hp, hpt, hpc, hpgf, hpdir, hpboth, hplc, hprc⟩ := hypP
        rcases hpdir with hplt | hprt
        · have hprtN : (getN h p).right ≠ some t :=
            fun hx => hpboth ⟨hplt, hx⟩
          have hcd : direction_of h p (some t) = Direction.LEFT := by
            simp [direction_of, hplt]
          set A := rotateRelink h t c Direction.RIGHT Direction.LEFT with hA
          set B := set_child (clear_child (structure_fixup (structure_fixup
              A c) t) p Direction.LEFT) p (some c) Direction.LEFT with hB
          have hr1 : rotate h t Direction.RIGHT = (B, c) := by
            rw [rotate_eq_parent h t c p Direction.RIGHT (by decide) hcc hP, hcd]
            try rfl
          have hBcl : child_at B c Direction.RIGHT = some t := by
            rw [hB, hA]
            simp [rotateRelink, set_child, clear_child, child_at, flip,
              getN_setColor, getN_setParent', getN_setLeft, getN_setRight,
              getN_structure_fixup, mem_structure_fixup, length_setColor,
              length_setParent, length_setLeft, length_setRight, ht, hcl,
              htc, Ne.symm htc, htRc, hcp, hG, hP, hp, hpt, Ne.symm hpt, hpc,
              Ne.symm hpc, hplc, hprc, hplt, hprtN]
          have hBcp : (getN B c).parent = some p := by
            rw [hB, hA]
            simp [rotateRelink, set_child, clear_child, child_at, flip,
              getN_setColor, getN_setParent', getN_setLeft, getN_setRight,
              getN_structure_fixup, mem_structure_fixup, length_setColor,
              length_setParent, length_setLeft, length_setRight, ht, hcl,
              htc, Ne.symm htc, htRc, hcp, hG, hP, hp, hpt, Ne.symm hpt, hpc,
              Ne.symm hpc, hplc, hprc, hplt, hprtN]
          have hcd2 : direction_of B p (some c) = Direction.LEFT := by
            rw [hB, hA]
            simp [rotateRelink, set_child, clear_child, child_at, flip,
              getN_setColor, getN_setParent', getN_setLeft, getN_setRight,
              getN_structure_fixup, mem_structure_fixup, length_setColor,
              length_setParent, length_setLeft, length_setRight,
              direction_of, ht, hcl, htc, Ne.symm htc, htRc, hcp, hG, hP, hp,
              hpt, Ne.symm hpt, hpc, Ne.symm hpc, hplc, hprc, hplt, hprtN]
          rw [hr1]
          simp only []
          rw [rotate_eq_parent B c t p Direction.LEFT (by decide)
            (show child_at B c (flip Direction.LEFT) = some t from hBcl) hBcp, hcd2]
          refine ⟨?_, rfl⟩
          intro i
          by_cases hit : i = t
          · subst hit
            rw [hB, hA]
            simp [rotateRelink, set_child, clear_child, child_at, flip,
              getN_setColor, getN_setParent', getN_setLeft, getN_setRight,
              getN_structure_fixup, mem_structure_fixup, length_setColor,
              length_setParent, length_setLeft, length_setRight, ht, hcl,
              htc, Ne.symm htc, htRc, hcp, hG, hP, hp, hpt, Ne.symm hpt, hpc,
              Ne.symm hpc, hplc, hprc, hplt, hprtN]
            try (apply node_ext <;> simp [hP, htRc])
          · by_cases hic : i = c
            · subst hic
              rw [hB, hA]
              simp [rotateRelink, set_child, clear_child, child_at, flip,
                getN_setColor, getN_setParent', getN_setLeft, getN_setRight,
                getN_structure_fixup, mem_structure_fixup, length_setColor,
                length_setParent, length_setLeft, length_setRight, ht, hcl,
                htc, Ne.symm htc, htRc, hcp, hG, hP, hp, hpt, Ne.symm hpt,
                hpc, Ne.symm hpc, hplc, hprc, hplt, hprtN]
              try (apply node_ext <;> simp [hcp, hG])
            · by_cases hip : i = p
              · subst hip
                rw [hB, hA]
                simp [rotateRelink, set_child, clear_child, child_at, flip,
                  getN_setColor, getN_setParent', getN_setLeft,
                  getN_setRight, getN_structure_fixup, mem_structure_fixup,
                  length_setColor, length_setParent, length_setLeft,
                  length_setRight, ht, hcl, htc, Ne.symm htc, htRc, hcp, hG,
                  hP, hp, hpt, Ne.symm hpt, hpc, Ne.symm hpc, hplc, hprc,
                  hplt, hprtN, hit, hic]
                try (apply node_ext <;> simp [hplt])
              · rw [hB, hA]
                simp [rotateRelink, set_child, clear_child, child_at, flip,
                  getN_setColor, getN_setParent', getN_setLeft,
                  getN_setRight, getN_structure_fixup, mem_structure_fixup,
                  length_setColor, length_setParent, length_setLeft,
                  length_setRight, ht, hcl, htc, Ne.symm htc, htRc, hcp, hG,
                  hP, hp, hpt, Ne.symm hpt, hpc, Ne.symm hpc, hplc, hprc,
                  hplt, hprtN, hit, hic, hip]
        · have hpltN : (getN h p).left ≠ some t :=
            fun hx => hpboth ⟨hx, hprt⟩
          have hcd : direction_of h p (some t) = Direction.RIGHT := by
            simp [direction_of, hpltN, hprt]
          set A := rotateRelink h t c Direction.RIGHT Direction.LEFT with hA
          set B := set_child (clear_child (structure_fixup (structure_fixup
              A c) t) p Direction.RIGHT) p (some c) Direction.RIGHT with hB
          have hr1 : rotate h t Direction.RIGHT = (B, c) := by
            rw [rotate_eq_parent h t c p Direction.RIGHT (by decide) hcc hP, hcd]
            try rfl
          have hBcl : child_at B c Direction.RIGHT = some t := by
            rw [hB, hA]
            simp [rotateRelink, set_child, clear_child, child_at, flip,
              getN_setColor, getN_setParent', getN_setLeft, getN_setRight,
              getN_structure_fixup, mem_structure_fixup, length_setColor,
              length_setParent, length_setLeft, length_setRight, ht, hcl,
              htc, Ne.symm htc, htRc, hcp, hG, hP, hp, hpt, Ne.symm hpt, hpc,
              Ne.symm hpc, hplc, hprc, hprt, hpltN]
          have hBcp : (getN B c).parent = some p := by
            rw [hB, hA]
            simp [rotateRelink, set_child, clear_child, child_at, flip,
              getN_setColor, getN_setParent', getN_setLeft, getN_setRight,
              getN_structure_fixup, mem_structure_fixup, length_setColor,
              length_setParent, length_setLeft, length_setRight, ht, hcl,
              htc, Ne.symm htc, htRc, hcp, hG, hP, hp, hpt, Ne.symm hpt, hpc,
              Ne.symm hpc, hplc, hprc, hprt, hpltN]
          have hcd2 : direction_of B p (some c) = Direction.RIGHT := by
            rw [hB, hA]
            simp [rotateRelink, set_child, clear_child, child_at, flip,
              getN_setColor, getN_setParent', getN_setLeft, getN_setRight,
              getN_structure_fixup, mem_structure_fixup, length_setColor,
              length_setParent, length_setLeft, length_setRight,
              direction_of, ht, hcl, htc, Ne.symm htc, htRc, hcp, hG, hP, hp,
              hpt, Ne.symm hpt, hpc, Ne.symm hpc, hplc, hprc, hprt, hpltN]
          rw [hr1]
          simp only []
          rw [rotate_eq_parent B c t p Direction.LEFT (by decide)
            (show child_at B c (flip Direction.LEFT) = some t from hBcl) hBcp, hcd2]
          refine ⟨?_, rfl⟩
          intro i
          by_cases hit : i = t
          · subst hit
            rw [hB, hA]
            simp [rotateRelink, set_child, clear_child, child_at, flip,
              getN_setColor, getN_setParent', getN_setLeft, getN_setRight,
              getN_structure_fixup, mem_structure_fixup, length_setColor,
              length_setParent, length_setLeft, length_setRight, ht, hcl,
              htc, Ne.symm htc, htRc, hcp, hG, hP, hp, hpt, Ne.symm hpt, hpc,
              Ne.symm hpc, hplc, hprc, hprt, hpltN]
            try (apply node_ext <;> simp [hP, htRc])
          · by_cases hic : i = c
            · subst hic
              rw [hB, hA]
              simp [rotateRelink, set_child, clear_child, child_at, flip,
                getN_setColor, getN_setParent', getN_setLeft, getN_setRight,
                getN_structure_fixup, mem_structure_fixup, length_setColor,
                length_setParent, length_setLeft, length_setRight, ht, hcl,
                htc, Ne.symm htc, htRc, hcp, hG, hP, hp, hpt, Ne.symm hpt,
                hpc, Ne.symm hpc, hplc, hprc, hprt, hpltN]
              try (apply node_ext <;> simp [hcp, hG])
            · by_cases hip : i = p
              · subst hip
                rw [hB, hA]
                simp [rotateRelink, set_child, clear_child, child_at, flip,
                  getN_setColor, getN_setParent', getN_setLeft,
                  getN_setRight, getN_structure_fixup, mem_structure_fixup,
                  length_setColor, length_setParent, length_setLeft,
                  length_setRight, ht, hcl, htc, Ne.symm htc, htRc, hcp, hG,
                  hP, hp, hpt, Ne.symm hpt, hpc, Ne.symm hpc, hplc, hprc,
                  hprt, hpltN, hit, hic]
                try (apply node_ext <;> simp [hprt])
              · rw [hB, hA]
                simp [rotateRelink, set_child, clear_child, child_at, flip,
                  getN_setColor, getN_setParent', getN_setLeft,
                  getN_setRight, getN_structure_fixup, mem_structure_fixup,
                  length_setColor, length_setParent, length_setLeft,
                  length_setRight, ht, hcl, htc, Ne.symm htc, htRc, hcp, hG,
                  hP, hp, hpt, Ne.symm hpt, hpc, Ne.symm hpc, hplc, hprc,
                  hprt, hpltN, hit, hic, hip]
    · -- g some
      obtain ⟨hg, hgp, hgt, hgc⟩ := hypG
      rcases hP : (getN h t).parent with _ | p
      · -- no parent
        set A := rotateRelink h t c Direction.RIGHT Direction.LEFT with hA
        set B := setParent (structure_fixup (structure_fixup A c) t) c none
          with hB
        have hr1 : rotate h t Direction.RIGHT = (B, c) := by
          rw [rotate_eq_root h t c Direction.RIGHT (by decide) hcc hP]
          try rfl
        have hBcl : child_at B c Direction.RIGHT = some t := by
          rw [hB, hA]
          simp [rotateRelink, set_child, clear_child, child_at, flip,
            getN_setColor, getN_setParent', getN_setLeft, getN_setRight,
            getN_structure_fixup, mem_structure_fixup, length_setColor,
            length_setParent, length_setLeft, length_setRight, ht, hcl, htc,
            Ne.symm htc, htRc, hcp, hG, hg, hgp, hgt, Ne.symm hgt, hgc,
            Ne.symm hgc]
        have hBcp : (getN B c).parent = none := by
          rw [hB, hA]
          simp [rotateRelink, set_child, clear_child, child_at, flip,
            getN_setColor, getN_setParent', getN_setLeft, getN_setRight,
            getN_structure_fixup, mem_structure_fixup, length_setColor,
            length_setParent, length_setLeft, length_setRight, ht, hcl, htc,
            Ne.symm htc, htRc, hcp, hG, hg, hgp, hgt, Ne.symm hgt, hgc,
            Ne.symm hgc]
        rw [hr1]
        simp only []
        rw [rotate_eq_root B c t Direction.LEFT (by decide)
          (show child_at B c (flip Direction.LEFT) = some t from hBcl) hBcp]
        refine ⟨?_, rfl⟩
        intro i
        by_cases hit : i = t
        · subst hit
          rw [hB, hA]
          simp [rotateRelink, set_child, clear_child, child_at, flip,
            getN_setColor, getN_setParent', getN_setLeft, getN_setRight,
            getN_structure_fixup, mem_structure_fixup, length_setColor,
            length_setParent, length_setLeft, length_setRight, ht, hcl, htc,
            Ne.symm htc, htRc, hcp, hG, hg, hgp, hgt, Ne.symm hgt, hgc,
            Ne.symm hgc]
          try (apply node_ext <;> simp [hP, htRc])
        · by_cases hic : i = c
          · subst hic
            rw [hB, hA]
            simp [rotateRelink, set_child, clear_child, child_at, flip,
              getN_setColor, getN_setParent', getN_setLeft, getN_setRight,
              getN_structure_fixup, mem_structure_fixup, length_setColor,
              length_setParent, length_setLeft, length_setRight, ht, hcl,
              htc, Ne.symm htc, htRc, hcp, hG, hg, hgp, hgt, Ne.symm hgt,
              hgc, Ne.symm hgc]
            try (apply node_ext <;> simp [hcp, hG])
          · by_cases hig : i = g
            · subst hig
              rw [hB, hA]
              simp [rotateRelink, set_child, clear_child, child_at, flip,
                getN_setColor, getN_setParent', getN_setLeft, getN_setRight,
                getN_structure_fixup, mem_structure_fixup, length_setColor,
                length_setParent, length_setLeft, length_setRight, ht, hcl,
                htc, Ne.symm htc, htRc, hcp, hG, hg, hgp, hgt, Ne.symm hgt,
                hgc, Ne.symm hgc]
              try (apply node_ext <;> simp [hgp])
            · rw [hB, hA]
              simp [rotateRelink, set_child, clear_child, child_at, flip,
                getN_setColor, getN_setParent', getN_setLeft, getN_setRight,
                getN_structure_fixup, mem_structure_fixup, length_setColor,
                length_setParent, length_setLeft, length_setRight, ht, hcl,
                htc, Ne.symm htc, htRc, hcp, hG, hg, hgp, hgt, Ne.symm hgt,
                hgc, Ne.symm hgc, hit, hic, hig]
      · -- parent p
        rw [hP] at hypP
        simp only [Option.elim] at hypP
        obtain ⟨hp, hpt, hpc, hpgf, hpdir, hpboth, hplc, hprc⟩ := hypP
        have hpg : p ≠ g := hpgf g rfl
        rcases hpdir with hplt | hprt
        · have hprtN : (getN h p).right ≠ some t :=
            fun hx => hpboth ⟨hplt, hx⟩
          have hcd : direction_of h p (some t) = Direction.LEFT := by
            simp [direction_of, hplt]
          set A := rotateRelink h t c Direction.RIGHT Direction.LEFT with hA
          set B := set_child (clear_child (structure_fixup (structure_fixup
              A c) t) p Direction.LEFT) p (some c) Direction.LEFT with hB
          have hr1 : rotate h t Direction.RIGHT = (B, c) := by
            rw [rotate_eq_parent h t c p Direction.RIGHT (by decide) hcc hP, hcd]
            try rfl
          have hBcl : child_at B c Direction.RIGHT = some t := by
            rw [hB, hA]
            simp [rotateRelink, set_child, clear_child, child_at, flip,
              getN_setColor, getN_setParent', getN_setLeft, getN_setRight,
              getN_structure_fixup, mem_structure_fixup, length_setColor,
              length_setParent, length_setLeft, length_setRight, ht, hcl,
              htc, Ne.symm htc, htRc, hcp, hG, hg, hgp, hgt, Ne.symm hgt,
              hgc, Ne.symm hgc, hP, hp, hpt, Ne.symm hpt, hpc, Ne.symm hpc,
              hplc, hprc, hpg, Ne.symm hpg, hplt, hprtN]
          have hBcp : (getN B c).parent = some p := by
            rw [hB, hA]
            simp [rotateRelink, set_child, clear_child, child_at, flip,
              getN_setColor, getN_setParent', getN_setLeft, getN_setRight,
              getN_structure_fixup, mem_structure_fixup, length_setColor,
              length_setParent, length_setLeft, length_setRight, ht, hcl,
              htc, Ne.symm htc, htRc, hcp, hG, hg, hgp, hgt, Ne.symm hgt,
              hgc, Ne.symm hgc, hP, hp, hpt, Ne.symm hpt, hpc, Ne.symm hpc,
              hplc, hprc, hpg, Ne.symm hpg, hplt, hprtN]
          have hcd2 : direction_of B p (some c) = Direction.LEFT := by
            rw [hB, hA]
            simp [rotateRelink, set_child, clear_child, child_at, flip,
              getN_setColor, getN_setParent', getN_setLeft, getN_setRight,
              getN_structure_fixup, mem_structure_fixup, length_setColor,
              length_setParent, length_setLeft, length_setRight,
              direction_of, ht, hcl, htc, Ne.symm htc, htRc, hcp, hG, hg,
              hgp, hgt, Ne.symm hgt, hgc, Ne.symm hgc, hP, hp, hpt,
              Ne.symm hpt, hpc, Ne.symm hpc, hplc, hprc, hpg, Ne.symm hpg,
              hplt, hprtN]
          rw [hr1]
          simp only []
          rw [rotate_eq_parent B c t p Direction.LEFT (by decide)
            (show child_at B c (flip Direction.LEFT) = some t from hBcl) hBcp, hcd2]
          refine ⟨?_, rfl⟩
          intro i
          by_cases hit : i = t
          · subst hit
            rw [hB, hA]
            simp [rotateRelink, set_child, clear_child, child_at, flip,
              getN_setColor, getN_setParent', getN_setLeft, getN_setRight,
              getN_structure_fixup, mem_structure_fixup, length_setColor,
              length_setParent, length_setLeft, length_setRight, ht, hcl,
              htc, Ne.symm htc, htRc, hcp, hG, hg, hgp, hgt, Ne.symm hgt,
              hgc, Ne.symm hgc, hP, hp, hpt, Ne.symm hpt, hpc, Ne.symm hpc,
              hplc, hprc, hpg, Ne.symm hpg, hplt, hprtN]
            try (apply node_ext <;> simp [hP, htRc])
          · by_cases hic : i = c
            · subst hic
              rw [hB, hA]
              simp [rotateRelink, set_child, clear_child, child_at, flip,
                getN_setColor, getN_setParent', getN_setLeft, getN_setRight,
                getN_structure_fixup, mem_structure_fixup, length_setColor,
                length_setParent, length_setLeft, length_setRight, ht, hcl,
                htc, Ne.symm htc, htRc, hcp, hG, hg, hgp, hgt, Ne.symm hgt,
                hgc, Ne.symm hgc, hP, hp, hpt, Ne.symm hpt, hpc, Ne.symm hpc,
                hplc, hprc, hpg, Ne.symm hpg, hplt, hprtN]
              try (apply node_ext <;> simp [hcp, hG])
            · by_cases hig : i = g
              · subst hig
                rw [hB, hA]
                simp [rotateRelink, set_child, clear_child, child_at, flip,
                  getN_setColor, getN_setParent', getN_setLeft,
                  getN_setRight, getN_structure_fixup, mem_structure_fixup,
                  length_setColor, length_setParent, length_setLeft,
                  length_setRight, ht, hcl, htc, Ne.symm htc, htRc, hcp, hG,
                  hg, hgp, hgt, Ne.symm hgt, hgc, Ne.symm hgc, hP, hp, hpt,
                  Ne.symm hpt, hpc, Ne.symm hpc, hplc, hprc, hpg,
                  Ne.symm hpg, hplt, hprtN]
                try (apply node_ext <;> simp [hgp])
              · by_cases hip : i = p
                · subst hip
                  rw [hB, hA]
                  simp [rotateRelink, set_child, clear_child, child_at, flip,
                    getN_setColor, getN_setParent', getN_setLeft,
                    getN_setRight, getN_structure_fixup, mem_structure_fixup,
                    length_setColor, length_setParent, length_setLeft,
                    length_setRight, ht, hcl, htc, Ne.symm htc, htRc, hcp,
                    hG, hg, hgp, hgt, Ne.symm hgt, hgc, Ne.symm hgc, hP, hp,
                    hpt, Ne.symm hpt, hpc, Ne.symm hpc, hplc, hprc, hpg,
                    Ne.symm hpg, hplt, hprtN, hit, hic, hig]
                  try (apply node_ext <;> simp [hplt])
                · rw [hB, hA]
                  simp [rotateRelink, set_child, clear_child, child_at, flip,
                    getN_setColor, getN_setParent', getN_setLeft,
                    getN_setRight, getN_structure_fixup, mem_structure_fixup,
                    length_setColor, length_setParent, length_setLeft,
                    length_setRight, ht, hcl, htc, Ne.symm htc, htRc, hcp,
                    hG, hg, hgp, hgt, Ne.symm hgt, hgc, Ne.symm hgc, hP, hp,
                    hpt, Ne.symm hpt, hpc, Ne.symm hpc, hplc, hprc, hpg,
                    Ne.symm hpg, hplt, hprtN, hit, hic, hip, hig]
        · have hpltN : (getN h p).left ≠ some t :=
            fun hx => hpboth ⟨hx, hprt⟩
          have hcd : direction_of h p (some t) = Direction.RIGHT := by
            simp [direction_of, hpltN, hprt]
          set A := rotateRelink h t c Direction.RIGHT Direction.LEFT with hA
          set B := set_child (clear_child (structure_fixup (structure_fixup
              A c) t) p Direction.RIGHT) p (some c) Direction.RIGHT with hB
          have hr1 : rotate h t Direction.RIGHT = (B, c) := by
            rw [rotate_eq_parent h t c p Direction.RIGHT (by decide) hcc hP, hcd]
            try rfl
          have hBcl : child_at B c Direction.RIGHT = some t := by
            rw [hB, hA]
            simp [rotateRelink, set_child, clear_child, child_at, flip,
              getN_setColor, getN_setParent', getN_setLeft, getN_setRight,
              getN_structure_fixup, mem_structure_fixup, length_setColor,
              length_setParent, length_setLeft, length_setRight, ht, hcl,
              htc, Ne.symm htc, htRc, hcp, hG, hg, hgp, hgt, Ne.symm hgt,
              hgc, Ne.symm hgc, hP, hp, hpt, Ne.symm hpt, hpc, Ne.symm hpc,
              hplc, hprc, hpg, Ne.symm hpg, hprt, hpltN]
          have hBcp : (getN B c).parent = some p := by
            rw [hB, hA]
            simp [rotateRelink, set_child, clear_child, child_at, flip,
              getN_setColor, getN_setParent', getN_setLeft, getN_setRight,
              getN_structure_fixup, mem_structure_fixup, length_setColor,
              length_setParent, length_setLeft, length_setRight, ht, hcl,
              htc, Ne.symm htc, htRc, hcp, hG, hg, hgp, hgt, Ne.symm hgt,
              hgc, Ne.symm hgc, hP, hp, hpt, Ne.symm hpt, hpc, Ne.symm hpc,
              hplc, hprc, hpg, Ne.symm hpg, hprt, hpltN]
          have hcd2 : direction_of B p (some c) = Direction.RIGHT := by
            rw [hB, hA]
            simp [rotateRelink, set_child, clear_child, child_at, flip,
              getN_setColor, getN_setParent', getN_setLeft, getN_setRight,
              getN_structure_fixup, mem_structure_fixup, length_setColor,
              length_setParent, length_setLeft, length_setRight,
              direction_of, ht, hcl, htc, Ne.symm htc, htRc, hcp, hG, hg,
              hgp, hgt, Ne.symm hgt, hgc, Ne.symm hgc, hP, hp, hpt,
              Ne.symm hpt, hpc, Ne.symm hpc, hplc, hprc, hpg, Ne.symm hpg,
              hprt, hpltN]
          rw [hr1]
          simp only []
          rw [rotate_eq_parent B c t p Direction.LEFT (by decide)
            (show child_at B c (flip Direction.LEFT) = some t from hBcl) hBcp, hcd2]
          refine ⟨?_, rfl⟩
          intro i
          by_cases hit : i = t
          · subst hit
            rw [hB, hA]
            simp [rotateRelink, set_child, clear_child, child_at, flip,
              getN_setColor, getN_setParent', getN_setLeft, getN_setRight,
              getN_structure_fixup, mem_structure_fixup, length_setColor,
              length_setParent, length_setLeft, length_setRight, ht, hcl,
              htc, Ne.symm htc, htRc, hcp, hG, hg, hgp, hgt, Ne.symm hgt,
              hgc, Ne.symm hgc, hP, hp, hpt, Ne.symm hpt, hpc, Ne.symm hpc,
              hplc, hprc, hpg, Ne.symm hpg, hprt, hpltN]
            try (apply node_ext <;> simp [hP, htRc])
          · by_cases hic : i = c
            · subst hic
              rw [hB, hA]
              simp [rotateRelink, set_child, clear_child, child_at, flip,
                getN_setColor, getN_setParent', getN_setLeft, getN_setRight,
                getN_structure_fixup, mem_structure_fixup, length_setColor,
                length_setParent, length_setLeft, length_setRight, ht, hcl,
                htc, Ne.symm htc, htRc, hcp, hG, hg, hgp, hgt, Ne.symm hgt,
                hgc, Ne.symm hgc, hP, hp, hpt, Ne.symm hpt, hpc, Ne.symm hpc,
                hplc, hprc, hpg, Ne.symm hpg, hprt, hpltN]
              try (apply node_ext <;> simp [hcp, hG])
            · by_cases hig : i = g
              · subst hig
                rw [hB, hA]
                simp [rotateRelink, set_child, clear_child, child_at, flip,
                  getN_setColor, getN_setParent', getN_setLeft,
                  getN_setRight, getN_structure_fixup, mem_structure_fixup,
                  length_setColor, length_setParent, length_setLeft,
                  length_setRight, ht, hcl, htc, Ne.symm htc, htRc, hcp, hG,
                  hg, hgp, hgt, Ne.symm hgt, hgc, Ne.symm hgc, hP, hp, hpt,
                  Ne.symm hpt, hpc, Ne.symm hpc, hplc, hprc, hpg,
                  Ne.symm hpg, hprt, hpltN]
                try (apply node_ext <;> simp [hgp])
              · by_cases hip : i = p
                · subst hip
                  rw [hB, hA]
                  simp [rotateRelink, set_child, clear_child, child_at, flip,
                    getN_setColor, getN_setParent', getN_setLeft,
                    getN_setRight, getN_structure_fixup, mem_structure_fixup,
                    length_setColor, length_setParent, length_setLeft,
                    length_setRight, ht, hcl, htc, Ne.symm htc, htRc, hcp,
                    hG, hg, hgp, hgt, Ne.symm hgt, hgc, Ne.symm hgc, hP, hp,
                    hpt, Ne.symm hpt, hpc, Ne.symm hpc, hplc, hprc, hpg,
                    Ne.symm hpg, hprt, hpltN, hit, hic, hig]
                  try (apply node_ext <;> simp [hprt])
                · rw [hB, hA]
                  simp [rotateRelink, set_child, clear_child, child_at, flip,
                    getN_setColor, getN_setParent', getN_setLeft,
                    getN_setRight, getN_structure_fixup, mem_structure_fixup,
                    length_setColor, length_setParent, length_setLeft,
                    length_setRight, ht, hcl, htc, Ne.symm htc, htRc, hcp,
                    hG, hg, hgp, hgt, Ne.symm hgt, hgc, Ne.symm hgc, hP, hp,
                    hpt, Ne.symm hpt, hpc, Ne.symm hpc, hplc, hprc, hpg,
                    Ne.symm hpg, hprt, hpltN, hit, hic, hip, hig]

end swoc

namespace swoc

/-- Four-node chain for the rotation witness: 0 is the BLACK root with
left child 1; node 1 has right child 2; node 2 has left child 3. -/
def hC8w : Heap :=
  ⟨[⟨Color.BLACK, none, some 1, none⟩,
    ⟨Color.BLACK, some 0, none, some 2⟩,
    ⟨Color.RED, some 1, some 3, none⟩,
    ⟨Color.RED, some 2, none, none⟩], []⟩

/-- Witness for C8 at a concrete heap: a LEFT rotation of node 1 followed
by a RIGHT rotation of the returned root restores the store. -/
theorem C8_double_rotate_witness :
    (child_at hC8w 1 (flip Direction.LEFT) = some 2 ∧
      (getN hC8w 2).parent = some 1) ∧
    (rotate (rotate hC8w 1 Direction.LEFT).1
      (rotate hC8w 1 Direction.LEFT).2 (flip Direction.LEFT)).1.mem =
      hC8w.mem ∧
    (rotate (rotate hC8w 1 Direction.LEFT).1
      (rotate hC8w 1 Direction.LEFT).2 (flip Direction.LEFT)).2 = 1 := by
  have happ := C8_double_rotate hC8w 1 2 Direction.LEFT (by decide)
    (by decide) (by decide) (by decide) (by decide) (by decide)
    (show (3:Nat) < hC8w.mem.length ∧ (getN hC8w 3).parent = some 2 ∧
        (3:Nat) ≠ 1 ∧ (3:Nat) ≠ 2 from by decide)
    (show (0:Nat) < hC8w.mem.length ∧ (0:Nat) ≠ 1 ∧ (0:Nat) ≠ 2 ∧
        (∀ g0, child_at hC8w 2 Direction.LEFT = some g0 → (0:Nat) ≠ g0) ∧
        ((getN hC8w 0).left = some 1 ∨ (getN hC8w 0).right = some 1) ∧
        ¬((getN hC8w 0).left = some 1 ∧ (getN hC8w 0).right = some 1) ∧
        (getN hC8w 0).left ≠ some 2 ∧ (getN hC8w 0).right ≠ some 2 from by
      refine ⟨by decide, by decide, by decide, ?_, by decide, by decide,
        by decide, by decide⟩
      intro g0 hg0
      rw [show child_at hC8w 2 Direction.LEFT = some 3 from by decide]
        at hg0
      injection hg0 with hg0
      subst hg0
      decide)
  exact ⟨⟨by decide, by decide⟩, happ.1, happ.2⟩

end swoc
